import Mathlib

/-!
# X300 host driver: discovery, claim, Stream-ID allocation, frame sizes and clock control

A shallow embedding of `host/lib/usrp/x300/x300_impl.cpp`.

* 32-bit machine words are natural numbers reduced `% 2^32` where the C++
  arithmetic can overflow.
* Stateful code passes its state explicitly.  The register interface
  (`wb_iface`) records every `poke32` in call order.
* A call that can raise or loop returns an `outcome`: the value returned, the
  exception raised, or `unfinished` when the bound on the number of steps is
  reached first.
* Constants, macros and library routines that are declared in headers outside
  the two embedded source files are collected in the structure `x300_defs`
  and taken as a parameter by every definition that uses them.
-/

namespace X300

/-! ## Declarations from headers that are not part of the embedded sources -/

/-- Constants, macros and library routines the driver uses but does not define
(`x300_regs.hpp`, `x300_impl.hpp`, `x300_fw_common.h`, byte-order helpers).
Every definition that needs one of them takes the whole record as a
parameter, so the theorems hold for every choice of the values. -/
structure x300_defs where
  /-- Macro `SR_ADDR(base, offset)`. -/
  SR_ADDR : Nat → Nat → Nat
  /-- Macro `PCIE_ROUTER_REG(x)`. -/
  PCIE_ROUTER_REG : Nat → Nat
  /-- Macro `TOREG(x)`. -/
  TOREG : Nat → Nat
  SET0_BASE : Nat
  SETXB_BASE : Nat
  ZPU_SR_XB_LOCAL : Nat
  ZPU_RB_ETH_TYPE0 : Nat
  ZPU_RB_ETH_TYPE1 : Nat
  SR_MISC_OUTS : Nat
  X300_FW_SHMEM_BASE : Nat
  X300_FW_SHMEM_CLAIM_STATUS : Nat
  X300_FW_SHMEM_CLAIM_TIME : Nat
  X300_FW_SHMEM_CLAIM_SRC : Nat
  X300_DEVICE_HERE : Nat
  /-- Width in bits of the type of the member `_sid_framer`. -/
  sid_framer_bits : Nat
  X300_FW_COMMS_FLAGS_ACK : Nat
  X300_USRP_PCIE_SSID : Nat
  X310_USRP_PCIE_SSID : Nat
  X310_2940R_PCIE_SSID : Nat
  X310_2942R_PCIE_SSID : Nat
  X310_2943R_PCIE_SSID : Nat
  X310_2944R_PCIE_SSID : Nat
  X310_2950R_PCIE_SSID : Nat
  X310_2952R_PCIE_SSID : Nat
  X310_2953R_PCIE_SSID : Nat
  X310_2954R_PCIE_SSID : Nat
  /-- Library routine `uhd::htonx<boost::uint32_t>`. -/
  htonx : Nat → Nat
  /-- Library routine `boost::lexical_cast<boost::uint16_t>`; `none` stands
  for `bad_lexical_cast`. -/
  lexical_cast_uint16 : String → Option Nat
  /-- Library routine `boost::lexical_cast<size_t>`; `none` stands for
  `bad_lexical_cast`. -/
  lexical_cast_size_t : String → Option Nat
  /-- The value of `sizeof(x300_mtu_t)`. -/
  sizeof_x300_mtu_t : Nat
  X300_MTU_DETECT_ECHO_REQUEST : Nat
  X300_MTU_DETECT_ECHO_REPLY : Nat
  X300_10GE_DATA_FRAME_MAX_SIZE : Nat
  IP_PROTOCOL_MIN_MTU_SIZE : Nat
  IP_PROTOCOL_UDP_PLUS_IP_HEADER : Nat
  ZPU_SR_CLOCK_CTRL : Nat
  ZPU_SR_CLOCK_CTRL_CLK_SRC_EXTERNAL : Nat
  ZPU_SR_CLOCK_CTRL_CLK_SRC_INTERNAL : Nat
  ZPU_SR_CLOCK_CTRL_CLK_SRC_GPSDO : Nat
  ZPU_SR_CLOCK_CTRL_PPS_SRC_EXTERNAL : Nat
  ZPU_SR_CLOCK_CTRL_PPS_SRC_INTERNAL : Nat
  ZPU_SR_CLOCK_CTRL_PPS_SRC_GPSDO : Nat
  X300_XB_DST_E0 : Nat
  X300_XB_DST_E1 : Nat
  X300_XB_DST_R0 : Nat
  X300_DEVICE_THERE : Nat
  X300_RADIO_DEST_PREFIX_TX : Nat
  X300_RADIO_DEST_PREFIX_CTRL : Nat
  X300_RADIO_DEST_PREFIX_RX : Nat
  X300_VITA_UDP_PORT : Nat
  ZPU_SR_ETHINT0 : Nat
  ZPU_SR_ETHINT1 : Nat
  X300_1GE_DATA_FRAME_MAX_SIZE : Nat
  X300_ETH_MSG_FRAME_SIZE : Nat
  X300_ETH_DATA_NUM_FRAMES : Nat
  X300_ETH_MSG_NUM_FRAMES : Nat
  X300_PCIE_TX_DATA_FRAME_SIZE : Nat
  X300_PCIE_RX_DATA_FRAME_SIZE : Nat
  X300_PCIE_MSG_FRAME_SIZE : Nat
  X300_PCIE_DATA_NUM_FRAMES : Nat
  X300_PCIE_MSG_NUM_FRAMES : Nat
  X300_FW_SHMEM_COMPAT_NUM : Nat
  ZPU_RB_COMPAT_NUM : Nat
  X300_FW_COMPAT_MAJOR : Nat
  X300_FPGA_COMPAT_MAJOR : Nat
  ZPU_RB_CLK_STATUS : Nat
  ZPU_RB_CLK_STATUS_PPS_DETECT : Nat

/-- The number a string of decimal digits denotes, continuing from `acc`;
`none` when a character is not a digit. -/
def decimal_value : List Char → Nat → Option Nat
  | [], acc => some acc
  | c :: cs, acc =>
    if c.isDigit then decimal_value cs (acc * 10 + (c.toNat - 48)) else none

/-- One concrete choice of the header values, used to run the definitions on
concrete inputs. -/
def sample_defs : x300_defs where
  SR_ADDR := fun base offset => base + offset * 4
  PCIE_ROUTER_REG := fun x => 0x40500 + 4 * x
  TOREG := fun x => x * 4
  SET0_BASE := 0xa000
  SETXB_BASE := 0xb000
  ZPU_SR_XB_LOCAL := 3
  ZPU_RB_ETH_TYPE0 := 4
  ZPU_RB_ETH_TYPE1 := 5
  SR_MISC_OUTS := 3
  X300_FW_SHMEM_BASE := 0x6000
  X300_FW_SHMEM_CLAIM_STATUS := 1
  X300_FW_SHMEM_CLAIM_TIME := 2
  X300_FW_SHMEM_CLAIM_SRC := 3
  X300_DEVICE_HERE := 0
  sid_framer_bits := 64
  X300_FW_COMMS_FLAGS_ACK := 1
  X300_USRP_PCIE_SSID := 0x7736
  X310_USRP_PCIE_SSID := 0x76CA
  X310_2940R_PCIE_SSID := 0x772B
  X310_2942R_PCIE_SSID := 0x772C
  X310_2943R_PCIE_SSID := 0x772D
  X310_2944R_PCIE_SSID := 0x772E
  X310_2950R_PCIE_SSID := 0x772F
  X310_2952R_PCIE_SSID := 0x7730
  X310_2953R_PCIE_SSID := 0x7731
  X310_2954R_PCIE_SSID := 0x7732
  htonx := fun x => x
  lexical_cast_uint16 := fun s =>
    match s.data with
    | [] => none
    | c :: cs =>
      match decimal_value (c :: cs) 0 with
      | some n => if n < 65536 then some n else none
      | none => none
  lexical_cast_size_t := fun s =>
    match s.data with
    | [] => none
    | c :: cs =>
      match decimal_value (c :: cs) 0 with
      | some n => if n < 2 ^ 64 then some n else none
      | none => none
  sizeof_x300_mtu_t := 8
  X300_MTU_DETECT_ECHO_REQUEST := 1
  X300_MTU_DETECT_ECHO_REPLY := 2
  X300_10GE_DATA_FRAME_MAX_SIZE := 8000
  IP_PROTOCOL_MIN_MTU_SIZE := 576
  IP_PROTOCOL_UDP_PLUS_IP_HEADER := 28
  ZPU_SR_CLOCK_CTRL := 2
  ZPU_SR_CLOCK_CTRL_CLK_SRC_EXTERNAL := 0
  ZPU_SR_CLOCK_CTRL_CLK_SRC_INTERNAL := 2
  ZPU_SR_CLOCK_CTRL_CLK_SRC_GPSDO := 3
  ZPU_SR_CLOCK_CTRL_PPS_SRC_EXTERNAL := 0
  ZPU_SR_CLOCK_CTRL_PPS_SRC_INTERNAL := 2
  ZPU_SR_CLOCK_CTRL_PPS_SRC_GPSDO := 3
  X300_XB_DST_E0 := 0
  X300_XB_DST_E1 := 1
  X300_XB_DST_R0 := 2
  X300_DEVICE_THERE := 2
  X300_RADIO_DEST_PREFIX_TX := 0
  X300_RADIO_DEST_PREFIX_CTRL := 1
  X300_RADIO_DEST_PREFIX_RX := 2
  X300_VITA_UDP_PORT := 49153
  ZPU_SR_ETHINT0 := 40
  ZPU_SR_ETHINT1 := 56
  X300_1GE_DATA_FRAME_MAX_SIZE := 1472
  X300_ETH_MSG_FRAME_SIZE := 256
  X300_ETH_DATA_NUM_FRAMES := 32
  X300_ETH_MSG_NUM_FRAMES := 64
  X300_PCIE_TX_DATA_FRAME_SIZE := 8192
  X300_PCIE_RX_DATA_FRAME_SIZE := 8192
  X300_PCIE_MSG_FRAME_SIZE := 256
  X300_PCIE_DATA_NUM_FRAMES := 2048
  X300_PCIE_MSG_NUM_FRAMES := 64
  X300_FW_SHMEM_COMPAT_NUM := 0
  ZPU_RB_COMPAT_NUM := 6
  X300_FW_COMPAT_MAJOR := 3
  X300_FPGA_COMPAT_MAJOR := 4
  ZPU_RB_CLK_STATUS := 3
  ZPU_RB_CLK_STATUS_PPS_DETECT := 4

/-- Truncation of a value to a `boost::uint32_t`. -/
def u32 (x : Nat) : Nat := x % 2 ^ 32

/-! ## The register interface -/

/-- Modelled from the spec: the register interface `wb_iface` (an external
collaborator, declared outside the embedded sources): "synchronous read/write
of 32-bit values at addressable offsets", `peek32(addr) -> uint32` and
`poke32(addr, value)`.  `regs` is what a read of each address returns and
`pokes` lists the writes made so far, oldest first. -/
structure wb_iface where
  regs : Nat → Nat
  pokes : List (Nat × Nat)

/-- Read of a 32-bit register: `iface->peek32(addr)`. -/
def wb_iface.peek32 (iface : wb_iface) (addr : Nat) : Nat :=
  u32 (iface.regs addr)

/-- Write of a 32-bit register: `iface->poke32(addr, value)`.  The value is
converted to `boost::uint32_t`; a later read of the address returns it. -/
def wb_iface.poke32 (iface : wb_iface) (addr value : Nat) : wb_iface where
  regs := Function.update iface.regs addr (u32 value)
  pokes := iface.pokes ++ [(addr, u32 value)]

/-! ## Stream-ID allocation -/

/-- The struct `sid_config_t`. -/
structure sid_config_t where
  router_addr_there : Nat
  dst_prefix : Nat
  router_dst_there : Nat
  router_dst_here : Nat

/-- Every field of a `sid_config_t` is a `boost::uint8_t`. -/
def sid_config_t.is_uint8 (config : sid_config_t) : Prop :=
  config.router_addr_there < 256 ∧ config.dst_prefix < 256 ∧
  config.router_dst_there < 256 ∧ config.router_dst_here < 256

instance (config : sid_config_t) : Decidable config.is_uint8 := by
  unfold sid_config_t.is_uint8; infer_instance

/-- The part of the session that `allocate_sid` reads and writes: the
motherboard's transport kind and register interface, the writes made through
the PCIe kernel proxy, and the session's allocation counter. -/
structure sid_state where
  xport_path : String
  zpu_ctrl : wb_iface
  kernel_proxy_pokes : List (Nat × Nat)
  _sid_framer : Nat

/-- The function `get_pcie_dma_channel`. -/
def get_pcie_dma_channel (K : x300_defs) (destination prefix_ : Nat) : Nat :=
  let RADIO_GRP_SIZE := 3
  let RADIO0_GRP := 0
  let RADIO1_GRP := 1
  let radio_grp := if destination = K.X300_XB_DST_R0 then RADIO0_GRP else RADIO1_GRP
  u32 (radio_grp * RADIO_GRP_SIZE + prefix_)

/-- The expression `stream` of `allocate_sid`. -/
def sid_stream (config : sid_config_t) : Nat :=
  (config.dst_prefix ||| (config.router_dst_there <<< 2)) &&& 0xff

/-- The expression `sid` of `allocate_sid`, for a given counter value.  The
value is converted to `boost::uint32_t` when it is stored in `sid`; the low 32
bits are the same whether the operands are combined in 32 or in 64 bits. -/
def sid_word (K : x300_defs) (framer : Nat) (config : sid_config_t) : Nat :=
  u32 (0
    ||| (K.X300_DEVICE_HERE <<< 24)
    ||| (framer <<< 16)
    ||| (config.router_addr_there <<< 8)
    ||| (sid_stream config <<< 0))

/-- The method `x300_impl::allocate_sid`: returns the Stream-ID and the new
state. -/
def allocate_sid (K : x300_defs) (s : sid_state) (config : sid_config_t) :
    Nat × sid_state :=
  let stream := sid_stream config
  let sid := sid_word K s._sid_framer config
  let zpu1 := s.zpu_ctrl.poke32 (K.SR_ADDR K.SET0_BASE K.ZPU_SR_XB_LOCAL)
    config.router_addr_there
  let zpu2 := zpu1.poke32 (K.SR_ADDR K.SETXB_BASE (256 + stream)) config.router_dst_there
  let zpu3 := zpu2.poke32 (K.SR_ADDR K.SETXB_BASE (0 + K.X300_DEVICE_HERE))
    config.router_dst_here
  let proxy :=
    if s.xport_path = "nirio" then
      let router_config_word := u32 (((s._sid_framer &&& 0xff) <<< 16) |||
        get_pcie_dma_channel K config.router_dst_there config.dst_prefix)
      s.kernel_proxy_pokes ++ [(K.PCIE_ROUTER_REG 0, router_config_word)]
    else s.kernel_proxy_pokes
  (sid, { xport_path := s.xport_path, zpu_ctrl := zpu3, kernel_proxy_pokes := proxy,
          _sid_framer := (s._sid_framer + 1) % 2 ^ K.sid_framer_bits })

/-- A run of consecutive `allocate_sid` calls on one session, one call per
configuration in the list; returns the Stream-IDs in call order. -/
def allocate_sids (K : x300_defs) : sid_state → List sid_config_t → List Nat × sid_state
  | s, [] => ([], s)
  | s, config :: rest =>
    let r := allocate_sid K s config
    let rs := allocate_sids K r.2 rest
    (r.1 :: rs.1, rs.2)

/-- The session state that the constructor `x300_impl::x300_impl` leaves for
the allocator: `_sid_framer = 0`. -/
def new_session (xport_path : String) (zpu_ctrl : wb_iface) : sid_state where
  xport_path := xport_path
  zpu_ctrl := zpu_ctrl
  kernel_proxy_pokes := []
  _sid_framer := 0

/-- Bits 31..24 of a Stream-ID. -/
def sid_here (sid : Nat) : Nat := (sid >>> 24) % 256
/-- Bits 23..16 of a Stream-ID (`localFramerID`). -/
def sid_framer (sid : Nat) : Nat := (sid >>> 16) % 256
/-- Bits 15..8 of a Stream-ID. -/
def sid_addr_there (sid : Nat) : Nat := (sid >>> 8) % 256
/-- Bits 7..0 of a Stream-ID (`streamSelector`). -/
def sid_selector (sid : Nat) : Nat := sid % 256

/-! ## Claim logic -/

/-- One pass of `x300_impl::claimer_loop`: the two writes of the critical
section.  `now` is the value of `time(NULL)` and `process_hash` the value of
`get_process_hash()`. -/
def claimer_loop (K : x300_defs) (now process_hash : Nat) (iface : wb_iface) : wb_iface :=
  let i1 := iface.poke32 (K.SR_ADDR K.X300_FW_SHMEM_BASE K.X300_FW_SHMEM_CLAIM_TIME) now
  i1.poke32 (K.SR_ADDR K.X300_FW_SHMEM_BASE K.X300_FW_SHMEM_CLAIM_SRC) process_hash

/-- The method `x300_impl::is_claimed`; returns the answer and the register
interface as the call leaves it. -/
def is_claimed (K : x300_defs) (process_hash : Nat) (iface : wb_iface) : Bool × wb_iface :=
  if iface.peek32 (K.SR_ADDR K.X300_FW_SHMEM_BASE K.X300_FW_SHMEM_CLAIM_STATUS) = 0 then
    (false, iface)
  else
    (iface.peek32 (K.SR_ADDR K.X300_FW_SHMEM_BASE K.X300_FW_SHMEM_CLAIM_SRC) != u32 process_hash,
      iface)

/-! ## Device addresses -/

/-- Modelled from the spec: `uhd::dict<std::string, std::string>`, the type
behind `device_addr_t` and `mboard_eeprom_t` (declared outside the embedded
sources): "a mapping from string keys to string/typed values".  Entries are
kept in insertion order. -/
structure dict where
  entries : List (String × String)
deriving DecidableEq, Repr

/-- The type `uhd::device_addr_t`. -/
abbrev device_addr_t := dict
/-- The type `uhd::usrp::mboard_eeprom_t`. -/
abbrev mboard_eeprom_t := dict

/-- The empty dictionary. -/
def dict.empty : dict := ⟨[]⟩

/-- Method `has_key`. -/
def dict.has_key (d : dict) (key : String) : Bool :=
  d.entries.any (fun p => p.1 == key)

/-- The value stored under a key, if any. -/
def dict.find (d : dict) (key : String) : Option String :=
  (d.entries.find? (fun p => p.1 == key)).map (fun p => p.2)

/-- Read `d[key]` on a constant dictionary whose key is known to be present;
the empty string stands in when it is not. -/
def dict.get (d : dict) (key : String) : String :=
  (d.find key).getD ""

/-- Assignment `d[key] = value`. -/
def dict.set (d : dict) (key value : String) : dict :=
  if d.has_key key then
    ⟨d.entries.map (fun p => if p.1 == key then (p.1, value) else p)⟩
  else ⟨d.entries ++ [(key, value)]⟩

/-- Read `d[key]` on a non-constant dictionary: an absent key is inserted with
an empty value.  Returns the value read and the dictionary afterwards. -/
def dict.index (d : dict) (key : String) : String × dict :=
  if d.has_key key then (d.get key, d) else ("", ⟨d.entries ++ [(key, "")]⟩)

/-! ## Discovery over the network -/

/-- The enumeration `x300_impl::x300_mboard_t`. -/
inductive x300_mboard_t where
  | USRP_X300_MB
  | USRP_X310_MB
  | UNKNOWN
deriving DecidableEq, Repr

/-- The two fields of `x300_fw_comms_t` that discovery reads. -/
structure x300_fw_comms_t where
  flags : Nat
  sequence : Nat
deriving DecidableEq, Repr

/-- The function `get_fpga_option`. -/
def get_fpga_option (K : x300_defs) (zpu_ctrl : wb_iface) : String :=
  let eth0XG := zpu_ctrl.peek32 (K.SR_ADDR K.SET0_BASE K.ZPU_RB_ETH_TYPE0) == 0x1
  let eth1XG := zpu_ctrl.peek32 (K.SR_ADDR K.SET0_BASE K.ZPU_RB_ETH_TYPE1) == 0x1
  if eth0XG && eth1XG then "XGS" else (if eth1XG then "HGS" else "1G")

/-- The `switch` over the product number shared by `get_mb_type_from_pcie` and
`get_mb_type_from_eeprom`. -/
def mb_type_of_product (K : x300_defs) (pid : Nat) : x300_mboard_t :=
  if pid = K.X300_USRP_PCIE_SSID then .USRP_X300_MB
  else if pid = K.X310_USRP_PCIE_SSID ∨ pid = K.X310_2940R_PCIE_SSID ∨
      pid = K.X310_2942R_PCIE_SSID ∨ pid = K.X310_2943R_PCIE_SSID ∨
      pid = K.X310_2944R_PCIE_SSID ∨ pid = K.X310_2950R_PCIE_SSID ∨
      pid = K.X310_2952R_PCIE_SSID ∨ pid = K.X310_2953R_PCIE_SSID ∨
      pid = K.X310_2954R_PCIE_SSID then .USRP_X310_MB
  else .UNKNOWN

/-- The method `x300_impl::get_mb_type_from_eeprom`; `none` when reading the
`product` entry of the EEPROM record raises. -/
def get_mb_type_from_eeprom (K : x300_defs) (mb_eeprom : mboard_eeprom_t) :
    Option x300_mboard_t :=
  match mb_eeprom.find "product" with
  | none => none
  | some product =>
    if product ≠ "" then
      let product_num :=
        match K.lexical_cast_uint16 product with
        | some n => n
        | none => 0
      some (mb_type_of_product K product_num)
    else some .UNKNOWN

/-- The method `x300_impl::get_mb_type_from_pcie`.  `pid` is the product number
the discovery proxy reports; `none` when no proxy could be created or the
attribute read ended with a fatal status. -/
def get_mb_type_from_pcie (K : x300_defs) (pid : Option Nat) : x300_mboard_t :=
  match pid with
  | none => .UNKNOWN
  | some pid => mb_type_of_product K pid

/-- What the host finds behind the address a discovery reply came from.
`zpu_ctrl` is the register interface that `x300_make_ctrl_iface_enet` returns
and `mb_eeprom` the record the EEPROM read returns; `none` when the step
raises. -/
structure enet_target where
  zpu_ctrl : Option wb_iface
  mb_eeprom : Option mboard_eeprom_t

/-- One datagram received by the discovery loop, with its sender. -/
structure enet_reply where
  reply : x300_fw_comms_t
  recv_addr : String
  target : enet_target

/-- The `try` block of `x300_find_with_addr`.  `.ok none` is the `continue` of
a claimed device, `.ok (some a)` a completed read and `.error a` an exception,
with `a` the record as the block leaves it. -/
def enet_identity_read (K : x300_defs) (process_hash : Nat) (target : enet_target)
    (new_addr : device_addr_t) : Except device_addr_t (Option device_addr_t) :=
  match target.zpu_ctrl with
  | none => .error new_addr
  | some zpu_ctrl =>
    if (is_claimed K process_hash zpu_ctrl).1 then .ok none
    else
      let new_addr := new_addr.set "fpga" (get_fpga_option K zpu_ctrl)
      match target.mb_eeprom with
      | none => .error new_addr
      | some mb_eeprom =>
        match mb_eeprom.find "name" with
        | none => .error new_addr
        | some name =>
          let new_addr := new_addr.set "name" name
          match mb_eeprom.find "serial" with
          | none => .error new_addr
          | some serial =>
            let new_addr := new_addr.set "serial" serial
            match get_mb_type_from_eeprom K mb_eeprom with
            | none => .error new_addr
            | some .USRP_X300_MB => .ok (some (new_addr.set "product" "X300"))
            | some .USRP_X310_MB => .ok (some (new_addr.set "product" "X310"))
            | some .UNKNOWN => .ok (some new_addr)

/-- One clause `not hint.has_key(key) or hint[key] == new_addr[key]` of the
hint filter; returns the truth value and the record after the read. -/
def hint_clause (hint : device_addr_t) (key : String) (new_addr : device_addr_t) :
    Bool × device_addr_t :=
  if !hint.has_key key then (true, new_addr)
  else
    let r := new_addr.index key
    (hint.get key == r.1, r.2)

/-- The condition of the `if` that filters a discovered device in
`x300_find_with_addr`, evaluated left to right with short circuit; returns the
truth value and the record after the reads. -/
def enet_hint_filter (hint new_addr : device_addr_t) : Bool × device_addr_t :=
  let c1 := hint_clause hint "name" new_addr
  if !c1.1 then (false, c1.2)
  else
    let c2 := hint_clause hint "serial" c1.2
    if !c2.1 then (false, c2.2)
    else hint_clause hint "product" c2.2

/-- The record of a reply after the `try`/`catch` of `x300_find_with_addr`;
`none` when the device is skipped as claimed. -/
def enet_candidate (K : x300_defs) (process_hash : Nat) (r : enet_reply) :
    Option device_addr_t :=
  let new_addr := (dict.empty.set "type" "x300").set "addr" r.recv_addr
  match enet_identity_read K process_hash r.target new_addr with
  | .ok none => none
  | .ok (some a) => some a
  | .error a => some ((a.set "name" "").set "serial" "")

/-- The reply loop of `x300_find_with_addr`.  The list holds the datagrams in
arrival order; its end is the receive that times out. -/
def x300_find_with_addr_loop (K : x300_defs) (process_hash : Nat) (hint : device_addr_t)
    (request : x300_fw_comms_t) : List enet_reply → List device_addr_t → List device_addr_t
  | [], addrs => addrs
  | r :: rest, addrs =>
    if request.flags ≠ r.reply.flags then addrs
    else if request.sequence ≠ r.reply.sequence then addrs
    else
      match enet_candidate K process_hash r with
      | none => x300_find_with_addr_loop K process_hash hint request rest addrs
      | some new_addr =>
        let f := enet_hint_filter hint new_addr
        if f.1 then
          x300_find_with_addr_loop K process_hash hint request rest (addrs ++ [f.2])
        else x300_find_with_addr_loop K process_hash hint request rest addrs

/-- The request that `x300_find_with_addr` broadcasts; `rand` is the value of
`std::rand()`. -/
def discovery_request (K : x300_defs) (rand : Nat) : x300_fw_comms_t where
  flags := K.htonx K.X300_FW_COMMS_FLAGS_ACK
  sequence := K.htonx rand

/-- The function `x300_find_with_addr`.  `rand` is the value of `std::rand()`
and `replies` the datagrams that arrive.  `none` when `hint["addr"]` raises
because the hint has no `addr` key. -/
def x300_find_with_addr (K : x300_defs) (process_hash rand : Nat) (replies : List enet_reply)
    (hint : device_addr_t) : Option (List device_addr_t) :=
  match hint.find "addr" with
  | none => none
  | some _ =>
    some (x300_find_with_addr_loop K process_hash hint (discovery_request K rand) replies [])

/-! ## Discovery over PCIe -/

/-- One entry of the enumeration `niusrprio_session::enumerate` returns,
together with what the host finds behind it: `pid` as in
`get_mb_type_from_pcie`, `zpu_ctrl` the register interface that
`x300_make_ctrl_iface_pcie` returns and `mb_eeprom` the record the EEPROM read
returns; `none` when the step raises. -/
structure pcie_device where
  resource_name : String
  interface_path : String
  pid : Option Nat
  zpu_ctrl : Option wb_iface
  mb_eeprom : Option mboard_eeprom_t

/-- The `try` block of `x300_find_pcie`, with the same result convention as
`enet_identity_read`.  `registry` is the process-wide map from resource names
to open register interfaces. -/
def pcie_identity_read (K : x300_defs) (process_hash : Nat)
    (registry : List (String × wb_iface)) (hint : device_addr_t) (dev : pcie_device)
    (resource_d : String) (new_addr : device_addr_t) :
    Except device_addr_t (Option device_addr_t) :=
  let made :=
    match registry.find? (fun p => p.1 == resource_d) with
    | some p => some p.2
    | none => dev.zpu_ctrl
  match made with
  | none => .error new_addr
  | some zpu_ctrl =>
    if (is_claimed K process_hash zpu_ctrl).1 then .ok none
    else
      let new_addr :=
        if !hint.has_key "fpga" then new_addr.set "fpga" (get_fpga_option K zpu_ctrl)
        else new_addr
      match dev.mb_eeprom with
      | none => .error new_addr
      | some mb_eeprom =>
        match mb_eeprom.find "name" with
        | none => .error new_addr
        | some name =>
          let new_addr := new_addr.set "name" name
          match mb_eeprom.find "serial" with
          | none => .error new_addr
          | some serial => .ok (some (new_addr.set "serial" serial))

/-- The record of an enumerated device after the `switch` and the
`try`/`catch` of `x300_find_pcie`, with its upper-cased resource name; `none`
when the device is skipped (unknown motherboard, or claimed). -/
def pcie_candidate (K : x300_defs) (process_hash : Nat)
    (registry : List (String × wb_iface)) (hint : device_addr_t) (dev : pcie_device) :
    Option device_addr_t :=
  let new_addr := (dict.empty.set "type" "x300").set "resource" dev.resource_name
  let resource_d := dev.resource_name.toUpper
  let typed :=
    match get_mb_type_from_pcie K dev.pid with
    | .USRP_X300_MB => some (new_addr.set "product" "X300")
    | .USRP_X310_MB => some (new_addr.set "product" "X310")
    | .UNKNOWN => none
  match typed with
  | none => none
  | some new_addr =>
    match pcie_identity_read K process_hash registry hint dev resource_d new_addr with
    | .ok none => none
    | .ok (some a) => some a
    | .error a =>
      let a := if !hint.has_key "fpga" then a.set "fpga" "HGS" else a
      some ((a.set "name" "").set "serial" "")

/-- The condition of the `if` that filters an enumerated device in
`x300_find_pcie`; returns the truth value and the record after the reads. -/
def pcie_hint_filter (hint : device_addr_t) (resource_d : String)
    (new_addr : device_addr_t) : Bool × device_addr_t :=
  let resource_i := (if hint.has_key "resource" then hint.get "resource" else "").toUpper
  if !(!hint.has_key "resource" || resource_i == resource_d) then (false, new_addr)
  else enet_hint_filter hint new_addr

/-- The loop of `x300_find_pcie` over the enumerated devices. -/
def x300_find_pcie_loop (K : x300_defs) (process_hash : Nat)
    (registry : List (String × wb_iface)) (hint : device_addr_t) :
    List pcie_device → List device_addr_t → List device_addr_t
  | [], addrs => addrs
  | dev :: rest, addrs =>
    match pcie_candidate K process_hash registry hint dev with
    | none => x300_find_pcie_loop K process_hash registry hint rest addrs
    | some new_addr =>
      let f := pcie_hint_filter hint dev.resource_name.toUpper new_addr
      if f.1 then x300_find_pcie_loop K process_hash registry hint rest (addrs ++ [f.2])
      else x300_find_pcie_loop K process_hash registry hint rest addrs

/-- The function `x300_find_pcie`.  `status_fatal` tells whether the status
that `niusrprio_session::enumerate` returned is fatal and `dev_info_vtr` is the
enumeration; `none` when `nirio_status_to_exception` raises. -/
def x300_find_pcie (K : x300_defs) (process_hash : Nat) (status_fatal : Bool)
    (dev_info_vtr : List pcie_device) (registry : List (String × wb_iface))
    (hint : device_addr_t) (explicit_query : Bool) : Option (List device_addr_t) :=
  if explicit_query && status_fatal then none
  else some (x300_find_pcie_loop K process_hash registry hint dev_info_vtr [])

/-! ## Session shutdown -/

/-- The members of `mboard_members_t` that the destructor uses.
`claimer_task` tells whether the refresh task is running. -/
structure mboard_members_t where
  addr : String
  xport_path : String
  zpu_ctrl : wb_iface
  radio_perifs_0_ctrl : wb_iface
  radio_perifs_1_ctrl : wb_iface
  claimer_task : Bool

/-- The method `uhd::dict::pop` (declared in `uhd/types/dict.hpp`, outside the
embedded sources) on the registry of PCIe register interfaces: it removes the
entry stored under the key, and raises `key_not_found` (here `none`) when the
dictionary holds no such key. -/
def registry_pop (registry : List (String × wb_iface)) (key : String) :
    Option (List (String × wb_iface)) :=
  if registry.any (fun p => p.1 == key) then
    some (registry.eraseP (fun p => p.1 == key))
  else none

/-- The body of the loop of `x300_impl::~x300_impl` up to the call of `pop`:
the two radio resets, the stop of the claimer task and the two writes that
release the claim. -/
def unclaim_mboard (K : x300_defs) (mb : mboard_members_t) : mboard_members_t where
  addr := mb.addr
  xport_path := mb.xport_path
  radio_perifs_0_ctrl := mb.radio_perifs_0_ctrl.poke32 (K.TOREG K.SR_MISC_OUTS) (1 <<< 2)
  radio_perifs_1_ctrl := mb.radio_perifs_1_ctrl.poke32 (K.TOREG K.SR_MISC_OUTS) (1 <<< 2)
  claimer_task := false
  zpu_ctrl :=
    (mb.zpu_ctrl.poke32 (K.SR_ADDR K.X300_FW_SHMEM_BASE K.X300_FW_SHMEM_CLAIM_TIME) 0).poke32
      (K.SR_ADDR K.X300_FW_SHMEM_BASE K.X300_FW_SHMEM_CLAIM_SRC) 0

/-- The destructor `x300_impl::~x300_impl`: the loop over the motherboards
inside the `try` block.  An exception leaves the loop; the `catch (...)`
handler swallows it.  Returns the motherboards and the registry as the
destructor leaves them. -/
def x300_impl_dtor (K : x300_defs) :
    List mboard_members_t → List (String × wb_iface) →
      List mboard_members_t × List (String × wb_iface)
  | [], registry => ([], registry)
  | mb :: rest, registry =>
    let mb1 := unclaim_mboard K mb
    match registry_pop registry mb.addr with
    | none => (mb1 :: rest, registry)
    | some registry1 =>
      let r := x300_impl_dtor K rest registry1
      (mb1 :: r.1, r.2)

/-! ## Hint matching as the specification words it -/

/-- A reply passes the echo check of `x300_find_with_addr` when its flags and
its sequence number equal those of the request. -/
def reply_valid (request : x300_fw_comms_t) (r : enet_reply) : Bool :=
  request.flags == r.reply.flags && request.sequence == r.reply.sequence

/-- Hint matching on the network path, after the specification: "a candidate
matches iff every present hint key's value equals the candidate's
corresponding field exactly", for the keys `name`, `serial` and `product`.  A
field the candidate does not have reads as the empty string. -/
def hint_matches (hint cand : device_addr_t) : Bool :=
  ["name", "serial", "product"].all
    (fun key => !hint.has_key key || hint.get key == cand.get key)

/-- Hint matching on the PCIe path, after the specification: as
`hint_matches`, and the key `resource` compared after upper-casing both
sides. -/
def hint_matches_pcie (hint cand : device_addr_t) : Bool :=
  (!hint.has_key "resource" ||
    (hint.get "resource").toUpper == (cand.get "resource").toUpper) &&
  hint_matches hint cand

/-- The records that reach the hint filter of `x300_find_with_addr`: one for
each reply received before the first reply that fails the echo check, except
the devices skipped as claimed. -/
def enet_candidates (K : x300_defs) (process_hash rand : Nat) (replies : List enet_reply) :
    List device_addr_t :=
  (replies.takeWhile (reply_valid (discovery_request K rand))).filterMap
    (enet_candidate K process_hash)

/-- The records that reach the hint filter of `x300_find_pcie`. -/
def pcie_candidates (K : x300_defs) (process_hash : Nat) (registry : List (String × wb_iface))
    (hint : device_addr_t) (devs : List pcie_device) : List device_addr_t :=
  devs.filterMap (pcie_candidate K process_hash registry hint)

/-- The record that is pushed to the result for a candidate that passes the
filter: the candidate after the reads the filter made. -/
def returned_record (hint c : device_addr_t) : device_addr_t :=
  (enet_hint_filter hint c).2

/-! ## Concrete inputs -/

/-- A register file in which every register reads 0. -/
def zero_iface : wb_iface where
  regs := fun _ => 0
  pokes := []

/-- The session after 256 allocations of the control stream of radio 0 on a
fresh session. -/
def session_after_256_calls : sid_state :=
  (allocate_sids sample_defs (new_session "eth" zero_iface)
    (List.replicate 256 ⟨2, 1, 2, 0⟩)).2

/-- The `localFramerID` fields of a run of 257 allocations on a fresh
session. -/
def framers_of_257_calls : List Nat :=
  (allocate_sids sample_defs (new_session "eth" ⟨fun _ => 0, []⟩)
    (List.replicate 257 ⟨0, 0, 0, 0⟩)).1.map sid_framer

/-- A register file in which the claim-status register reads 1 and the
claim-owner register reads `0xBEEF`. -/
def claimed_iface : wb_iface where
  regs := fun a => if a = 0x6004 then 1 else if a = 0x600c then 0xBEEF else 0
  pokes := []

/-- An unclaimed X310 with the given name and serial number. -/
def x310_target (name serial : String) : enet_target where
  zpu_ctrl := some zero_iface
  mb_eeprom := some ⟨[("name", name), ("serial", serial), ("product", "30410")]⟩

/-- A device whose control interface cannot be opened. -/
def broken_target : enet_target where
  zpu_ctrl := none
  mb_eeprom := none

/-- A discovery reply that echoes the request made with `rand = 7`. -/
def good_reply (addr : String) (target : enet_target) : enet_reply where
  reply := ⟨1, 7⟩
  recv_addr := addr
  target := target

/-- A discovery reply that carries the sequence number 6 of an earlier
request. -/
def stale_reply (addr : String) (target : enet_target) : enet_reply where
  reply := ⟨1, 6⟩
  recv_addr := addr
  target := target

/-- A network-attached motherboard of an open session. -/
def eth_mboard (addr : String) : mboard_members_t where
  addr := addr
  xport_path := "eth"
  zpu_ctrl := zero_iface
  radio_perifs_0_ctrl := zero_iface
  radio_perifs_1_ctrl := zero_iface
  claimer_task := true

/-- An unclaimed X310 on the PCIe bus with the given resource name, name
and serial number. -/
def x310_pcie (resource_name name serial : String) : pcie_device where
  resource_name := resource_name
  interface_path := ""
  pid := some 0x76CA
  zpu_ctrl := some zero_iface
  mb_eeprom := some ⟨[("name", name), ("serial", serial)]⟩

/-- The record discovery returns for `x310_target name serial` at `addr`. -/
def x310_addr (addr name serial : String) : device_addr_t :=
  ⟨[("type", "x300"), ("addr", addr), ("fpga", "1G"), ("name", name), ("serial", serial),
    ("product", "X310")]⟩

/-- The record discovery returns for `x310_pcie resource_name name serial`. -/
def x310_pcie_addr (resource_name name serial : String) : device_addr_t :=
  ⟨[("type", "x300"), ("resource", resource_name), ("product", "X310"), ("fpga", "1G"),
    ("name", name), ("serial", serial)]⟩

/-! ## Exceptions and results -/

/-- The exceptions the embedded code raises or lets through, with the text of
`what()`. -/
inductive uhd_error where
  | not_implemented_error (what : String)
  | runtime_error (what : String)
  | value_error (what : String)
  | key_error (what : String)
  | assertion_error (what : String)
  | bad_lexical_cast
  | too_few_args
  | exception (what : String)
deriving DecidableEq, Repr

/-- The outcome of a call: the value it returns, the exception it raises, or
`unfinished` when a loop or a recursion is still running after the number of
steps allowed to the model. -/
inductive outcome (α : Type) where
  | returned (value : α)
  | raised (e : uhd_error)
  | unfinished
deriving DecidableEq, Repr

/-! ## Discovery: the entry point `x300_find` -/

/-- Library routines on device addresses that are declared outside the
embedded sources (`uhd/types/device_addr.hpp`), taken as a parameter. -/
structure device_addr_lib where
  /-- Routine `uhd::separate_device_addr`. -/
  separate_device_addr : device_addr_t → List device_addr_t
  /-- Routine `uhd::combine_device_addrs`. -/
  combine_device_addrs : List device_addr_t → device_addr_t
  /-- Method `device_addr_t::to_string`. -/
  to_string : device_addr_t → String

/-- The struct `if_addrs_t`, as far as discovery reads it. -/
structure if_addrs_t where
  inet : String
  bcast : String
deriving DecidableEq, Repr

/-- What the host running discovery sees.  `net hint` is what a probe sent by
`x300_find_with_addr hint` meets: `none` when the transport raises, otherwise
the value of `std::rand()` and the datagrams that arrive.  `if_addrs` is the
result of `get_if_addrs()` and `loopback` the text of the loopback address;
`status_fatal`, `dev_info_vtr` and `registry` are as in `x300_find_pcie`. -/
structure find_env where
  process_hash : Nat
  net : device_addr_t → Option (Nat × List enet_reply)
  if_addrs : List if_addrs_t
  loopback : String
  status_fatal : Bool
  dev_info_vtr : List pcie_device
  registry : List (String × wb_iface)

/-- A call of `x300_find_with_addr` in the environment. -/
def find_with_addr_call (K : x300_defs) (env : find_env) (hint : device_addr_t) :
    outcome (List device_addr_t) :=
  if !hint.has_key "addr" then .raised (.key_error "addr")
  else
    match env.net hint with
    | none => .raised (.exception "network")
    | some (rand, replies) =>
      match x300_find_with_addr K env.process_hash rand replies hint with
      | none => .raised (.key_error "addr")
      | some addrs => .returned addrs

/-- The text appended to `error_msg` for a sub-hint that does not resolve to a
single device. -/
def unresolved_text (L : device_addr_lib) (hint_i : device_addr_t) : String :=
  "Could not resolve device hint \"" ++ L.to_string hint_i ++ "\" to a single device."

/-- The loop over the sub-hints in the multi-device branch of `x300_find`.
`find` is the recursive call; the result is `found_devices` and `error_msg`
at the end of the loop. -/
def find_multi_loop (L : device_addr_lib)
    (find : device_addr_t → outcome (List device_addr_t)) :
    List device_addr_t → List device_addr_t → String →
      outcome (List device_addr_t × String)
  | [], found_devices, error_msg => .returned (found_devices, error_msg)
  | hint_i :: rest, found_devices, error_msg =>
    match find hint_i with
    | .unfinished => .unfinished
    | .raised e => .raised e
    | .returned found_devices_i =>
      match found_devices_i with
      | [d] => find_multi_loop L find rest (found_devices ++ [d]) error_msg
      | _ => find_multi_loop L find rest found_devices (error_msg ++ unresolved_text L hint_i)

/-- The loop of `x300_find` over the replies to the first probe: each reply is
probed again and the devices found are put in front of `addrs`. -/
def find_reply_loop (K : x300_defs) (env : find_env) :
    List device_addr_t → List device_addr_t → outcome (List device_addr_t)
  | [], addrs => .returned addrs
  | reply_addr :: rest, addrs =>
    match find_with_addr_call K env reply_addr with
    | .unfinished => .unfinished
    | .raised e => .raised e
    | .returned new_addrs => find_reply_loop K env rest (new_addrs ++ addrs)

/-- The loop of `x300_find` over the network interfaces.  `find` is the
recursive call. -/
def find_iface_loop (env : find_env) (find : device_addr_t → outcome (List device_addr_t))
    (hint : device_addr_t) :
    List if_addrs_t → List device_addr_t → outcome (List device_addr_t)
  | [], addrs => .returned addrs
  | if_addrs :: rest, addrs =>
    if if_addrs.inet = env.loopback then find_iface_loop env find hint rest addrs
    else
      let new_hint := hint.set "addr" if_addrs.bcast
      match find new_hint with
      | .unfinished => .unfinished
      | .raised e => .raised e
      | .returned new_addrs => find_iface_loop env find hint rest (new_addrs ++ addrs)

/-- The function `x300_find`.  The first argument bounds the depth of the
recursion. -/
def x300_find (K : x300_defs) (L : device_addr_lib) (env : find_env) :
    Nat → device_addr_t → outcome (List device_addr_t)
  | 0, _ => .unfinished
  | depth + 1, hint_ =>
    let hints := L.separate_device_addr hint_
    if hints.length > 1 then
      match find_multi_loop L (fun h => x300_find K L env depth h) hints [] "" with
      | .unfinished => .unfinished
      | .raised e => .raised e
      | .returned (found_devices, error_msg) =>
        if found_devices.isEmpty then .returned []
        else if error_msg ≠ "" then .raised (.value_error error_msg)
        else .returned [L.combine_device_addrs found_devices]
    else
      let hint := hints.headD dict.empty
      if hint.has_key "type" && hint.get "type" != "x300" then .returned []
      else if hint.has_key "addr" then
        let reply_addrs :=
          match find_with_addr_call K env hint with
          | .returned addrs => addrs
          | _ => []
        find_reply_loop K env reply_addrs []
      else
        let broadcasts :=
          if !hint.has_key "resource" then
            find_iface_loop env (fun h => x300_find K L env depth h) hint env.if_addrs []
          else .returned []
        match broadcasts with
        | .unfinished => .unfinished
        | .raised e => .raised e
        | .returned addrs =>
          match x300_find_pcie K env.process_hash env.status_fatal env.dev_info_vtr
              env.registry hint (hint.has_key "resource") with
          | none => .raised (.exception "x300_find_pcie: Error enumerating NI-RIO devices.")
          | some pcie_addrs =>
            .returned (if !pcie_addrs.isEmpty then addrs ++ pcie_addrs else addrs)

/-! ## Frame size detection -/

/-- Truncation of a value to a `size_t` (64 bits). -/
def usize (x : Nat) : Nat := x % 2 ^ 64

/-- The struct `x300_impl::frame_size_t`. -/
structure frame_size_t where
  recv_frame_size : Nat
  send_frame_size : Nat
deriving DecidableEq, Repr

/-- The device and the network path behind the address that
`determine_max_frame_size` probes.  `holler_flags` is the value of
`ntohx(request->flags)` after the receive that follows the test request.
`recv_echo size` is the length the receive returns after a request that asks
for an echo of `size` bytes.  `send_echo n` is, after a request of `n` bytes
has been sent, the length the receive returns and the value of
`ntohx(request->size)` read from the buffer afterwards. -/
structure mtu_link where
  holler_flags : Nat
  recv_echo : Nat → Nat
  send_echo : Nat → Nat × Nat

/-- The expression `(max/2 + min/2 + 3) & ~3` of both search loops, in
`size_t` arithmetic. -/
def test_frame_size (min_frame_size max_frame_size : Nat) : Nat :=
  usize (max_frame_size / 2 + min_frame_size / 2 + 3) &&& (2 ^ 64 - 4)

/-- The first `while` loop of `determine_max_frame_size`.  The first argument
bounds the number of iterations; `probes` collects the sizes tested, oldest
first.  Returns `min_recv_frame_size` at the end of the loop and the sizes
tested. -/
def recv_frame_search (link : mtu_link) :
    Nat → Nat → Nat → List Nat → outcome (Nat × List Nat)
  | 0, min_recv_frame_size, max_recv_frame_size, probes =>
    if min_recv_frame_size < max_recv_frame_size then .unfinished
    else .returned (min_recv_frame_size, probes)
  | n + 1, min_recv_frame_size, max_recv_frame_size, probes =>
    if min_recv_frame_size < max_recv_frame_size then
      let test := test_frame_size min_recv_frame_size max_recv_frame_size
      let len := link.recv_echo (u32 test)
      if len ≥ test then recv_frame_search link n test max_recv_frame_size (probes ++ [test])
      else
        recv_frame_search link n min_recv_frame_size (usize (test + 2 ^ 64 - 4))
          (probes ++ [test])
    else .returned (min_recv_frame_size, probes)

/-- The second `while` loop of `determine_max_frame_size`, with the same
conventions.  `buffer_size` is the size of the buffer the requests are sent
from. -/
def send_frame_search (K : x300_defs) (link : mtu_link) (buffer_size : Nat) :
    Nat → Nat → Nat → List Nat → outcome (Nat × List Nat)
  | 0, min_send_frame_size, max_send_frame_size, probes =>
    if min_send_frame_size < max_send_frame_size then .unfinished
    else .returned (min_send_frame_size, probes)
  | n + 1, min_send_frame_size, max_send_frame_size, probes =>
    if min_send_frame_size < max_send_frame_size then
      let test := test_frame_size min_send_frame_size max_send_frame_size
      let echo := link.send_echo (min test buffer_size)
      let len := if echo.1 ≥ K.sizeof_x300_mtu_t then u32 echo.2 else echo.1
      if len ≥ test then
        send_frame_search K link buffer_size n test max_send_frame_size (probes ++ [test])
      else
        send_frame_search K link buffer_size n min_send_frame_size
          (usize (test + 2 ^ 64 - 4)) (probes ++ [test])
    else .returned (min_send_frame_size, probes)

/-- The smallest frame size the IP protocol requires:
`IP_PROTOCOL_MIN_MTU_SIZE-IP_PROTOCOL_UDP_PLUS_IP_HEADER` in `size_t`
arithmetic. -/
def min_frame_size_required (K : x300_defs) : Nat :=
  usize (K.IP_PROTOCOL_MIN_MTU_SIZE + 2 ^ 64 - usize K.IP_PROTOCOL_UDP_PLUS_IP_HEADER)

/-- The method `x300_impl::determine_max_frame_size`.  The first argument
bounds the number of iterations of each loop.  Returns the frame sizes and,
for each direction, the sizes tested. -/
def determine_max_frame_size (K : x300_defs) (link : mtu_link) (n : Nat)
    (user_frame_size : frame_size_t) : outcome (frame_size_t × List Nat × List Nat) :=
  let buffer_size := max user_frame_size.recv_frame_size user_frame_size.send_frame_size
  if link.holler_flags &&& K.X300_MTU_DETECT_ECHO_REPLY = 0 then
    .raised (.not_implemented_error "Holler protocol not implemented")
  else
    match recv_frame_search link n K.sizeof_x300_mtu_t user_frame_size.recv_frame_size [] with
    | .unfinished => .unfinished
    | .raised e => .raised e
    | .returned (min_recv_frame_size, recv_probes) =>
      if min_recv_frame_size < min_frame_size_required K then
        .raised (.runtime_error
          "System receive MTU size is less than the minimum required by the IP protocol.")
      else
        match send_frame_search K link buffer_size n K.sizeof_x300_mtu_t
            user_frame_size.send_frame_size [] with
        | .unfinished => .unfinished
        | .raised e => .raised e
        | .returned (min_send_frame_size, send_probes) =>
          if min_send_frame_size < min_frame_size_required K then
            .raised (.runtime_error
              "System send MTU size is less than the minimum required by the IP protocol.")
          else
            .returned (⟨min min_recv_frame_size min_send_frame_size,
              min min_recv_frame_size min_send_frame_size⟩, recv_probes, send_probes)

/-- A link that carries every frame of at most `limit` bytes in both
directions and drops every larger one, to a device that supports the echo
protocol. -/
def limited_link (K : x300_defs) (limit : Nat) : mtu_link where
  holler_flags := K.X300_MTU_DETECT_ECHO_REPLY
  recv_echo := fun size => if size ≤ limit then size else 0
  send_echo := fun n => if n ≤ limit then (K.sizeof_x300_mtu_t, n) else (0, 0)

/-! ## Bring-up of a network-attached motherboard: frame sizes -/

/-- Whether the second list starts the first one. -/
def starts_with : List Char → List Char → Bool
  | _, [] => true
  | [], _ :: _ => false
  | h :: hs, c :: cs => h == c && starts_with hs cs

/-- The test `key.find(word) != std::string::npos` on the characters of the
two strings. -/
def has_substring : List Char → List Char → Bool
  | [], word => word.isEmpty
  | h :: hs, word => starts_with (h :: hs) word || has_substring hs word

/-- The loop of `setup_mb` that copies into `mb.recv_args` (for `"recv"`) and
`mb.send_args` (for `"send"`) the entries of the device address whose key
contains the word. -/
def collect_args (dev_addr : device_addr_t) (word : String) : dict :=
  dev_addr.entries.foldl
    (fun args p =>
      if has_substring p.1.data word.data then args.set p.1 (dev_addr.get p.1) else args)
    dict.empty

/-- What `setup_mb` does that is visible from outside, in order: messages of
the error stream, the opening of the register interface and the start of the
claimer task.  No frame-size warning is among them: see
`frame_size_warnings`. -/
inductive setup_event where
  | error_message (e : uhd_error)
  | make_ctrl_iface_enet (addr : String)
  | claimer_task_started
deriving DecidableEq, Repr

/-- The frame size `setup_mb` requests for one direction: the value of the
option `key` of `args` when it is present, `X300_10GE_DATA_FRAME_MAX_SIZE`
otherwise; `none` when `lexical_cast` raises. -/
def requested_frame_size (K : x300_defs) (args : dict) (key : String) : Option Nat :=
  if args.has_key key then K.lexical_cast_size_t (args.get key)
  else some K.X300_10GE_DATA_FRAME_MAX_SIZE

/-- The two `if` statements of `setup_mb` that write the frame-size warnings.
In each of them the text is `boost::format("... (%lu) ... (%lu).") % requested
<< detected`: the operator `%` binds tighter than `<<`, so the format with two
directives is fed one argument and is then written to the stream, which
raises `boost::io::too_few_args` before any character of the warning is
written.  So a statement whose guard holds raises, and one whose guard does
not hold does nothing. -/
def frame_size_warnings (recv_args : dict) (req_max_frame_size max_frame_sizes : frame_size_t) :
    outcome Unit :=
  if recv_args.has_key "recv_frame_size" &&
      decide (req_max_frame_size.recv_frame_size < max_frame_sizes.recv_frame_size) then
    .raised .too_few_args
  else if recv_args.has_key "send_frame_size" &&
      decide (req_max_frame_size.send_frame_size < max_frame_sizes.send_frame_size) then
    .raised .too_few_args
  else .returned ()

/-- The method `x300_impl::setup_mb` for a device address without a
`resource` key (transport path `"eth"`), from its first statement to the start
of the claimer task.  `link` is what `determine_max_frame_size` meets, `n`
bounds its loops, and `_max_frame_sizes` is the member of that name before the
call.  Returns the outcome, the member afterwards and the events in order, up
to the raise when the outcome is one. -/
def setup_mb_eth (K : x300_defs) (link : mtu_link) (n : Nat) (dev_addr : device_addr_t)
    (_max_frame_sizes : frame_size_t) : outcome Unit × frame_size_t × List setup_event :=
  match dev_addr.find "addr" with
  | none => (.raised (.key_error "addr"), _max_frame_sizes, [])
  | some addr =>
    let recv_args := collect_args dev_addr "recv"
    let send_args := collect_args dev_addr "send"
    match requested_frame_size K recv_args "recv_frame_size",
        requested_frame_size K send_args "send_frame_size" with
    | none, _ => (.raised .bad_lexical_cast, _max_frame_sizes, [])
    | some _, none => (.raised .bad_lexical_cast, _max_frame_sizes, [])
    | some recv_frame_size, some send_frame_size =>
      let req_max_frame_size : frame_size_t := ⟨recv_frame_size, send_frame_size⟩
      let detected : Option (frame_size_t × List setup_event) :=
        match determine_max_frame_size K link n req_max_frame_size with
        | .unfinished => none
        | .returned r => some (r.1, [])
        | .raised e => some (_max_frame_sizes, [.error_message e])
      match detected with
      | none => (.unfinished, _max_frame_sizes, [])
      | some (max_frame_sizes, events) =>
        match frame_size_warnings recv_args req_max_frame_size max_frame_sizes with
        | .unfinished => (.unfinished, max_frame_sizes, events)
        | .raised e => (.raised e, max_frame_sizes, events)
        | .returned _ =>
          (.returned (), max_frame_sizes,
            events ++ [.make_ctrl_iface_enet addr, .claimer_task_started])

/-! ## Clock control -/

/-- The members of `mboard_members_t` that the clock-control methods use. -/
structure clock_mboard_t where
  zpu_ctrl : wb_iface
  clock_control_regs_clock_source : Nat
  clock_control_regs_pps_select : Nat
  clock_control_regs_pps_out_enb : Nat
  clock_control_regs_tcxo_enb : Nat
  clock_control_regs_gpsdo_pwr : Nat

/-- The value `reg` that `update_clock_control` computes from the members. -/
def clock_control_word (mb : clock_mboard_t) : Nat :=
  mb.clock_control_regs_clock_source
    ||| (mb.clock_control_regs_pps_select <<< 2)
    ||| (mb.clock_control_regs_pps_out_enb <<< 4)
    ||| (mb.clock_control_regs_tcxo_enb <<< 5)
    ||| (mb.clock_control_regs_gpsdo_pwr <<< 6)

/-- The method `x300_impl::update_clock_control`. -/
def update_clock_control (K : x300_defs) (mb : clock_mboard_t) : clock_mboard_t :=
  { mb with
    zpu_ctrl := mb.zpu_ctrl.poke32 (K.SR_ADDR K.SET0_BASE K.ZPU_SR_CLOCK_CTRL)
      (clock_control_word mb) }

/-- The method `x300_impl::set_time_source_out`. -/
def set_time_source_out (K : x300_defs) (mb : clock_mboard_t) (enb : Bool) : clock_mboard_t :=
  update_clock_control K { mb with clock_control_regs_pps_out_enb := if enb then 1 else 0 }

/-- The method `x300_impl::update_clock_source`.  Returns the outcome and the
motherboard as the call leaves it, also when it raises. -/
def update_clock_source (K : x300_defs) (mb : clock_mboard_t) (source : String) :
    outcome Unit × clock_mboard_t :=
  let mb := { mb with clock_control_regs_clock_source := 0, clock_control_regs_tcxo_enb := 0 }
  if source = "internal" then
    (.returned (), update_clock_control K { mb with
      clock_control_regs_clock_source := K.ZPU_SR_CLOCK_CTRL_CLK_SRC_INTERNAL,
      clock_control_regs_tcxo_enb := 1 })
  else if source = "external" then
    (.returned (), update_clock_control K { mb with
      clock_control_regs_clock_source := K.ZPU_SR_CLOCK_CTRL_CLK_SRC_EXTERNAL })
  else if source = "gpsdo" then
    (.returned (), update_clock_control K { mb with
      clock_control_regs_clock_source := K.ZPU_SR_CLOCK_CTRL_CLK_SRC_GPSDO })
  else (.raised (.key_error ("update_clock_source: unknown source: " ++ source)), mb)

/-- The method `x300_impl::update_time_source`, with the same conventions.
The call of `is_pps_present` that ends it only reads registers and its result
is not used. -/
def update_time_source (K : x300_defs) (mb : clock_mboard_t) (source : String) :
    outcome Unit × clock_mboard_t :=
  if source = "internal" then
    (.returned (), update_clock_control K { mb with
      clock_control_regs_pps_select := K.ZPU_SR_CLOCK_CTRL_PPS_SRC_INTERNAL })
  else if source = "external" then
    (.returned (), update_clock_control K { mb with
      clock_control_regs_pps_select := K.ZPU_SR_CLOCK_CTRL_PPS_SRC_EXTERNAL })
  else if source = "gpsdo" then
    (.returned (), update_clock_control K { mb with
      clock_control_regs_pps_select := K.ZPU_SR_CLOCK_CTRL_PPS_SRC_GPSDO })
  else (.raised (.key_error ("update_time_source: unknown source: " ++ source)), mb)

/-- The value most recently written to a register, read from the log of
writes; `none` when the register was never written. -/
def last_poke (iface : wb_iface) (addr : Nat) : Option Nat :=
  ((iface.pokes.filter (fun p => p.1 = addr)).getLast?).map (fun p => p.2)

/-- The in-memory clock-control members agree with the hardware register: the
value most recently written to the clock-control register is the word packed
from the members. -/
def clock_control_in_sync (K : x300_defs) (mb : clock_mboard_t) : Prop :=
  last_poke mb.zpu_ctrl (K.SR_ADDR K.SET0_BASE K.ZPU_SR_CLOCK_CTRL) =
    some (u32 (clock_control_word mb))

instance (K : x300_defs) (mb : clock_mboard_t) : Decidable (clock_control_in_sync K mb) := by
  unfold clock_control_in_sync; infer_instance

/-! ## Multi-device discovery as the specification words it -/

/-- The devices of the sub-hints that resolve to exactly one device, in the
order of the sub-hints; `sub h` is the list of devices the sub-hint `h`
resolves to. -/
def resolved_devices (sub : device_addr_t → List device_addr_t) (hints : List device_addr_t) :
    List device_addr_t :=
  hints.filterMap (fun h =>
    match sub h with
    | [d] => some d
    | _ => none)

/-- The sub-hints that resolve to zero devices or to more than one. -/
def unresolved_hints (sub : device_addr_t → List device_addr_t) (hints : List device_addr_t) :
    List device_addr_t :=
  hints.filter (fun h => decide ((sub h).length ≠ 1))

/-- The aggregated error text: one sentence for each unresolved sub-hint, in
order. -/
def unresolved_message (L : device_addr_lib) (sub : device_addr_t → List device_addr_t)
    (hints : List device_addr_t) : String :=
  (unresolved_hints sub hints).foldl (fun msg h => msg ++ unresolved_text L h) ""

/-! ## Concrete inputs for discovery and bring-up -/

/-- The decimal digit `i` as a string, for `i < 10`. -/
def digit_string (i : Nat) : String :=
  String.singleton (Char.ofNat (48 + i % 10))

/-- A key split into its name and its trailing decimal index, if any. -/
def split_key (key : String) : String × Option Nat :=
  let digits := (key.data.reverse.takeWhile Char.isDigit).reverse
  (String.mk (key.data.take (key.data.length - digits.length)),
    if digits.isEmpty then none else decimal_value digits 0)

/-- A simple `separate_device_addr`: the entry `name<i>` goes to the sub-hint
number `i` under the key `name`, and an entry without an index goes to every
sub-hint. -/
def sample_separate (d : device_addr_t) : List device_addr_t :=
  let parsed := d.entries.map (fun p => (split_key p.1, p.2))
  let count := parsed.foldl
    (fun m q =>
      match q.1.2 with
      | some i => max m (i + 1)
      | none => m) 1
  (List.range count).map (fun i =>
    ⟨parsed.filterMap (fun q => if q.1.2 = some i then some (q.1.1, q.2) else none) ++
      parsed.filterMap (fun q => if q.1.2 = none then some (q.1.1, q.2) else none)⟩)

/-- A simple `combine_device_addrs`: the entries of the device number `i` get
the index `i` appended to their keys. -/
def sample_combine (ds : List device_addr_t) : device_addr_t :=
  ⟨(ds.enum.map (fun q => q.2.entries.map (fun p => (p.1 ++ digit_string q.1, p.2)))).flatten⟩

/-- A simple `to_string`: `key=value` pairs separated by commas. -/
def sample_to_string (d : device_addr_t) : String :=
  String.intercalate "," (d.entries.map (fun p => p.1 ++ "=" ++ p.2))

/-- One concrete choice of the library routines on device addresses. -/
def sample_lib : device_addr_lib where
  separate_device_addr := sample_separate
  combine_device_addrs := sample_combine
  to_string := sample_to_string

/-- A host without network interfaces and without PCIe devices, on a network
where no probe is answered. -/
def silent_env : find_env where
  process_hash := 0xCAFE
  net := fun _ => some (7, [])
  if_addrs := []
  loopback := "127.0.0.1"
  status_fatal := false
  dev_info_vtr := []
  registry := []

/-- A host on a network with two unclaimed X310 at `192.168.10.2` and
`192.168.10.3`; each answers the probes sent to its own address. -/
def two_x310_env : find_env where
  process_hash := 0xCAFE
  net := fun hint =>
    if hint.get "addr" = "192.168.10.2" then
      some (7, [good_reply "192.168.10.2" (x310_target "a" "F00D")])
    else if hint.get "addr" = "192.168.10.3" then
      some (7, [good_reply "192.168.10.3" (x310_target "b" "F00E")])
    else some (7, [])
  if_addrs := []
  loopback := "127.0.0.1"
  status_fatal := false
  dev_info_vtr := []
  registry := []

/-- What the sub-hints resolve to on the network of `two_x310_env`. -/
def two_x310_sub (h : device_addr_t) : List device_addr_t :=
  match x300_find sample_defs sample_lib two_x310_env 1 h with
  | .returned addrs => addrs
  | _ => []

/-! ## Concrete inputs for bring-up and clock control -/

/-- A motherboard whose clock-control members are all 0 and whose register
interface has seen no write. -/
def fresh_clock_mboard : clock_mboard_t where
  zpu_ctrl := zero_iface
  clock_control_regs_clock_source := 0
  clock_control_regs_pps_select := 0
  clock_control_regs_pps_out_enb := 0
  clock_control_regs_tcxo_enb := 0
  clock_control_regs_gpsdo_pwr := 0

/-- The motherboard after `update_clock_source` with `"internal"`. -/
def internal_clock_mboard : clock_mboard_t :=
  (update_clock_source sample_defs fresh_clock_mboard "internal").2

/-! ## The common shape of the two search loops -/

/-- The binary search both loops of `determine_max_frame_size` perform, with
the test of one probe abstracted: `accept test` tells whether the probe of
size `test` succeeds. -/
def frame_search (accept : Nat → Bool) : Nat → Nat → Nat → List Nat → outcome (Nat × List Nat)
  | 0, lo, hi, probes => if lo < hi then .unfinished else .returned (lo, probes)
  | n + 1, lo, hi, probes =>
    if lo < hi then
      if accept (test_frame_size lo hi) then
        frame_search accept n (test_frame_size lo hi) hi (probes ++ [test_frame_size lo hi])
      else
        frame_search accept n lo (usize (test_frame_size lo hi + 2 ^ 64 - 4))
          (probes ++ [test_frame_size lo hi])
    else .returned (lo, probes)

/-- Whether a probe of the receive loop succeeds. -/
def recv_accept (link : mtu_link) (test : Nat) : Bool :=
  decide (link.recv_echo (u32 test) ≥ test)

/-- Whether a probe of the send loop succeeds. -/
def send_accept (K : x300_defs) (link : mtu_link) (buffer_size test : Nat) : Bool :=
  decide ((if (link.send_echo (min test buffer_size)).1 ≥ K.sizeof_x300_mtu_t then
      u32 (link.send_echo (min test buffer_size)).2
    else (link.send_echo (min test buffer_size)).1) ≥ test)

/-! ## Compatibility checks -/

/-- One access to a register through the register interface. -/
inductive reg_access where
  | peek32 (addr : Nat)
  | poke32 (addr value : Nat)
deriving DecidableEq, Repr

/-- The method `x300_impl::check_fw_compat`; returns the outcome and the
register accesses made.  The text of the error is abridged to its fixed
sentence. -/
def check_fw_compat (K : x300_defs) (iface : wb_iface) : outcome Unit × List reg_access :=
  let compat_num := iface.peek32 (K.SR_ADDR K.X300_FW_SHMEM_BASE K.X300_FW_SHMEM_COMPAT_NUM)
  let compat_major := compat_num >>> 16
  if compat_major ≠ K.X300_FW_COMPAT_MAJOR then
    (.raised (.runtime_error
      "The firmware build is not compatible with the host code build."),
      [.peek32 (K.SR_ADDR K.X300_FW_SHMEM_BASE K.X300_FW_SHMEM_COMPAT_NUM)])
  else (.returned (), [.peek32 (K.SR_ADDR K.X300_FW_SHMEM_BASE K.X300_FW_SHMEM_COMPAT_NUM)])

/-- The method `x300_impl::check_fpga_compat`, with the same conventions. -/
def check_fpga_compat (K : x300_defs) (iface : wb_iface) : outcome Unit × List reg_access :=
  let compat_num := iface.peek32 (K.SR_ADDR K.SET0_BASE K.ZPU_RB_COMPAT_NUM)
  let compat_major := compat_num >>> 16
  if compat_major ≠ K.X300_FPGA_COMPAT_MAJOR then
    (.raised (.runtime_error
      "The FPGA build is not compatible with the host code build."),
      [.peek32 (K.SR_ADDR K.SET0_BASE K.ZPU_RB_COMPAT_NUM)])
  else (.returned (), [.peek32 (K.SR_ADDR K.SET0_BASE K.ZPU_RB_COMPAT_NUM)])

/-- The method `x300_impl::setup_mb` from the compatibility checks on.  `rest`
stands for the statements that follow the assignment of
`mb.loaded_fpga_image`: given the image tag it tells their outcome and the
register accesses they make.  Returns the outcome and all register accesses
in order. -/
def setup_mb_from_compat (K : x300_defs) (rest : String → outcome Unit × List reg_access)
    (zpu_ctrl : wb_iface) : outcome Unit × List reg_access :=
  let fw := check_fw_compat K zpu_ctrl
  match fw.1 with
  | .raised e => (.raised e, fw.2)
  | .unfinished => (.unfinished, fw.2)
  | .returned _ =>
    let fpga := check_fpga_compat K zpu_ctrl
    match fpga.1 with
    | .raised e => (.raised e, fw.2 ++ fpga.2)
    | .unfinished => (.unfinished, fw.2 ++ fpga.2)
    | .returned _ =>
      let loaded_fpga_image := get_fpga_option K zpu_ctrl
      let r := rest loaded_fpga_image
      (r.1, fw.2 ++ fpga.2 ++
        [.peek32 (K.SR_ADDR K.SET0_BASE K.ZPU_RB_ETH_TYPE0),
          .peek32 (K.SR_ADDR K.SET0_BASE K.ZPU_RB_ETH_TYPE1)] ++ r.2)

/-- The loop of `setup_mb` that clears the router: 512 writes of 0. -/
def clear_router (K : x300_defs) (zpu_ctrl : wb_iface) : wb_iface :=
  (List.range 512).foldl (fun ctrl i => ctrl.poke32 (K.SR_ADDR K.SETXB_BASE i) 0) zpu_ctrl

/-! ## PPS detection -/

/-- The `for` loop of `is_pps_present`.  `clk_status k` is the value the
read number `k` of the clock-status register returns (the read before the
loop is number 0); `i` is the loop counter and `remaining` the number of
iterations left.  Returns the result and the number of reads made so far. -/
def is_pps_present_loop (K : x300_defs) (clk_status : Nat → Nat) (pps_detect : Nat) :
    Nat → Nat → Bool × Nat
  | 0, i => (false, i + 1)
  | remaining + 1, i =>
    let clk_status_i := u32 (clk_status (i + 1))
    if pps_detect ≠ clk_status_i &&& K.ZPU_RB_CLK_STATUS_PPS_DETECT then (true, i + 2)
    else is_pps_present_loop K clk_status pps_detect remaining (i + 1)

/-- The method `x300_impl::is_pps_present`.  Returns the result, the number of
reads of the clock-status register, and the register interface as the call
leaves it. -/
def is_pps_present (K : x300_defs) (clk_status : Nat → Nat) (ctrl : wb_iface) :
    Bool × Nat × wb_iface :=
  let pps_detect := u32 (clk_status 0) &&& K.ZPU_RB_CLK_STATUS_PPS_DETECT
  let r := is_pps_present_loop K clk_status pps_detect 15 0
  (r.1, r.2, ctrl)

/-! ## DAC control -/

/-- The DAC behind the SPI interface, as far as the control writes to it: the
16-bit words passed to `write_spi`, oldest first. -/
structure ad9146 where
  spi_writes : List Nat
deriving DecidableEq, Repr

/-- The word `((addr) << 8) | (data)` of the macro `write_ad9146_reg`. -/
def ad9146_word (addr data : Nat) : Nat := (addr <<< 8) ||| data

/-- The macro `write_ad9146_reg(addr, data)`. -/
def write_ad9146_reg (dac : ad9146) (addr data : Nat) : ad9146 :=
  ⟨dac.spi_writes ++ [ad9146_word addr data]⟩

/-- The macro `read_ad9146_reg(addr)`, applied to the value `read_spi`
returns. -/
def read_ad9146_reg (read_spi : Nat) : Nat := read_spi &&& 0xff

/-- The value most recently written to a DAC register; `none` when the
register was never written. -/
def ad9146_last_written (dac : ad9146) (addr : Nat) : Option Nat :=
  ((dac.spi_writes.filter (fun w => w >>> 8 = addr)).getLast?).map (fun w => w &&& 0xff)

/-- The method `x300_dac_ctrl_impl::arm_dac_sync`. -/
def arm_dac_sync (dac : ad9146) : ad9146 :=
  write_ad9146_reg (write_ad9146_reg (write_ad9146_reg dac 0x10 0x48) 0x06 0x30) 0x10 0xCF

/-- What one iteration of a polling loop of the DAC control observes: the
values `read_spi` returns for its two register reads, in order, and whether
`exit_time < time_spec_t::get_system_time()` holds when it is tested. -/
structure dac_poll where
  first : Nat
  second : Nat
  expired : Bool
deriving DecidableEq, Repr

/-- The method `x300_dac_ctrl_impl::check_pll`.  The list holds what the
iterations observe; the loop is `unfinished` when the list ends first. -/
def check_pll : List dac_poll → ad9146 → outcome Unit × ad9146
  | [], dac => (.unfinished, dac)
  | p :: rest, dac =>
    let reg_e := read_ad9146_reg p.first
    let reg_6 := read_ad9146_reg p.second
    if ((reg_e >>> 7) &&& 0x1) = 0x1 ∧ ((reg_6 >>> 6) &&& 0x3) = 0x1 then (.returned (), dac)
    else if p.expired then
      (.raised (.runtime_error "x300_dac_ctrl: timeout waiting for DAC PLL to lock"), dac)
    else if reg_6 &&& (1 <<< 7) ≠ 0 then check_pll rest (write_ad9146_reg dac 0x06 0xC0)
    else check_pll rest dac

/-- The method `x300_dac_ctrl_impl::check_dac_sync`, with the same
conventions. -/
def check_dac_sync : List dac_poll → ad9146 → outcome Unit × ad9146
  | [], dac => (.unfinished, dac)
  | p :: rest, dac =>
    let reg_12 := read_ad9146_reg p.first
    let reg_6 := read_ad9146_reg p.second
    if ((reg_12 >>> 6) &&& 0x3) = 0x1 ∧ ((reg_6 >>> 4) &&& 0x3) = 0x1 then (.returned (), dac)
    else if p.expired then
      (.raised (.runtime_error
        "x300_dac_ctrl: timeout waiting for backend synchronization"), dac)
    else if reg_12 &&& (1 <<< 7) ≠ 0 then check_dac_sync rest (arm_dac_sync dac)
    else if reg_6 &&& (1 <<< 5) ≠ 0 then check_dac_sync rest (write_ad9146_reg dac 0x06 0x30)
    else check_dac_sync rest dac

/-- The `for` loop of `init` that chooses `N0`.  The first argument is the
number of iterations left; returns `N0_val` and `N0` as the loop leaves them.
The reference clock is an exact rational. -/
def n0_loop (refclk : ℚ) : Nat → Nat → Nat → Nat × Nat
  | 0, N0_val, N0 => (N0_val, N0)
  | k + 1, N0_val, _ =>
    let N0 := 1 <<< N0_val
    if refclk * N0 * 4 ≥ 1000000000 then (N0_val, N0)
    else n0_loop refclk k (N0_val + 1) N0

/-- The method `x300_dac_ctrl_impl::init`. -/
def dac_init (refclk : ℚ) (dac : ad9146) : outcome Unit × ad9146 :=
  let dac := write_ad9146_reg dac 0x00 0x20
  let dac := write_ad9146_reg dac 0x00 0x80
  let dac := write_ad9146_reg dac 0x1e 0x01
  let r := n0_loop refclk 3 0 0
  let N0_val := r.1
  let N0 := r.2
  if ¬ (refclk * N0 * 4 ≥ 1000000000) then
    (.raised (.assertion_error "(_refclk * N0 * N1) >= 1e9"), dac)
  else if ¬ (refclk * N0 * 4 ≤ 2000000000) then
    (.raised (.assertion_error "(_refclk * N0 * N1) <= 2e9"), dac)
  else
    let dac := write_ad9146_reg dac 0x0D (0xD1 ||| (N0_val <<< 2))
    let dac := write_ad9146_reg dac 0x0A 0xCF
    let dac := write_ad9146_reg dac 0x0A 0xA0
    let dac := write_ad9146_reg dac 0x16 0x02
    let dac := write_ad9146_reg dac 0x03 0x00
    let dac := write_ad9146_reg dac 0x03 (1 <<< 6)
    let dac := write_ad9146_reg dac 0x10 0x48
    let dac := write_ad9146_reg dac 0x17 0x05
    let dac := write_ad9146_reg dac 0x18 0x02
    let dac := write_ad9146_reg dac 0x18 0x00
    let dac := write_ad9146_reg dac 0x1B 0xE4
    let dac := write_ad9146_reg dac 0x1C 0x00
    let dac := write_ad9146_reg dac 0x1D 0x00
    let dac := write_ad9146_reg dac 0x06 0xFF
    (.returned (), dac)

/-! ## Transports -/

/-- The struct `zero_copy_xport_params`. -/
structure zero_copy_xport_params where
  recv_frame_size : Nat
  send_frame_size : Nat
  num_recv_frames : Nat
  num_send_frames : Nat
deriving DecidableEq, Repr

/-- What `make_transport` does that is visible from outside, in order: the
call of `allocate_sid` (with the Stream-ID it returns), the updates of
`link_max_rate`, the warnings, the creation of the channel, the packet
committed through its send path (its two 32-bit words and its length in
bytes), and the accesses to the registers of the motherboard. -/
inductive xport_event where
  | allocate_sid (sid : Nat)
  | nirio_zero_copy_make (channel : Nat) (params : zero_copy_xport_params)
  | link_max_rate_1gige
  | link_max_rate_10gige
  | send_frame_size_warning (recommended available : Nat)
  | recv_frame_size_warning (recommended available : Nat)
  | udp_zero_copy_make (addr : String) (port : Nat) (params : zero_copy_xport_params)
  | commit (word0 word1 nbytes : Nat)
  | poke32 (addr value : Nat)
  | peek32 (addr : Nat)
deriving DecidableEq, Repr

/-- The members of the session and of `mboard_members_t` that
`make_transport` uses. -/
structure transport_mboard where
  sid : sid_state
  addr : String
  router_dst_here : Nat
  loaded_fpga_image : String
  _max_frame_sizes : frame_size_t

/-- The recommended frame size `eth_data_rec_frame_size` that
`make_transport` derives from the image tag and the port, with the update of
`link_max_rate` that goes with it. -/
def eth_data_rec_frame_size (K : x300_defs) (loaded_fpga_image : String)
    (router_dst_here : Nat) : Nat × List xport_event :=
  if loaded_fpga_image = "HGS" then
    if router_dst_here = K.X300_XB_DST_E0 then
      (K.X300_1GE_DATA_FRAME_MAX_SIZE, [.link_max_rate_1gige])
    else if router_dst_here = K.X300_XB_DST_E1 then
      (K.X300_10GE_DATA_FRAME_MAX_SIZE, [.link_max_rate_10gige])
    else (0, [])
  else if loaded_fpga_image = "XGS" then
    (K.X300_10GE_DATA_FRAME_MAX_SIZE, [.link_max_rate_10gige])
  else (0, [])

/-- The method `x300_impl::make_transport`.  Returns the outcome (the
Stream-ID stored in `sid` when the call returns), the motherboard and session
as the call leaves them, and the events in order.  The creation of the
channel and the request of its send buffer are library calls, taken to
succeed. -/
def make_transport (K : x300_defs) (mb : transport_mboard) (destination prefix_ : Nat) :
    outcome Nat × transport_mboard × List xport_event :=
  let config : sid_config_t :=
    { router_addr_there := K.X300_DEVICE_THERE
      dst_prefix := prefix_
      router_dst_there := destination
      router_dst_here := mb.router_dst_here }
  let a := allocate_sid K mb.sid config
  let sid := a.1
  let mb := { mb with sid := a.2 }
  let events : List xport_event := [.allocate_sid sid]
  if mb.sid.xport_path = "nirio" then
    let default_buff_args : zero_copy_xport_params :=
      { send_frame_size :=
          if prefix_ = K.X300_RADIO_DEST_PREFIX_TX then K.X300_PCIE_TX_DATA_FRAME_SIZE
          else K.X300_PCIE_MSG_FRAME_SIZE
        recv_frame_size :=
          if prefix_ = K.X300_RADIO_DEST_PREFIX_RX then K.X300_PCIE_RX_DATA_FRAME_SIZE
          else K.X300_PCIE_MSG_FRAME_SIZE
        num_send_frames :=
          if prefix_ = K.X300_RADIO_DEST_PREFIX_TX then K.X300_PCIE_DATA_NUM_FRAMES
          else K.X300_PCIE_MSG_NUM_FRAMES
        num_recv_frames :=
          if prefix_ = K.X300_RADIO_DEST_PREFIX_RX then K.X300_PCIE_DATA_NUM_FRAMES
          else K.X300_PCIE_MSG_NUM_FRAMES }
    (.returned sid, mb,
      events ++ [.nirio_zero_copy_make (get_pcie_dma_channel K destination prefix_)
        default_buff_args])
  else if mb.sid.xport_path = "eth" then
    let rec_size := eth_data_rec_frame_size K mb.loaded_fpga_image mb.router_dst_here
    let events := events ++ rec_size.2
    if rec_size.1 = 0 then
      (.raised (.runtime_error "Unable to determine ETH link type."), mb, events)
    else
      let events :=
        if mb._max_frame_sizes.send_frame_size < rec_size.1 then
          events ++ [.send_frame_size_warning rec_size.1 mb._max_frame_sizes.send_frame_size]
        else events
      let events :=
        if mb._max_frame_sizes.recv_frame_size < rec_size.1 then
          events ++ [.recv_frame_size_warning rec_size.1 mb._max_frame_sizes.recv_frame_size]
        else events
      let system_max_send_frame_size := mb._max_frame_sizes.send_frame_size
      let system_max_recv_frame_size := mb._max_frame_sizes.recv_frame_size
      let default_buff_args : zero_copy_xport_params :=
        { send_frame_size :=
            if prefix_ = K.X300_RADIO_DEST_PREFIX_TX then
              min system_max_send_frame_size K.X300_10GE_DATA_FRAME_MAX_SIZE
            else min system_max_send_frame_size K.X300_ETH_MSG_FRAME_SIZE
          recv_frame_size :=
            if prefix_ = K.X300_RADIO_DEST_PREFIX_RX then
              min system_max_recv_frame_size K.X300_10GE_DATA_FRAME_MAX_SIZE
            else min system_max_recv_frame_size K.X300_ETH_MSG_FRAME_SIZE
          num_send_frames :=
            if prefix_ = K.X300_RADIO_DEST_PREFIX_TX then K.X300_ETH_DATA_NUM_FRAMES
            else K.X300_ETH_MSG_NUM_FRAMES
          num_recv_frames :=
            if prefix_ = K.X300_RADIO_DEST_PREFIX_RX then K.X300_ETH_DATA_NUM_FRAMES
            else K.X300_ETH_MSG_NUM_FRAMES }
      let port0 := K.SR_ADDR K.SET0_BASE (K.ZPU_SR_ETHINT0 + 8 + 3)
      let port1 := K.SR_ADDR K.SET0_BASE (K.ZPU_SR_ETHINT1 + 8 + 3)
      let zpu_ctrl := (mb.sid.zpu_ctrl.poke32 port0 K.X300_VITA_UDP_PORT).poke32 port1
        K.X300_VITA_UDP_PORT
      (.returned sid, { mb with sid := { mb.sid with zpu_ctrl := zpu_ctrl } },
        events ++
          [.udp_zero_copy_make mb.addr K.X300_VITA_UDP_PORT default_buff_args,
            .commit 0 (K.htonx sid) 8,
            .poke32 port0 (u32 K.X300_VITA_UDP_PORT),
            .poke32 port1 (u32 K.X300_VITA_UDP_PORT),
            .peek32 0])
  else (.returned sid, mb, events)

/-! ## Concrete inputs for the compatibility checks and the DAC -/

/-- A register interface whose firmware compatibility word is `0x00020005`
(major 2, minor 5) and whose every other register reads `0x00040001`. -/
def stale_firmware_iface : wb_iface where
  regs := fun addr =>
    if addr = sample_defs.SR_ADDR sample_defs.X300_FW_SHMEM_BASE
      sample_defs.X300_FW_SHMEM_COMPAT_NUM then 0x00020005 else 0x00040001
  pokes := []

/-! ## Polling of the DAC, in the words of the specification -/

/-- The pattern `check_dac_sync` waits for: bits 7..6 of sync-status register
0x12 equal 01 and bits 5..4 of event-flag register 0x06 equal 01. -/
def dac_sync_pattern (p : dac_poll) : Prop :=
  ((read_ad9146_reg p.first).testBit 7 = false ∧ (read_ad9146_reg p.first).testBit 6 = true) ∧
  ((read_ad9146_reg p.second).testBit 5 = false ∧ (read_ad9146_reg p.second).testBit 4 = true)

instance (p : dac_poll) : Decidable (dac_sync_pattern p) := by
  unfold dac_sync_pattern; infer_instance

/-- The SPI writes expected of `check_dac_sync` at a poll without the pattern
taken before the deadline: the three writes of `arm_dac_sync` when bit 7 of
register 0x12 is set; otherwise 0x30 to register 0x06 when bit 5 of register
0x06 is set; otherwise none. -/
def dac_sync_poll_writes (p : dac_poll) : List Nat :=
  if (read_ad9146_reg p.first).testBit 7 = true then
    [ad9146_word 0x10 0x48, ad9146_word 0x06 0x30, ad9146_word 0x10 0xCF]
  else if (read_ad9146_reg p.second).testBit 5 = true then [ad9146_word 0x06 0x30]
  else []

/-- The pattern `check_pll` waits for: bit 7 of PLL-status register 0x0E is 1
and bits 7..6 of event-flag register 0x06 equal 01. -/
def pll_lock_pattern (p : dac_poll) : Prop :=
  (read_ad9146_reg p.first).testBit 7 = true ∧
  ((read_ad9146_reg p.second).testBit 7 = false ∧ (read_ad9146_reg p.second).testBit 6 = true)

instance (p : dac_poll) : Decidable (pll_lock_pattern p) := by
  unfold pll_lock_pattern; infer_instance

/-- The SPI writes expected of `check_pll` at a poll without the pattern taken
before the deadline: 0xC0 to register 0x06 when bit 7 of register 0x06 is
set, otherwise none. -/
def pll_poll_writes (p : dac_poll) : List Nat :=
  if (read_ad9146_reg p.second).testBit 7 = true then [ad9146_word 0x06 0xC0] else []

/-- Two polls of `check_dac_sync` taken before the deadline that do not show
the pattern: the first has bit 7 of register 0x12 set, the second has bit 5
of register 0x06 set. -/
def unsynced_polls : List dac_poll := [⟨0x80, 0x00, false⟩, ⟨0x00, 0x20, false⟩]

/-- A poll of `check_dac_sync` that shows the pattern: register 0x12 reads
0x40, register 0x06 reads 0x10. -/
def synced_poll : dac_poll := ⟨0x40, 0x10, false⟩

/-- Two polls of `check_pll` taken before the deadline that do not show the
pattern: the first has bit 7 of register 0x06 set, the second has no bit
set. -/
def unlocked_polls : List dac_poll := [⟨0x80, 0x80, false⟩, ⟨0x00, 0x00, false⟩]

/-- A poll of `check_pll` that shows the pattern: register 0x0E reads 0x80,
register 0x06 reads 0x40. -/
def locked_poll : dac_poll := ⟨0x80, 0x40, false⟩

/-! ## Concrete inputs for PPS detection and transports -/

/-- Reads of the clock-status register in which the PPS-detect bit is clear
at first and set from the fourth read on. -/
def pps_after_three (k : Nat) : Nat := if k < 3 then 0 else sample_defs.ZPU_RB_CLK_STATUS_PPS_DETECT

/-- A motherboard on the network path with the image tag "XGS", reached
through port 0, whose system frame sizes are 1472 bytes. -/
def xgs_mboard : transport_mboard where
  sid := new_session "eth" zero_iface
  addr := "192.168.10.2"
  router_dst_here := sample_defs.X300_XB_DST_E0
  loaded_fpga_image := "XGS"
  _max_frame_sizes := ⟨1472, 1472⟩

/-- The same motherboard with the image tag "1G". -/
def one_gig_mboard : transport_mboard := { xgs_mboard with loaded_fpga_image := "1G" }

/-! ## The writes of the DAC init, listed -/

/-- The three SPI words `init` writes before it chooses `N0`. -/
def dac_reset_words : List Nat :=
  [ad9146_word 0x00 0x20, ad9146_word 0x00 0x80, ad9146_word 0x1e 0x01]

/-- The SPI words `init` writes after it has chosen `N0`, the first one to
register 0x0D. -/
def dac_pll_words (N0_val : Nat) : List Nat :=
  [ad9146_word 0x0D (0xD1 ||| (N0_val <<< 2)), ad9146_word 0x0A 0xCF, ad9146_word 0x0A 0xA0,
    ad9146_word 0x16 0x02, ad9146_word 0x03 0x00, ad9146_word 0x03 (1 <<< 6),
    ad9146_word 0x10 0x48, ad9146_word 0x17 0x05, ad9146_word 0x18 0x02,
    ad9146_word 0x18 0x00, ad9146_word 0x1B 0xE4, ad9146_word 0x1C 0x00,
    ad9146_word 0x1D 0x00, ad9146_word 0x06 0xFF]

/-! # Theorems -/

/-! ## Bit-field lemmas -/

theorem testBit_of_lt_256 {x j : Nat} (h : x < 256) (hj : 8 ≤ j) : x.testBit j = false := by
  apply Nat.testBit_lt_two_pow
  calc x < 2 ^ 8 := h
    _ ≤ 2 ^ j := Nat.pow_le_pow_right (by norm_num) hj

theorem sid_stream_eq_mod (config : sid_config_t) :
    sid_stream config = (config.dst_prefix ||| (config.router_dst_there <<< 2)) % 256 := by
  unfold sid_stream
  exact Nat.and_pow_two_sub_one_eq_mod _ 8

theorem sid_stream_lt (config : sid_config_t) : sid_stream config < 256 := by
  rw [sid_stream_eq_mod]
  exact Nat.mod_lt _ (by norm_num)

/-- Bits 23..16 of the Stream-ID hold the counter modulo 256. -/
theorem sid_framer_sid_word (K : x300_defs) (framer : Nat) (config : sid_config_t)
    (ha : config.router_addr_there < 256) :
    sid_framer (sid_word K framer config) = framer % 256 := by
  have hs := sid_stream_lt config
  unfold sid_framer sid_word u32
  apply Nat.eq_of_testBit_eq
  intro i
  have e : (256 : Nat) = 2 ^ 8 := by norm_num
  rw [e]
  simp only [Nat.testBit_mod_two_pow, Nat.testBit_shiftRight, Nat.testBit_or,
    Nat.testBit_shiftLeft, Nat.zero_or, Nat.shiftLeft_zero]
  by_cases hi : i < 8
  · have h1 : ¬ (16 + i ≥ 24) := by omega
    have h2 : 16 + i < 32 := by omega
    have h3 : 16 + i ≥ 16 := by omega
    have h4 : 16 + i ≥ 8 := by omega
    have h5 : 16 + i - 16 = i := by omega
    simp [hi, h1, h2, h3, h4, h5, testBit_of_lt_256 ha (show 8 ≤ 16 + i - 8 by omega),
      testBit_of_lt_256 hs (show 8 ≤ 16 + i by omega)]
  · simp [hi]

/-- Bits 15..8 of the Stream-ID hold `router_addr_there`. -/
theorem sid_addr_there_sid_word (K : x300_defs) (framer : Nat) (config : sid_config_t)
    (ha : config.router_addr_there < 256) :
    sid_addr_there (sid_word K framer config) = config.router_addr_there := by
  have hs := sid_stream_lt config
  unfold sid_addr_there sid_word u32
  apply Nat.eq_of_testBit_eq
  intro i
  have e : (256 : Nat) = 2 ^ 8 := by norm_num
  rw [e]
  simp only [Nat.testBit_mod_two_pow, Nat.testBit_shiftRight, Nat.testBit_or,
    Nat.testBit_shiftLeft, Nat.zero_or, Nat.shiftLeft_zero]
  by_cases hi : i < 8
  · have h1 : ¬ (8 + i ≥ 24) := by omega
    have h2 : 8 + i < 32 := by omega
    have h3 : ¬ (8 + i ≥ 16) := by omega
    have h4 : 8 + i ≥ 8 := by omega
    have h5 : 8 + i - 8 = i := by omega
    simp [hi, h1, h2, h3, h4, h5, testBit_of_lt_256 hs (show 8 ≤ 8 + i by omega)]
  · simp [hi, testBit_of_lt_256 ha (show 8 ≤ i by omega)]

/-- Bits 7..0 of the Stream-ID hold the stream selector. -/
theorem sid_selector_sid_word (K : x300_defs) (framer : Nat) (config : sid_config_t) :
    sid_selector (sid_word K framer config) = sid_stream config := by
  have hs := sid_stream_lt config
  unfold sid_selector sid_word u32
  apply Nat.eq_of_testBit_eq
  intro i
  have e : (256 : Nat) = 2 ^ 8 := by norm_num
  rw [e]
  simp only [Nat.testBit_mod_two_pow, Nat.testBit_or,
    Nat.testBit_shiftLeft, Nat.zero_or, Nat.shiftLeft_zero]
  by_cases hi : i < 8
  · have h1 : ¬ (i ≥ 24) := by omega
    have h2 : i < 32 := by omega
    have h3 : ¬ (i ≥ 16) := by omega
    have h4 : ¬ (i ≥ 8) := by omega
    simp [hi, h1, h2, h3, h4]
  · simp [hi, testBit_of_lt_256 hs (show 8 ≤ i by omega)]

/-- Bits 31..24 of the Stream-ID hold `X300_DEVICE_HERE` while the counter
is below 256. -/
theorem sid_here_sid_word (K : x300_defs) (framer : Nat) (config : sid_config_t)
    (hh : K.X300_DEVICE_HERE < 256) (hf : framer < 256)
    (ha : config.router_addr_there < 256) :
    sid_here (sid_word K framer config) = K.X300_DEVICE_HERE := by
  have hs := sid_stream_lt config
  unfold sid_here sid_word u32
  apply Nat.eq_of_testBit_eq
  intro i
  have e : (256 : Nat) = 2 ^ 8 := by norm_num
  rw [e]
  simp only [Nat.testBit_mod_two_pow, Nat.testBit_shiftRight, Nat.testBit_or,
    Nat.testBit_shiftLeft, Nat.zero_or, Nat.shiftLeft_zero]
  by_cases hi : i < 8
  · have h1 : 24 + i ≥ 24 := by omega
    have h2 : 24 + i < 32 := by omega
    have h3 : 24 + i ≥ 16 := by omega
    have h4 : 24 + i ≥ 8 := by omega
    have h5 : 24 + i - 24 = i := by omega
    simp [hi, h1, h2, h3, h4, h5, testBit_of_lt_256 hf (show 8 ≤ 24 + i - 16 by omega),
      testBit_of_lt_256 ha (show 8 ≤ 24 + i - 8 by omega),
      testBit_of_lt_256 hs (show 8 ≤ 24 + i by omega)]
  · simp [hi, testBit_of_lt_256 hh (show 8 ≤ i by omega)]

/-! ## Dictionary lemmas -/

theorem dict.find_eq_none_of_not_has_key (d : dict) (k : String) (h : d.has_key k = false) :
    d.find k = none := by
  unfold dict.find
  unfold dict.has_key at h
  have : d.entries.find? (fun p => p.1 == k) = none := by
    rw [List.find?_eq_none]
    intro x hx hp
    have : d.entries.any (fun p => p.1 == k) = true := List.any_eq_true.mpr ⟨x, hx, hp⟩
    rw [h] at this; exact Bool.noConfusion this
  rw [this]; rfl

theorem dict.has_key_eq_isSome (d : dict) (k : String) : d.has_key k = (d.find k).isSome := by
  cases h : d.has_key k
  · rw [dict.find_eq_none_of_not_has_key d k h]; rfl
  · unfold dict.has_key at h
    obtain ⟨x, hx, hp⟩ := List.any_eq_true.mp h
    unfold dict.find
    cases hf : d.entries.find? (fun p => p.1 == k) with
    | none =>
      rw [List.find?_eq_none] at hf
      exact absurd hp (hf x hx)
    | some y => rfl

theorem find_map_set_ne (k k' v : String) (hne : k' ≠ k) : ∀ l : List (String × String),
    ((l.map (fun p => if p.1 == k then (p.1, v) else p)).find? (fun p => p.1 == k')).map
      (fun p => p.2) = (l.find? (fun p => p.1 == k')).map (fun p => p.2) := by
  intro l
  induction l with
  | nil => rfl
  | cons e t ih =>
    by_cases he : e.1 = k
    · have h1 : (e.1 == k') = false := by
        rw [beq_eq_false_iff_ne]; intro h; exact hne (h.symm.trans he)
      simp [List.find?_cons, he, h1, beq_false_of_ne (Ne.symm hne)]
      simpa using ih
    · by_cases he' : e.1 = k'
      · have h1 : (e.1 == k) = false := beq_false_of_ne he
        have h2 : (e.1 == k') = true := by rw [he']; exact beq_self_eq_true _
        simp only [List.map_cons, h1, Bool.false_eq_true, if_false, List.find?_cons, h2]
      · have h1 : (e.1 == k) = false := beq_false_of_ne he
        have h2 : (e.1 == k') = false := beq_false_of_ne he'
        simp only [List.map_cons, h1, Bool.false_eq_true, if_false, List.find?_cons, h2]
        exact ih

theorem find_map_set_eq (k v : String) : ∀ l : List (String × String),
    l.any (fun p => p.1 == k) = true →
    ((l.map (fun p => if p.1 == k then (p.1, v) else p)).find? (fun p => p.1 == k)).map
      (fun p => p.2) = some v := by
  intro l
  induction l with
  | nil => intro h; simp at h
  | cons e t ih =>
    intro h
    by_cases he : e.1 = k
    · simp [List.find?_cons, he]
    · have ht : t.any (fun p => p.1 == k) = true := by
        simpa [he] using h
      simp [List.find?_cons, he]
      simpa using ih ht

theorem dict.find_set (d : dict) (k v k' : String) :
    (d.set k v).find k' = if k' = k then some v else d.find k' := by
  by_cases hk : d.has_key k = true
  · by_cases hne : k' = k
    · subst hne
      simp only [dict.set, hk, if_true, dict.find]
      exact find_map_set_eq k' v d.entries hk
    · simp only [dict.set, hk, if_true, dict.find, hne, if_false]
      exact find_map_set_ne k k' v hne d.entries
  · have hk' : d.has_key k = false := by simpa using hk
    have hn := dict.find_eq_none_of_not_has_key d k hk'
    by_cases hne : k' = k
    · subst hne
      have hn' : d.entries.find? (fun p => p.1 == k') = none := by
        unfold dict.find at hn
        simpa using hn
      have e : d.set k' v = ⟨d.entries ++ [(k', v)]⟩ := by simp [dict.set, hk']
      rw [e, if_pos rfl]
      show Option.map _ (List.find? _ (d.entries ++ [(k', v)])) = some v
      rw [List.find?_append, hn']
      simp
    · simp only [dict.set, hk', dict.find, List.find?_append, hne, if_false]
      have : (k == k') = false := beq_false_of_ne (Ne.symm hne)
      simp [List.find?_cons, this]

theorem dict.get_set (d : dict) (k v k' : String) :
    (d.set k v).get k' = if k' = k then v else d.get k' := by
  unfold dict.get
  rw [dict.find_set]
  split <;> rfl

theorem dict.index_fst (d : dict) (k : String) : (d.index k).1 = d.get k := by
  unfold dict.index
  cases h : d.has_key k
  · simp [dict.get, dict.find_eq_none_of_not_has_key d k h]
  · simp

theorem dict.index_snd_find (d : dict) (k k' : String) :
    (d.index k).2.get k' = d.get k' := by
  unfold dict.index
  cases h : d.has_key k
  · have hn := dict.find_eq_none_of_not_has_key d k h
    simp only [Bool.false_eq_true, if_false, dict.get, dict.find, List.find?_append]
    by_cases hne : k = k'
    · subst hne
      have hn' : d.entries.find? (fun p => p.1 == k) = none := by
        unfold dict.find at hn
        simpa using hn
      simp only [hn']
      simp
    · have : (k == k') = false := beq_false_of_ne hne
      simp [List.find?_cons, this]
  · simp
/-! ## Stream-ID allocation -/

theorem map_mod_range_congr (n : Nat) : ∀ a b : Nat, a % 256 = b % 256 →
    (List.range' a n).map (fun k => k % 256) = (List.range' b n).map (fun k => k % 256) := by
  induction n with
  | zero => intro a b _; rfl
  | succ n ih =>
    intro a b h
    simp only [List.range'_succ, List.map_cons, h]
    rw [ih (a + 1) (b + 1) (by omega)]

/-- The `localFramerID` fields returned by a run of allocations are the
consecutive counter values modulo 256. -/
theorem allocate_sids_framers (K : x300_defs) (hw : 8 ≤ K.sid_framer_bits) :
    ∀ (configs : List sid_config_t) (s : sid_state),
    (∀ c ∈ configs, c.is_uint8) →
    (allocate_sids K s configs).1.map sid_framer =
      (List.range' s._sid_framer configs.length).map (fun k => k % 256) := by
  intro configs
  induction configs with
  | nil => intro s _; rfl
  | cons c rest ih =>
    intro s h
    have hc : c.is_uint8 := h c (List.mem_cons_self _ _)
    have hrest : ∀ c ∈ rest, c.is_uint8 := fun c hm => h c (List.mem_cons_of_mem _ hm)
    have e1 : sid_framer (allocate_sid K s c).1 = s._sid_framer % 256 :=
      sid_framer_sid_word K s._sid_framer c hc.1
    have e2 : (allocate_sid K s c).2._sid_framer =
        (s._sid_framer + 1) % 2 ^ K.sid_framer_bits := rfl
    simp only [allocate_sids, List.map_cons, List.length_cons, List.range'_succ, e1]
    rw [ih (allocate_sid K s c).2 hrest, e2]
    rw [map_mod_range_congr rest.length ((s._sid_framer + 1) % 2 ^ K.sid_framer_bits)
      (s._sid_framer + 1) (Nat.mod_mod_of_dvd _ (pow_dvd_pow 2 hw))]

/-- C1, amended: for every run of at most 256 calls of `allocate_sid` on a
fresh session (counter 0, of a type at least 8 bits wide), the
`localFramerID` fields (bits 23..16) of the returned Stream-IDs are the call
numbers 0, 1, 2, ...; they are strictly increasing in call order and pairwise
distinct. -/
theorem allocate_sid_framer_increasing (K : x300_defs) (xport_path : String)
    (zpu_ctrl : wb_iface) (configs : List sid_config_t)
    (hw : 8 ≤ K.sid_framer_bits)
    (hN : configs.length ≤ 256) (hc : ∀ c ∈ configs, c.is_uint8) :
    (allocate_sids K (new_session xport_path zpu_ctrl) configs).1.map sid_framer
        = List.range configs.length ∧
      List.Pairwise (fun a b => a < b)
        ((allocate_sids K (new_session xport_path zpu_ctrl) configs).1.map sid_framer) ∧
      List.Pairwise (fun a b => a ≠ b)
        ((allocate_sids K (new_session xport_path zpu_ctrl) configs).1.map sid_framer) := by
  have e : (allocate_sids K (new_session xport_path zpu_ctrl) configs).1.map sid_framer
      = List.range configs.length := by
    rw [allocate_sids_framers K hw configs _ hc]
    show List.map (fun k => k % 256) (List.range' 0 configs.length) = _
    rw [List.range_eq_range']
    conv_rhs => rw [← List.map_id (List.range' 0 configs.length)]
    apply List.map_congr_left
    intro k hk
    have : k < configs.length := by simpa using hk
    simp only [id]
    exact Nat.mod_eq_of_lt (by omega)
  rw [e]
  exact ⟨rfl, List.pairwise_lt_range _, (List.pairwise_lt_range _).imp (fun h => Nat.ne_of_lt h)⟩

/-- Witness of `allocate_sid_framer_increasing`: three calls on a fresh
session. -/
theorem allocate_sid_framer_increasing_witness :
    (allocate_sids sample_defs (new_session "eth" ⟨fun _ => 0, []⟩)
        [⟨2, 1, 2, 0⟩, ⟨2, 0, 2, 0⟩, ⟨2, 2, 3, 0⟩]).1.map sid_framer
        = List.range 3 ∧
      List.Pairwise (fun a b => a < b)
        ((allocate_sids sample_defs (new_session "eth" ⟨fun _ => 0, []⟩)
          [⟨2, 1, 2, 0⟩, ⟨2, 0, 2, 0⟩, ⟨2, 2, 3, 0⟩]).1.map sid_framer) ∧
      List.Pairwise (fun a b => a ≠ b)
        ((allocate_sids sample_defs (new_session "eth" ⟨fun _ => 0, []⟩)
          [⟨2, 1, 2, 0⟩, ⟨2, 0, 2, 0⟩, ⟨2, 2, 3, 0⟩]).1.map sid_framer) :=
  allocate_sid_framer_increasing sample_defs "eth" ⟨fun _ => 0, []⟩
    [⟨2, 1, 2, 0⟩, ⟨2, 0, 2, 0⟩, ⟨2, 2, 3, 0⟩] (by decide) (by decide) (by decide)

/-- The `localFramerID` field returned by the call number `i` of a run. -/
theorem allocate_sids_framer_get (K : x300_defs) (hw : 8 ≤ K.sid_framer_bits)
    (configs : List sid_config_t) (s : sid_state)
    (hc : ∀ c ∈ configs, c.is_uint8) (i : Nat) (hi : i < configs.length) :
    ((allocate_sids K s configs).1.map sid_framer)[i]? = some ((s._sid_framer + i) % 256) := by
  rw [allocate_sids_framers K hw configs s hc, List.getElem?_map,
    List.getElem?_range' _ _ hi]
  simp

/-- C1 as stated fails: in a run of 257 calls on a fresh session the first and
the last call return the same `localFramerID` 0, so the fields are neither
pairwise distinct nor strictly increasing. -/
theorem allocate_sid_framer_wraps :
    framers_of_257_calls[0]? = some 0 ∧ framers_of_257_calls[256]? = some 0 ∧
      ¬ List.Pairwise (fun a b => a ≠ b) framers_of_257_calls ∧
      ¬ List.Pairwise (fun a b => a < b) framers_of_257_calls := by
  have hc : ∀ c ∈ List.replicate 257 (⟨0, 0, 0, 0⟩ : sid_config_t), c.is_uint8 := by
    intro c hc
    rw [List.eq_of_mem_replicate hc]
    decide
  have hlen : (List.replicate 257 (⟨0, 0, 0, 0⟩ : sid_config_t)).length = 257 :=
    List.length_replicate _ _
  have h0 : framers_of_257_calls[0]? = some 0 :=
    allocate_sids_framer_get sample_defs (by decide) _ _ hc 0 (by rw [hlen]; norm_num)
  have h256 : framers_of_257_calls[256]? = some 0 :=
    allocate_sids_framer_get sample_defs (by decide) _ _ hc 256 (by rw [hlen]; norm_num)
  have hne : ¬ List.Pairwise (fun a b => a ≠ b) framers_of_257_calls := by
    intro hp
    rw [List.pairwise_iff_getElem] at hp
    obtain ⟨h0lt, e0⟩ := List.getElem?_eq_some_iff.mp h0
    obtain ⟨h256lt, e256⟩ := List.getElem?_eq_some_iff.mp h256
    exact hp 0 256 h0lt h256lt (by norm_num) (e0.trans e256.symm)
  exact ⟨h0, h256, hne, fun hp => hne (hp.imp (fun h => Nat.ne_of_lt h))⟩

/-- The fields of the Stream-ID returned by `allocate_sid`, for every
configuration (of 8-bit fields) and every counter value: bits 23..16 hold the
low 8 bits of the counter, bits 15..8 hold `config.router_addr_there` and bits
7..0 hold `(dst_prefix | (router_dst_there << 2)) mod 256`.  Bits 31..24 hold
`X300_DEVICE_HERE` when the counter is below 256. -/
theorem allocate_sid_fields (K : x300_defs) (s : sid_state) (config : sid_config_t)
    (hc : config.is_uint8) :
    sid_framer (allocate_sid K s config).1 = s._sid_framer % 256 ∧
      sid_addr_there (allocate_sid K s config).1 = config.router_addr_there ∧
      sid_selector (allocate_sid K s config).1 =
        (config.dst_prefix ||| (config.router_dst_there <<< 2)) % 256 ∧
      (K.X300_DEVICE_HERE < 256 → s._sid_framer < 256 →
        sid_here (allocate_sid K s config).1 = K.X300_DEVICE_HERE) := by
  refine ⟨sid_framer_sid_word K _ config hc.1, sid_addr_there_sid_word K _ config hc.1, ?_,
    fun hh hf => sid_here_sid_word K _ config hh hf hc.1⟩
  show sid_selector (sid_word K s._sid_framer config) = _
  rw [sid_selector_sid_word, sid_stream_eq_mod]

/-- The counter after a run of allocations: the number of calls is added, in
the unsigned type of the counter. -/
theorem allocate_sids_counter (K : x300_defs) :
    ∀ (configs : List sid_config_t) (s : sid_state),
      s._sid_framer < 2 ^ K.sid_framer_bits →
      (allocate_sids K s configs).2._sid_framer =
        (s._sid_framer + configs.length) % 2 ^ K.sid_framer_bits := by
  intro configs
  induction configs with
  | nil =>
    intro s h
    exact (Nat.mod_eq_of_lt h).symm
  | cons c rest ih =>
    intro s _
    have e2 : (allocate_sid K s c).2._sid_framer =
        (s._sid_framer + 1) % 2 ^ K.sid_framer_bits := rfl
    have hlt : (allocate_sid K s c).2._sid_framer < 2 ^ K.sid_framer_bits := by
      rw [e2]
      exact Nat.mod_lt _ (Nat.two_pow_pos _)
    show (allocate_sids K (allocate_sid K s c).2 rest).2._sid_framer = _
    rw [ih _ hlt, e2, List.length_cons, Nat.mod_add_mod]
    congr 1
    omega

/-- C2, at the failing input: after 256 calls on a fresh session the counter
is 256, and the next call, for the control stream of radio 0, returns the
Stream-ID `0x01000209`.  Bits 31..24 read 1, not `X300_DEVICE_HERE` (0 in the
sample values): the shift `_sid_framer << 16` is not masked and bit 8 of the
counter lands in bit 24.  The other three fields are as specified: bits 23..16
hold 0, the low 8 bits of the counter, bits 15..8 hold `router_addr_there` and
bits 7..0 hold `(dst_prefix | (router_dst_there << 2)) mod 256`. -/
theorem allocate_sid_fields_counter_256 :
    session_after_256_calls._sid_framer = 256 ∧
      (allocate_sid sample_defs session_after_256_calls ⟨2, 1, 2, 0⟩).1 = 0x01000209 ∧
      sid_here (allocate_sid sample_defs session_after_256_calls ⟨2, 1, 2, 0⟩).1 = 1 ∧
      sample_defs.X300_DEVICE_HERE = 0 ∧
      sid_framer (allocate_sid sample_defs session_after_256_calls ⟨2, 1, 2, 0⟩).1 = 256 % 256 ∧
      sid_addr_there (allocate_sid sample_defs session_after_256_calls ⟨2, 1, 2, 0⟩).1 = 2 ∧
      sid_selector (allocate_sid sample_defs session_after_256_calls ⟨2, 1, 2, 0⟩).1 =
        (1 ||| (2 <<< 2)) % 256 := by
  have hcount : session_after_256_calls._sid_framer = 256 := by
    have h := allocate_sids_counter sample_defs (List.replicate 256 ⟨2, 1, 2, 0⟩)
      (new_session "eth" zero_iface) (by decide)
    rw [List.length_replicate] at h
    exact h.trans (by decide)
  have hsid : (allocate_sid sample_defs session_after_256_calls ⟨2, 1, 2, 0⟩).1 =
      0x01000209 := by
    show sid_word sample_defs session_after_256_calls._sid_framer ⟨2, 1, 2, 0⟩ = _
    rw [hcount]
    decide
  rw [hsid]
  exact ⟨hcount, rfl, by decide, by decide, by decide, by decide, by decide⟩

/-- C3: each call of `allocate_sid` appends exactly three writes to the log of
the motherboard register interface, in this order: the crossbar local-address
register := `router_addr_there`, the CAM row `256 + streamSelector` :=
`router_dst_there`, the CAM row `X300_DEVICE_HERE` := `router_dst_here`; the
state it returns has the counter incremented by one (in the unsigned type of
the counter, so by exactly one below its largest value). -/
theorem allocate_sid_writes (K : x300_defs) (s : sid_state) (config : sid_config_t)
    (hc : config.is_uint8) :
    (allocate_sid K s config).2.zpu_ctrl.pokes = s.zpu_ctrl.pokes ++
        [(K.SR_ADDR K.SET0_BASE K.ZPU_SR_XB_LOCAL, config.router_addr_there),
         (K.SR_ADDR K.SETXB_BASE (256 + sid_selector (allocate_sid K s config).1),
            config.router_dst_there),
         (K.SR_ADDR K.SETXB_BASE K.X300_DEVICE_HERE, config.router_dst_here)] ∧
      (allocate_sid K s config).2._sid_framer =
        (s._sid_framer + 1) % 2 ^ K.sid_framer_bits ∧
      (s._sid_framer + 1 < 2 ^ K.sid_framer_bits →
        (allocate_sid K s config).2._sid_framer = s._sid_framer + 1) := by
  obtain ⟨h1, _, h3, h4⟩ := hc
  have e1 : u32 config.router_addr_there = config.router_addr_there :=
    Nat.mod_eq_of_lt (by omega)
  have e3 : u32 config.router_dst_there = config.router_dst_there :=
    Nat.mod_eq_of_lt (by omega)
  have e4 : u32 config.router_dst_here = config.router_dst_here :=
    Nat.mod_eq_of_lt (by omega)
  have es : sid_selector (allocate_sid K s config).1 = sid_stream config :=
    sid_selector_sid_word K _ config
  refine ⟨?_, rfl, fun h => Nat.mod_eq_of_lt h⟩
  rw [es]
  simp [allocate_sid, wb_iface.poke32, e1, e3, e4]

/-- Witness of `allocate_sid_writes`: one call on a fresh session. -/
theorem allocate_sid_writes_witness :
    (allocate_sid sample_defs (new_session "eth" ⟨fun _ => 0, []⟩) ⟨2, 1, 2, 0⟩).2.zpu_ctrl.pokes
        = (new_session "eth" ⟨fun _ => 0, []⟩).zpu_ctrl.pokes ++
        [(sample_defs.SR_ADDR sample_defs.SET0_BASE sample_defs.ZPU_SR_XB_LOCAL, 2),
         (sample_defs.SR_ADDR sample_defs.SETXB_BASE (256 + sid_selector
            (allocate_sid sample_defs (new_session "eth" ⟨fun _ => 0, []⟩) ⟨2, 1, 2, 0⟩).1), 2),
         (sample_defs.SR_ADDR sample_defs.SETXB_BASE sample_defs.X300_DEVICE_HERE, 0)] ∧
      (allocate_sid sample_defs (new_session "eth" ⟨fun _ => 0, []⟩) ⟨2, 1, 2, 0⟩).2._sid_framer
        = (0 + 1) % 2 ^ sample_defs.sid_framer_bits ∧
      (0 + 1 < 2 ^ sample_defs.sid_framer_bits →
        (allocate_sid sample_defs (new_session "eth" ⟨fun _ => 0, []⟩)
          ⟨2, 1, 2, 0⟩).2._sid_framer = 0 + 1) :=
  allocate_sid_writes sample_defs (new_session "eth" ⟨fun _ => 0, []⟩) ⟨2, 1, 2, 0⟩ (by decide)

/-! ## Claim logic -/

/-- C4: `is_claimed` returns false when the claim-status register reads 0;
otherwise it returns true exactly when the claim-owner register differs from
the caller's fingerprint; it leaves the register interface as it found it (no
write). -/
theorem is_claimed_spec (K : x300_defs) (process_hash : Nat) (iface : wb_iface)
    (hh : process_hash < 2 ^ 32) :
    (iface.peek32 (K.SR_ADDR K.X300_FW_SHMEM_BASE K.X300_FW_SHMEM_CLAIM_STATUS) = 0 →
        (is_claimed K process_hash iface).1 = false) ∧
      (iface.peek32 (K.SR_ADDR K.X300_FW_SHMEM_BASE K.X300_FW_SHMEM_CLAIM_STATUS) ≠ 0 →
        ((is_claimed K process_hash iface).1 = true ↔
          iface.peek32 (K.SR_ADDR K.X300_FW_SHMEM_BASE K.X300_FW_SHMEM_CLAIM_SRC)
            ≠ process_hash)) ∧
      (is_claimed K process_hash iface).2 = iface := by
  have e : u32 process_hash = process_hash := Nat.mod_eq_of_lt hh
  refine ⟨fun h => ?_, fun h => ?_, ?_⟩
  · simp [is_claimed, h]
  · simp [is_claimed, h, e]
  · unfold is_claimed
    split <;> rfl

/-- Witness of `is_claimed_spec`: a device claimed by `0xBEEF`, asked by
`0xCAFE`. -/
theorem is_claimed_spec_witness :
    (claimed_iface.peek32 (sample_defs.SR_ADDR sample_defs.X300_FW_SHMEM_BASE
          sample_defs.X300_FW_SHMEM_CLAIM_STATUS) = 0 →
        (is_claimed sample_defs 0xCAFE claimed_iface).1 = false) ∧
      (claimed_iface.peek32 (sample_defs.SR_ADDR sample_defs.X300_FW_SHMEM_BASE
          sample_defs.X300_FW_SHMEM_CLAIM_STATUS) ≠ 0 →
        ((is_claimed sample_defs 0xCAFE claimed_iface).1 = true ↔
          claimed_iface.peek32 (sample_defs.SR_ADDR sample_defs.X300_FW_SHMEM_BASE
            sample_defs.X300_FW_SHMEM_CLAIM_SRC) ≠ 0xCAFE)) ∧
      (is_claimed sample_defs 0xCAFE claimed_iface).2 = claimed_iface :=
  is_claimed_spec sample_defs 0xCAFE claimed_iface (by decide)

/-- C5: for two distinct 32-bit fingerprints `A` and `B`, after one pass of
`claimer_loop` run with `A` (whatever the time written), if the claim-status
register then reads non-zero, `is_claimed` asked with `B` returns true and
`is_claimed` asked with `A` returns false. -/
theorem claim_mutual_exclusion (K : x300_defs) (now A B : Nat) (iface : wb_iface)
    (hA : A < 2 ^ 32) (hB : B < 2 ^ 32) (hAB : A ≠ B)
    (hs : (claimer_loop K now A iface).peek32
      (K.SR_ADDR K.X300_FW_SHMEM_BASE K.X300_FW_SHMEM_CLAIM_STATUS) ≠ 0) :
    (is_claimed K B (claimer_loop K now A iface)).1 = true ∧
      (is_claimed K A (claimer_loop K now A iface)).1 = false := by
  have eA : u32 A = A := Nat.mod_eq_of_lt hA
  have eB : u32 B = B := Nat.mod_eq_of_lt hB
  have src : (claimer_loop K now A iface).peek32
      (K.SR_ADDR K.X300_FW_SHMEM_BASE K.X300_FW_SHMEM_CLAIM_SRC) = A := by
    simp [claimer_loop, wb_iface.peek32, wb_iface.poke32, eA]
  constructor
  · simp [is_claimed, hs, src, eB, hAB]
  · simp [is_claimed, hs, src, eA]

/-- Witness of `claim_mutual_exclusion`: fingerprints `0xCAFE` and `0xBEEF` on
a device whose claim-status register reads 1. -/
theorem claim_mutual_exclusion_witness :
    (is_claimed sample_defs 0xBEEF (claimer_loop sample_defs 1700000000 0xCAFE
        claimed_iface)).1 = true ∧
      (is_claimed sample_defs 0xCAFE (claimer_loop sample_defs 1700000000 0xCAFE
        claimed_iface)).1 = false :=
  claim_mutual_exclusion sample_defs 1700000000 0xCAFE 0xBEEF claimed_iface
    (by decide) (by decide) (by decide) (by decide)

/-! ## Discovery -/

theorem reply_valid_iff (request : x300_fw_comms_t) (r : enet_reply) :
    reply_valid request r = true ↔
      request.flags = r.reply.flags ∧ request.sequence = r.reply.sequence := by
  simp [reply_valid]

/-- The reply loop processes the replies up to the first one that fails the
echo check, and appends the records that pass the filter. -/
theorem x300_find_with_addr_loop_eq (K : x300_defs) (process_hash : Nat)
    (hint : device_addr_t) (request : x300_fw_comms_t) :
    ∀ (replies : List enet_reply) (addrs : List device_addr_t),
    x300_find_with_addr_loop K process_hash hint request replies addrs =
      addrs ++ ((((replies.takeWhile (reply_valid request)).filterMap
        (enet_candidate K process_hash)).filter
          (fun c => (enet_hint_filter hint c).1)).map
            (fun c => (enet_hint_filter hint c).2)) := by
  intro replies
  induction replies with
  | nil => intro addrs; simp [x300_find_with_addr_loop]
  | cons r rest ih =>
    intro addrs
    by_cases hv : reply_valid request r = true
    · obtain ⟨hf, hs⟩ := (reply_valid_iff request r).mp hv
      rw [List.takeWhile_cons_of_pos hv]
      cases hc : enet_candidate K process_hash r with
      | none =>
        rw [List.filterMap_cons_none hc]
        simp only [x300_find_with_addr_loop, hf, hs, ne_eq, not_true_eq_false, if_false, hc]
        exact ih addrs
      | some c =>
        rw [List.filterMap_cons_some hc]
        simp only [x300_find_with_addr_loop, hf, hs, ne_eq, not_true_eq_false, if_false, hc]
        cases hm : (enet_hint_filter hint c).1
        · simp only [Bool.false_eq_true, if_false]
          rw [ih addrs, List.filter_cons_of_neg (by simp [hm])]
        · simp only [if_true]
          rw [ih (addrs ++ [(enet_hint_filter hint c).2]),
            List.filter_cons_of_pos (by simp [hm])]
          simp
    · rw [List.takeWhile_cons_of_neg hv]
      have hv' : ¬ (request.flags = r.reply.flags ∧ request.sequence = r.reply.sequence) :=
        fun h => hv ((reply_valid_iff request r).mpr h)
      by_cases hf : request.flags = r.reply.flags
      · have hs : request.sequence ≠ r.reply.sequence := fun h => hv' ⟨hf, h⟩
        simp [x300_find_with_addr_loop, hf, hs]
      · simp [x300_find_with_addr_loop, hf]

/-- The loop of `x300_find_pcie` visits every enumerated device. -/
theorem x300_find_pcie_loop_eq (K : x300_defs) (process_hash : Nat)
    (registry : List (String × wb_iface)) (hint : device_addr_t) :
    ∀ (devs : List pcie_device) (addrs : List device_addr_t),
    x300_find_pcie_loop K process_hash registry hint devs addrs =
      addrs ++ (devs.filterMap (fun dev =>
        match pcie_candidate K process_hash registry hint dev with
        | none => none
        | some c =>
          if (pcie_hint_filter hint dev.resource_name.toUpper c).1 then
            some (pcie_hint_filter hint dev.resource_name.toUpper c).2
          else none)) := by
  intro devs
  induction devs with
  | nil => intro addrs; simp [x300_find_pcie_loop]
  | cons dev rest ih =>
    intro addrs
    cases hc : pcie_candidate K process_hash registry hint dev with
    | none =>
      rw [List.filterMap_cons_none (by simp [hc])]
      simp only [x300_find_pcie_loop, hc]
      exact ih addrs
    | some c =>
      cases hm : (pcie_hint_filter hint dev.resource_name.toUpper c).1
      · rw [List.filterMap_cons_none (by simp [hc, hm])]
        simp only [x300_find_pcie_loop, hc, hm, Bool.false_eq_true, if_false]
        exact ih addrs
      · rw [List.filterMap_cons_some (b := (pcie_hint_filter hint dev.resource_name.toUpper c).2)
          (by simp [hc, hm])]
        simp only [x300_find_pcie_loop, hc, hm, if_true]
        rw [ih]
        simp

theorem hint_clause_fst (hint : device_addr_t) (key : String) (c : device_addr_t) :
    (hint_clause hint key c).1 = (!hint.has_key key || hint.get key == c.get key) := by
  unfold hint_clause
  cases h : hint.has_key key
  · simp
  · simp [dict.index_fst]

theorem hint_clause_snd_get (hint : device_addr_t) (key : String) (c : device_addr_t)
    (k : String) : (hint_clause hint key c).2.get k = c.get k := by
  unfold hint_clause
  cases h : hint.has_key key
  · simp
  · simp [dict.index_snd_find]

/-- The filter of the source accepts a record exactly when the record matches
the hint in the sense of the specification. -/
theorem enet_hint_filter_fst (hint c : device_addr_t) :
    (enet_hint_filter hint c).1 = hint_matches hint c := by
  unfold enet_hint_filter hint_matches
  simp only [List.all_cons, List.all_nil, Bool.and_true]
  rw [← hint_clause_fst hint "name" c]
  cases h1 : (hint_clause hint "name" c).1
  · simp
  · rw [← hint_clause_snd_get hint "name" c "serial",
      ← hint_clause_fst hint "serial" (hint_clause hint "name" c).2]
    cases h2 : (hint_clause hint "serial" (hint_clause hint "name" c).2).1
    · simp
    · rw [← hint_clause_snd_get hint "name" c "product",
        ← hint_clause_snd_get hint "serial" (hint_clause hint "name" c).2 "product",
        ← hint_clause_fst hint "product"]
      simp

/-- Evaluating the filter leaves every field of the record as it was. -/
theorem enet_hint_filter_snd_get (hint c : device_addr_t) (k : String) :
    (enet_hint_filter hint c).2.get k = c.get k := by
  cases h1 : (hint_clause hint "name" c).1
  · simp [enet_hint_filter, h1, hint_clause_snd_get]
  · cases h2 : (hint_clause hint "serial" (hint_clause hint "name" c).2).1
    · simp [enet_hint_filter, h1, h2, hint_clause_snd_get]
    · simp [enet_hint_filter, h1, h2, hint_clause_snd_get]

theorem takeWhile_append_invalid {α : Type} (p : α → Bool) (r : α) (hr : p r = false)
    (post : List α) : ∀ pre : List α,
    (pre ++ r :: post).takeWhile p = pre.takeWhile p := by
  intro pre
  induction pre with
  | nil => simp [List.takeWhile_cons, hr]
  | cons x t ih =>
    cases hx : p x
    · simp [List.takeWhile_cons, hx]
    · simp [List.takeWhile_cons, hx, ih]

/-- C6, at the failing input: the destructor of a session with two
network-attached motherboards stops the refresh task of the first one and
writes 0 to its claim-time and claim-owner registers; `pop` then raises
because the registry holds no entry for a network address, the loop is left,
and the second motherboard keeps its refresh task and receives no write. -/
theorem dtor_skips_second_eth_mboard :
    (x300_impl_dtor sample_defs
        [eth_mboard "192.168.10.2", eth_mboard "192.168.10.3"] []).1.map
        (fun mb => (mb.addr, mb.claimer_task, mb.zpu_ctrl.pokes)) =
      [("192.168.10.2", false, [(0x6008, 0), (0x600c, 0)]),
       ("192.168.10.3", true, [])] := by
  decide

/-- C7: a reply whose sequence number or flags differ from the request's adds
no device to the result of `x300_find_with_addr`: the result is the one
obtained from the replies received before it, and it is empty when that reply
is the only one; nothing else in the reply matters. -/
theorem find_ignores_mismatched_reply (K : x300_defs) (process_hash rand : Nat)
    (hint : device_addr_t) (a : String) (pre post : List enet_reply) (r : enet_reply)
    (ha : hint.find "addr" = some a)
    (hr : r.reply.sequence ≠ (discovery_request K rand).sequence ∨
      r.reply.flags ≠ (discovery_request K rand).flags) :
    x300_find_with_addr K process_hash rand (pre ++ r :: post) hint =
        x300_find_with_addr K process_hash rand pre hint ∧
      x300_find_with_addr K process_hash rand [r] hint = some [] := by
  have hv : reply_valid (discovery_request K rand) r = false := by
    cases h : reply_valid (discovery_request K rand) r
    · rfl
    · obtain ⟨h1, h2⟩ := (reply_valid_iff _ r).mp h
      rcases hr with hr | hr
      · exact absurd h2.symm hr
      · exact absurd h1.symm hr
  constructor
  · simp only [x300_find_with_addr, ha, x300_find_with_addr_loop_eq,
      takeWhile_append_invalid _ r hv post pre]
  · simp [x300_find_with_addr, ha, x300_find_with_addr_loop_eq, List.takeWhile_cons, hv]

/-- Witness of `find_ignores_mismatched_reply`: a well-formed reply of an
unclaimed X310 that carries a stale sequence number, between two good
replies. -/
theorem find_ignores_mismatched_reply_witness :
    x300_find_with_addr sample_defs 0xCAFE 7
        ([good_reply "192.168.10.2" (x310_target "a" "F00D")] ++
          stale_reply "192.168.10.3" (x310_target "b" "F00E") ::
            [good_reply "192.168.10.4" (x310_target "c" "F00F")])
        ⟨[("addr", "192.168.10.255")]⟩ =
        x300_find_with_addr sample_defs 0xCAFE 7
          [good_reply "192.168.10.2" (x310_target "a" "F00D")]
          ⟨[("addr", "192.168.10.255")]⟩ ∧
      x300_find_with_addr sample_defs 0xCAFE 7
        [stale_reply "192.168.10.3" (x310_target "b" "F00E")]
        ⟨[("addr", "192.168.10.255")]⟩ = some [] :=
  find_ignores_mismatched_reply sample_defs 0xCAFE 7 ⟨[("addr", "192.168.10.255")]⟩
    "192.168.10.255" [good_reply "192.168.10.2" (x310_target "a" "F00D")]
    [good_reply "192.168.10.4" (x310_target "c" "F00F")]
    (stale_reply "192.168.10.3" (x310_target "b" "F00E")) (by decide) (by decide)

/-- C8, at the failing input: a stale reply followed by the reply of an
unclaimed X310.  The loop is left at the stale reply and the result is empty,
while the same replies without the stale one give the X310. -/
theorem find_stops_at_mismatched_reply :
    x300_find_with_addr sample_defs 0xCAFE 7
        [stale_reply "192.168.10.3" (x310_target "b" "F00E"),
          good_reply "192.168.10.2" (x310_target "a" "F00D")]
        ⟨[("addr", "192.168.10.255")]⟩ = some [] ∧
      x300_find_with_addr sample_defs 0xCAFE 7
        [good_reply "192.168.10.2" (x310_target "a" "F00D")]
        ⟨[("addr", "192.168.10.255")]⟩ =
        some [⟨[("type", "x300"), ("addr", "192.168.10.2"), ("fpga", "1G"), ("name", "a"),
          ("serial", "F00D"), ("product", "X310")]⟩] := by
  decide


theorem dict.has_key_set (d : dict) (k v k' : String) :
    (d.set k v).has_key k' = (k' == k || d.has_key k') := by
  rw [dict.has_key_eq_isSome, dict.find_set, dict.has_key_eq_isSome]
  by_cases h : k' = k
  · simp [h]
  · simp [h]

theorem pcie_identity_read_resource (K : x300_defs) (process_hash : Nat)
    (registry : List (String × wb_iface)) (hint : device_addr_t) (dev : pcie_device)
    (resource_d x : String) (new_addr : device_addr_t) (hx : new_addr.get "resource" = x) :
    (∀ c, pcie_identity_read K process_hash registry hint dev resource_d new_addr = .ok (some c) →
      c.get "resource" = x ∧ c.has_key "name" = true ∧ c.has_key "serial" = true) ∧
    (∀ e, pcie_identity_read K process_hash registry hint dev resource_d new_addr = .error e →
      e.get "resource" = x) := by
  constructor
  · intro c h
    unfold pcie_identity_read at h
    simp only at h
    repeat' split at h
    all_goals try simp only [Except.ok.injEq, Option.some.injEq, reduceCtorEq] at h
    all_goals subst h
    all_goals simp [dict.get_set, dict.has_key_set, hx]
  · intro c h
    unfold pcie_identity_read at h
    simp only at h
    repeat' split at h
    all_goals try simp only [Except.error.injEq, reduceCtorEq] at h
    all_goals subst h
    all_goals simp [dict.get_set, hx]

theorem enet_identity_read_inv (K : x300_defs) (process_hash : Nat) (target : enet_target)
    (x : String) (new_addr : device_addr_t) (hx : new_addr.get "addr" = x) :
    (∀ c, enet_identity_read K process_hash target new_addr = .ok (some c) →
      c.get "addr" = x ∧ c.has_key "name" = true ∧ c.has_key "serial" = true) ∧
    (∀ e, enet_identity_read K process_hash target new_addr = .error e →
      e.get "addr" = x) := by
  constructor
  · intro c h
    unfold enet_identity_read at h
    simp only at h
    repeat' split at h
    all_goals try simp only [Except.ok.injEq, Option.some.injEq, reduceCtorEq] at h
    all_goals subst h
    all_goals simp [dict.get_set, dict.has_key_set, hx]
  · intro c h
    unfold enet_identity_read at h
    simp only at h
    repeat' split at h
    all_goals try simp only [Except.error.injEq, reduceCtorEq] at h
    all_goals subst h
    all_goals simp [dict.get_set, hx]

/-- Every record the network path hands to the filter has its address and a
`name` and a `serial` entry. -/
theorem enet_candidate_inv (K : x300_defs) (process_hash : Nat) (r : enet_reply)
    (c : device_addr_t) (h : enet_candidate K process_hash r = some c) :
    c.get "addr" = r.recv_addr ∧ c.has_key "name" = true ∧ c.has_key "serial" = true := by
  have h0 : ((dict.empty.set "type" "x300").set "addr" r.recv_addr).get "addr" = r.recv_addr := by
    simp [dict.get_set]
  obtain ⟨hok, herr⟩ := enet_identity_read_inv K process_hash r.target r.recv_addr _ h0
  unfold enet_candidate at h
  simp only at h
  split at h
  · exact absurd h (by simp)
  · next a ha =>
    simp only [Option.some.injEq] at h
    subst h
    exact hok _ ha
  · next a ha =>
    simp only [Option.some.injEq] at h
    subst h
    have := herr _ ha
    simp [dict.get_set, dict.has_key_set, this]

/-- Every record the PCIe path hands to the filter has the resource name of
its device and a `name`, a `serial` and a `product` entry. -/
theorem pcie_candidate_inv (K : x300_defs) (process_hash : Nat)
    (registry : List (String × wb_iface)) (hint : device_addr_t) (dev : pcie_device)
    (c : device_addr_t) (h : pcie_candidate K process_hash registry hint dev = some c) :
    c.get "resource" = dev.resource_name ∧ c.has_key "name" = true ∧
      c.has_key "serial" = true := by
  unfold pcie_candidate at h
  simp only at h
  split at h
  · exact absurd h (by simp)
  · next typed new_addr hty =>
    have h0 : new_addr.get "resource" = dev.resource_name := by
      split at hty
      all_goals try simp only [Option.some.injEq, reduceCtorEq] at hty
      all_goals subst hty
      all_goals simp [dict.get_set]
    obtain ⟨hok, herr⟩ := pcie_identity_read_resource K process_hash registry hint dev
      dev.resource_name.toUpper dev.resource_name new_addr h0
    split at h
    · exact absurd h (by simp)
    · next a ha =>
      simp only [Option.some.injEq] at h
      subst h
      exact hok _ ha
    · next a ha =>
      simp only [Option.some.injEq] at h
      subst h
      have := herr _ ha
      split <;> simp [dict.get_set, dict.has_key_set, this]

/-- With a `name` and a `serial` entry in the record and no `product` key in
the hint, evaluating the filter leaves the record itself unchanged. -/
theorem enet_hint_filter_snd_eq (hint c : device_addr_t) (hn : c.has_key "name" = true)
    (hs : c.has_key "serial" = true)
    (hp : hint.has_key "product" = false ∨ c.has_key "product" = true) :
    (enet_hint_filter hint c).2 = c := by
  have e1 : (hint_clause hint "name" c).2 = c := by
    unfold hint_clause dict.index; cases hint.has_key "name" <;> simp [hn]
  have e2 : (hint_clause hint "serial" c).2 = c := by
    unfold hint_clause dict.index; cases hint.has_key "serial" <;> simp [hs]
  have e3 : (hint_clause hint "product" c).2 = c := by
    unfold hint_clause dict.index
    rcases hp with hp | hp
    · simp [hp]
    · cases hint.has_key "product" <;> simp [hp]
  unfold enet_hint_filter
  simp only [e1, e2]
  split
  · rfl
  · split
    · rfl
    · exact e3

theorem pcie_hint_filter_fst (hint c : device_addr_t) (resource_name : String)
    (hr : c.get "resource" = resource_name) :
    (pcie_hint_filter hint resource_name.toUpper c).1 = hint_matches_pcie hint c := by
  unfold pcie_hint_filter hint_matches_pcie
  rw [hr, ← enet_hint_filter_fst]
  cases hk : hint.has_key "resource"
  · simp
  · cases hm : ((hint.get "resource").toUpper == resource_name.toUpper) <;> simp [hm]

theorem pcie_hint_filter_snd (hint c : device_addr_t) (resource_d : String)
    (h : (pcie_hint_filter hint resource_d c).1 = true) :
    (pcie_hint_filter hint resource_d c).2 = (enet_hint_filter hint c).2 := by
  unfold pcie_hint_filter at h ⊢
  simp only at h ⊢
  generalize (!(!hint.has_key "resource" ||
    (if hint.has_key "resource" = true then hint.get "resource" else "").toUpper
      == resource_d)) = b at h ⊢
  cases b
  · rfl
  · exact absurd h (by simp)

/-- The result of the PCIe loop: the candidates that match the hint. -/
theorem pcie_filterMap_eq (K : x300_defs) (process_hash : Nat)
    (registry : List (String × wb_iface)) (hint : device_addr_t) :
    ∀ devs : List pcie_device,
    devs.filterMap (fun dev =>
        match pcie_candidate K process_hash registry hint dev with
        | none => none
        | some c =>
          if (pcie_hint_filter hint dev.resource_name.toUpper c).1 then
            some (pcie_hint_filter hint dev.resource_name.toUpper c).2
          else none) =
      ((devs.filterMap (pcie_candidate K process_hash registry hint)).filter
        (hint_matches_pcie hint)).map (fun c => (enet_hint_filter hint c).2) := by
  intro devs
  induction devs with
  | nil => rfl
  | cons dev rest ih =>
    cases hc : pcie_candidate K process_hash registry hint dev with
    | none =>
      rw [List.filterMap_cons_none (by simp [hc]), List.filterMap_cons_none hc]
      exact ih
    | some c =>
      have hr := (pcie_candidate_inv K process_hash registry hint dev c hc).1
      have e1 := pcie_hint_filter_fst hint c dev.resource_name hr
      rw [List.filterMap_cons_some hc]
      cases hm : hint_matches_pcie hint c
      · rw [List.filterMap_cons_none (by simp [hc, e1, hm]),
          List.filter_cons_of_neg (by simp [hm])]
        exact ih
      · have e2 := pcie_hint_filter_snd hint c dev.resource_name.toUpper (e1.trans hm)
        rw [List.filterMap_cons_some (b := (enet_hint_filter hint c).2)
            (by simp [hc, e1, hm, e2]),
          List.filter_cons_of_pos (by simp [hm]), List.map_cons, ih]

theorem filter_serial_unique (X : String) (c1 c2 c3 c : device_addr_t)
    (h12 : c1.get "serial" ≠ c2.get "serial") (h13 : c1.get "serial" ≠ c3.get "serial")
    (h23 : c2.get "serial" ≠ c3.get "serial") (hc : c ∈ [c1, c2, c3])
    (hX : c.get "serial" = X) :
    [c1, c2, c3].filter (fun d => X == d.get "serial") = [c] := by
  subst hX
  simp only [List.mem_cons, List.mem_singleton, List.not_mem_nil, or_false] at hc
  rcases hc with rfl | rfl | rfl
  · simp [List.filter_cons, h12, h13]
  · simp [List.filter_cons, Ne.symm h12, h23]
  · simp [List.filter_cons, Ne.symm h13, Ne.symm h23]

theorem hint_matches_serial_only (b X : String) :
    hint_matches ⟨[("addr", b), ("serial", X)]⟩ = fun d => X == d.get "serial" := by
  funext d
  simp [hint_matches, dict.has_key, dict.get, dict.find]

theorem hint_matches_pcie_serial_only (X : String) :
    hint_matches_pcie ⟨[("serial", X)]⟩ = fun d => X == d.get "serial" := by
  funext d
  simp [hint_matches_pcie, hint_matches, dict.has_key, dict.get, dict.find]

/-- The network path in closed form: the candidates among the replies that
precede the first failed echo check, filtered by `hint_matches`. -/
theorem x300_find_with_addr_eq (K : x300_defs) (process_hash rand : Nat)
    (replies : List enet_reply) (hint : device_addr_t) (a : String)
    (ha : hint.find "addr" = some a) :
    x300_find_with_addr K process_hash rand replies hint =
      some (((enet_candidates K process_hash rand replies).filter (hint_matches hint)).map
        (returned_record hint)) := by
  unfold enet_candidates
  have e : (fun c => (enet_hint_filter hint c).1) = hint_matches hint :=
    funext (enet_hint_filter_fst hint)
  simp only [x300_find_with_addr, ha, x300_find_with_addr_loop_eq, List.nil_append, e]
  rfl

/-- The PCIe path in closed form: the candidates among the enumerated
devices, filtered by `hint_matches_pcie`. -/
theorem x300_find_pcie_eq (K : x300_defs) (process_hash : Nat) (status_fatal : Bool)
    (devs : List pcie_device) (registry : List (String × wb_iface)) (hint : device_addr_t)
    (explicit_query : Bool) (hq : (explicit_query && status_fatal) = false) :
    x300_find_pcie K process_hash status_fatal devs registry hint explicit_query =
      some (((pcie_candidates K process_hash registry hint devs).filter
        (hint_matches_pcie hint)).map (returned_record hint)) := by
  unfold pcie_candidates
  simp only [x300_find_pcie, hq, Bool.false_eq_true, if_false, x300_find_pcie_loop_eq,
    List.nil_append, pcie_filterMap_eq]
  rfl

theorem hint_matches_congr (hint c c' : device_addr_t) (h : ∀ k, c.get k = c'.get k) :
    hint_matches hint c = hint_matches hint c' := by
  simp [hint_matches, h]

theorem hint_matches_pcie_congr (hint c c' : device_addr_t) (h : ∀ k, c.get k = c'.get k) :
    hint_matches_pcie hint c = hint_matches_pcie hint c' := by
  simp [hint_matches_pcie, hint_matches, h]

theorem returned_record_get (hint c : device_addr_t) (k : String) :
    (returned_record hint c).get k = c.get k :=
  enet_hint_filter_snd_get hint c k

/-- A candidate is returned exactly when it passes the filter. -/
theorem mem_filter_map_returned (hint : device_addr_t) (m : device_addr_t → Bool)
    (hm : ∀ c c', (∀ k, c.get k = c'.get k) → m c = m c')
    (cands : List device_addr_t) (c : device_addr_t) (hc : c ∈ cands) :
    returned_record hint c ∈ (cands.filter m).map (returned_record hint) ↔ m c = true := by
  constructor
  · intro h
    obtain ⟨c', hc', e⟩ := List.mem_map.mp h
    have h1 : m c' = true := (List.mem_filter.mp hc').2
    have h2 : m c = m c' := hm c c' (fun k => by
      rw [← returned_record_get hint c k, ← returned_record_get hint c' k, e])
    rw [h2]; exact h1
  · intro h
    exact List.mem_map.mpr ⟨c, List.mem_filter.mpr ⟨hc, h⟩, rfl⟩

/-- C9: on both discovery paths the result consists of exactly those
candidates (records that reached the filter, among them every device whose
identity was read successfully) that match the hint as the specification
words it: for each of the keys `name`, `serial`, `product` present in the
hint the values are equal, and on the PCIe path the `resource` values are
equal after upper-casing both; a candidate is in the result if and only if it
matches, and it is returned with its fields as read.  In particular, for three
candidates with pairwise distinct serials and a hint that constrains only
`serial = X`, the result is the one candidate whose serial is `X`. -/
theorem hint_filtering (K : x300_defs) (process_hash rand : Nat)
    (hint pcie_hint : device_addr_t) (a b X : String)
    (replies : List enet_reply) (devs : List pcie_device)
    (registry : List (String × wb_iface)) (status_fatal explicit_query : Bool)
    (r1 r2 r3 : enet_reply) (c1 c2 c3 c : device_addr_t)
    (d1 d2 d3 : pcie_device) (p1 p2 p3 p : device_addr_t)
    (ha : hint.find "addr" = some a)
    (hq : (explicit_query && status_fatal) = false)
    (hv1 : reply_valid (discovery_request K rand) r1 = true)
    (hv2 : reply_valid (discovery_request K rand) r2 = true)
    (hv3 : reply_valid (discovery_request K rand) r3 = true)
    (h1 : enet_candidate K process_hash r1 = some c1)
    (h2 : enet_candidate K process_hash r2 = some c2)
    (h3 : enet_candidate K process_hash r3 = some c3)
    (h12 : c1.get "serial" ≠ c2.get "serial") (h13 : c1.get "serial" ≠ c3.get "serial")
    (h23 : c2.get "serial" ≠ c3.get "serial")
    (hc : c ∈ [c1, c2, c3]) (hX : c.get "serial" = X)
    (g1 : pcie_candidate K process_hash registry ⟨[("serial", X)]⟩ d1 = some p1)
    (g2 : pcie_candidate K process_hash registry ⟨[("serial", X)]⟩ d2 = some p2)
    (g3 : pcie_candidate K process_hash registry ⟨[("serial", X)]⟩ d3 = some p3)
    (g12 : p1.get "serial" ≠ p2.get "serial") (g13 : p1.get "serial" ≠ p3.get "serial")
    (g23 : p2.get "serial" ≠ p3.get "serial")
    (hp : p ∈ [p1, p2, p3]) (hpX : p.get "serial" = X) :
    x300_find_with_addr K process_hash rand replies hint =
        some (((enet_candidates K process_hash rand replies).filter (hint_matches hint)).map
          (returned_record hint)) ∧
      (∀ x ∈ enet_candidates K process_hash rand replies,
        (returned_record hint x ∈
          ((enet_candidates K process_hash rand replies).filter (hint_matches hint)).map
            (returned_record hint) ↔ hint_matches hint x = true)) ∧
      x300_find_pcie K process_hash status_fatal devs registry pcie_hint explicit_query =
        some (((pcie_candidates K process_hash registry pcie_hint devs).filter
          (hint_matches_pcie pcie_hint)).map (returned_record pcie_hint)) ∧
      (∀ x ∈ pcie_candidates K process_hash registry pcie_hint devs,
        (returned_record pcie_hint x ∈
          ((pcie_candidates K process_hash registry pcie_hint devs).filter
            (hint_matches_pcie pcie_hint)).map (returned_record pcie_hint) ↔
          hint_matches_pcie pcie_hint x = true)) ∧
      (∀ (h x : device_addr_t) (k : String), (returned_record h x).get k = x.get k) ∧
      x300_find_with_addr K process_hash rand [r1, r2, r3] ⟨[("addr", b), ("serial", X)]⟩ =
        some [c] ∧
      x300_find_pcie K process_hash status_fatal [d1, d2, d3] registry ⟨[("serial", X)]⟩
        explicit_query = some [p] := by
  refine ⟨x300_find_with_addr_eq K process_hash rand replies hint a ha,
    fun x hx => mem_filter_map_returned hint _ (hint_matches_congr hint) _ x hx,
    x300_find_pcie_eq K process_hash status_fatal devs registry pcie_hint explicit_query hq,
    fun x hx => mem_filter_map_returned pcie_hint _ (hint_matches_pcie_congr pcie_hint) _ x hx,
    returned_record_get, ?_, ?_⟩
  · rw [x300_find_with_addr_eq K process_hash rand _ _ b (by simp [dict.find])]
    have hc' : c.has_key "name" = true ∧ c.has_key "serial" = true := by
      simp only [List.mem_cons, List.mem_singleton, List.not_mem_nil, or_false] at hc
      rcases hc with rfl | rfl | rfl
      · exact (enet_candidate_inv K process_hash r1 _ h1).2
      · exact (enet_candidate_inv K process_hash r2 _ h2).2
      · exact (enet_candidate_inv K process_hash r3 _ h3).2
    simp only [enet_candidates, List.takeWhile_cons, hv1, hv2, hv3, if_true,
      List.takeWhile_nil, List.filterMap_cons, h1, h2, h3, List.filterMap_nil,
      hint_matches_serial_only]
    rw [filter_serial_unique X c1 c2 c3 c h12 h13 h23 hc hX]
    simp only [List.map_cons, List.map_nil, returned_record]
    rw [enet_hint_filter_snd_eq _ c hc'.1 hc'.2 (Or.inl (by simp [dict.has_key]))]
  · rw [x300_find_pcie_eq K process_hash status_fatal _ registry _ explicit_query hq]
    have hp' : p.has_key "name" = true ∧ p.has_key "serial" = true := by
      simp only [List.mem_cons, List.mem_singleton, List.not_mem_nil, or_false] at hp
      rcases hp with rfl | rfl | rfl
      · exact (pcie_candidate_inv K process_hash registry _ d1 _ g1).2
      · exact (pcie_candidate_inv K process_hash registry _ d2 _ g2).2
      · exact (pcie_candidate_inv K process_hash registry _ d3 _ g3).2
    simp only [pcie_candidates, List.filterMap_cons, g1, g2, g3, List.filterMap_nil,
      hint_matches_pcie_serial_only]
    rw [filter_serial_unique X p1 p2 p3 p g12 g13 g23 hp hpX]
    simp only [List.map_cons, List.map_nil, returned_record]
    rw [enet_hint_filter_snd_eq _ p hp'.1 hp'.2 (Or.inl (by simp [dict.has_key]))]

/-- Witness of `hint_filtering`: three X310 with serials `F00D`, `F00E`,
`F00F` on each path and the hint `serial=F00E`. -/
theorem hint_filtering_witness :
    x300_find_with_addr sample_defs 0xCAFE 7
        [good_reply "192.168.10.2" (x310_target "a" "F00D"),
          good_reply "192.168.10.3" (x310_target "b" "F00E"),
          good_reply "192.168.10.4" (x310_target "c" "F00F")]
        ⟨[("addr", "192.168.10.255"), ("serial", "F00E")]⟩ =
        some [x310_addr "192.168.10.3" "b" "F00E"] ∧
      x300_find_pcie sample_defs 0xCAFE false
        [x310_pcie "RIO0" "a" "F00D", x310_pcie "RIO1" "b" "F00E", x310_pcie "RIO2" "c" "F00F"]
        [] ⟨[("serial", "F00E")]⟩ false = some [x310_pcie_addr "RIO1" "b" "F00E"] :=
  (hint_filtering sample_defs 0xCAFE 7
    ⟨[("addr", "192.168.10.255"), ("product", "X310")]⟩ ⟨[("resource", "rio1")]⟩
    "192.168.10.255" "192.168.10.255" "F00E"
    [good_reply "192.168.10.2" (x310_target "a" "F00D")]
    [x310_pcie "RIO0" "a" "F00D", x310_pcie "RIO1" "b" "F00E"] [] false false
    (good_reply "192.168.10.2" (x310_target "a" "F00D"))
    (good_reply "192.168.10.3" (x310_target "b" "F00E"))
    (good_reply "192.168.10.4" (x310_target "c" "F00F"))
    (x310_addr "192.168.10.2" "a" "F00D") (x310_addr "192.168.10.3" "b" "F00E")
    (x310_addr "192.168.10.4" "c" "F00F") (x310_addr "192.168.10.3" "b" "F00E")
    (x310_pcie "RIO0" "a" "F00D") (x310_pcie "RIO1" "b" "F00E") (x310_pcie "RIO2" "c" "F00F")
    (x310_pcie_addr "RIO0" "a" "F00D") (x310_pcie_addr "RIO1" "b" "F00E")
    (x310_pcie_addr "RIO2" "c" "F00F") (x310_pcie_addr "RIO1" "b" "F00E")
    (by decide) (by decide) (by decide) (by decide) (by decide) (by decide) (by decide)
    (by decide) (by decide) (by decide) (by decide) (by decide) (by decide) (by decide)
    (by decide) (by decide) (by decide) (by decide) (by decide) (by decide)
    (by decide)).2.2.2.2.2

/-- C10, amended: a reply that passes the echo check, that is preceded only
by replies that pass it (a reply that fails the check ends the collection of
replies), and whose identity read raises, at whatever point, is still
returned, with `name = ""` and `serial = ""` and the address it came from,
for every hint that contains neither a `name`, a `serial` nor a `product`
constraint. -/
theorem find_keeps_unreadable_device (K : x300_defs) (process_hash rand : Nat)
    (hint : device_addr_t) (a : String) (pre post : List enet_reply) (r : enet_reply)
    (e : device_addr_t)
    (ha : hint.find "addr" = some a)
    (hn : hint.has_key "name" = false) (hs : hint.has_key "serial" = false)
    (hp : hint.has_key "product" = false)
    (hpre : ∀ x ∈ pre, reply_valid (discovery_request K rand) x = true)
    (hr : reply_valid (discovery_request K rand) r = true)
    (he : enet_identity_read K process_hash r.target
      ((dict.empty.set "type" "x300").set "addr" r.recv_addr) = .error e) :
    ∃ l, x300_find_with_addr K process_hash rand (pre ++ r :: post) hint = some l ∧
      (e.set "name" "").set "serial" "" ∈ l ∧
      ((e.set "name" "").set "serial" "").get "name" = "" ∧
      ((e.set "name" "").set "serial" "").get "serial" = "" ∧
      ((e.set "name" "").set "serial" "").get "addr" = r.recv_addr := by
  have hcand : enet_candidate K process_hash r = some ((e.set "name" "").set "serial" "") := by
    simp [enet_candidate, he]
  obtain ⟨haddr, hkn, hks⟩ := enet_candidate_inv K process_hash r _ hcand
  have hm : hint_matches hint ((e.set "name" "").set "serial" "") = true := by
    simp [hint_matches, hn, hs, hp]
  have hpost : returned_record hint ((e.set "name" "").set "serial" "") =
      (e.set "name" "").set "serial" "" :=
    enet_hint_filter_snd_eq hint _ hkn hks (Or.inl hp)
  refine ⟨_, x300_find_with_addr_eq K process_hash rand _ hint a ha, ?_, ?_, ?_, haddr⟩
  · refine List.mem_map.mpr ⟨_, List.mem_filter.mpr ⟨?_, hm⟩, hpost⟩
    unfold enet_candidates
    rw [List.takeWhile_append_of_pos hpre, List.takeWhile_cons_of_pos hr]
    exact List.mem_filterMap.mpr ⟨r, by simp, hcand⟩
  · simp [dict.get_set]
  · simp [dict.get_set]

/-- Witness of `find_keeps_unreadable_device`: a device whose control
interface cannot be opened, found with a hint that holds only the address. -/
theorem find_keeps_unreadable_device_witness :
    ∃ l, x300_find_with_addr sample_defs 0xCAFE 7
        ([good_reply "192.168.10.2" (x310_target "a" "F00D")] ++
          good_reply "192.168.10.3" broken_target :: [])
        ⟨[("addr", "192.168.10.255")]⟩ = some l ∧
      ((⟨[("type", "x300"), ("addr", "192.168.10.3")]⟩ : device_addr_t).set "name" "").set
        "serial" "" ∈ l ∧
      (((⟨[("type", "x300"), ("addr", "192.168.10.3")]⟩ : device_addr_t).set "name" "").set
        "serial" "").get "name" = "" ∧
      (((⟨[("type", "x300"), ("addr", "192.168.10.3")]⟩ : device_addr_t).set "name" "").set
        "serial" "").get "serial" = "" ∧
      (((⟨[("type", "x300"), ("addr", "192.168.10.3")]⟩ : device_addr_t).set "name" "").set
        "serial" "").get "addr" = (good_reply "192.168.10.3" broken_target).recv_addr :=
  find_keeps_unreadable_device sample_defs 0xCAFE 7 ⟨[("addr", "192.168.10.255")]⟩
    "192.168.10.255" [good_reply "192.168.10.2" (x310_target "a" "F00D")] []
    (good_reply "192.168.10.3" broken_target) ⟨[("type", "x300"), ("addr", "192.168.10.3")]⟩
    (by decide) (by decide) (by decide) (by decide) (by decide) (by decide) rfl

/-- C10 as stated fails, in two ways.  The only reply passes the echo check
and its identity read raises; the hint holds no `name` and no `serial` but
`product=X300`, and the device is not returned.  With the hint reduced to the
address the device is returned with empty `name` and `serial`; but when a
reply with a stale sequence number arrives before it, the device is not
returned either, whatever the hint. -/
theorem find_drops_unreadable_device :
    x300_find_with_addr sample_defs 0xCAFE 7 [good_reply "192.168.10.3" broken_target]
        ⟨[("addr", "192.168.10.255"), ("product", "X300")]⟩ = some [] ∧
      x300_find_with_addr sample_defs 0xCAFE 7 [good_reply "192.168.10.3" broken_target]
        ⟨[("addr", "192.168.10.255")]⟩ =
        some [⟨[("type", "x300"), ("addr", "192.168.10.3"), ("name", ""), ("serial", "")]⟩] ∧
      reply_valid (discovery_request sample_defs 7)
        (good_reply "192.168.10.3" broken_target) = true ∧
      x300_find_with_addr sample_defs 0xCAFE 7
        [stale_reply "192.168.10.2" (x310_target "a" "F00D"),
          good_reply "192.168.10.3" broken_target]
        ⟨[("addr", "192.168.10.255")]⟩ = some [] := by
  decide

/-! ## Multi-device discovery -/

theorem unresolved_text_length_pos (L : device_addr_lib) (h : device_addr_t) :
    0 < (unresolved_text L h).length := by
  unfold unresolved_text
  rw [String.length_append, String.length_append]
  have : 0 < ("Could not resolve device hint \"").length := by decide
  omega

theorem foldl_unresolved_length (L : device_addr_lib) :
    ∀ (hs : List device_addr_t) (msg : String),
      msg.length ≤ (hs.foldl (fun m h => m ++ unresolved_text L h) msg).length ∧
      (hs ≠ [] → 0 < (hs.foldl (fun m h => m ++ unresolved_text L h) msg).length) := by
  intro hs
  induction hs with
  | nil => intro msg; exact ⟨Nat.le_refl _, fun h => absurd rfl h⟩
  | cons h t ih =>
    intro msg
    have h1 := (ih (msg ++ unresolved_text L h)).1
    have h2 := unresolved_text_length_pos L h
    rw [String.length_append] at h1
    simp only [List.foldl_cons]
    exact ⟨by omega, fun _ => by omega⟩

theorem foldl_unresolved_append (L : device_addr_lib) :
    ∀ (hs : List device_addr_t) (msg : String),
      hs.foldl (fun m h => m ++ unresolved_text L h) msg =
        msg ++ hs.foldl (fun m h => m ++ unresolved_text L h) "" := by
  intro hs
  induction hs with
  | nil => intro msg; simp
  | cons h t ih =>
    intro msg
    simp only [List.foldl_cons]
    rw [ih (msg ++ unresolved_text L h), ih ("" ++ unresolved_text L h)]
    simp [String.append_assoc]

/-- The aggregated error text is empty exactly when every sub-hint resolves
to one device. -/
theorem unresolved_message_eq_empty (L : device_addr_lib)
    (sub : device_addr_t → List device_addr_t) (hints : List device_addr_t) :
    unresolved_message L sub hints = "" ↔ unresolved_hints sub hints = [] := by
  unfold unresolved_message
  constructor
  · intro h
    by_contra hne
    have := (foldl_unresolved_length L (unresolved_hints sub hints) "").2 hne
    rw [h] at this
    exact absurd this (by decide)
  · intro h
    rw [h]
    rfl

/-- The loop over the sub-hints, when every recursive call returns. -/
theorem find_multi_loop_eq (L : device_addr_lib)
    (find : device_addr_t → outcome (List device_addr_t))
    (sub : device_addr_t → List device_addr_t) :
    ∀ (hints found : List device_addr_t) (msg : String),
      (∀ h ∈ hints, find h = .returned (sub h)) →
      find_multi_loop L find hints found msg =
        .returned (found ++ resolved_devices sub hints,
          msg ++ unresolved_message L sub hints) := by
  intro hints
  induction hints with
  | nil =>
    intro found msg _
    simp [find_multi_loop, resolved_devices, unresolved_message, unresolved_hints]
  | cons h t ih =>
    intro found msg hall
    have hh : find h = .returned (sub h) := hall h (List.mem_cons_self _ _)
    have ht : ∀ x ∈ t, find x = .returned (sub x) :=
      fun x hx => hall x (List.mem_cons_of_mem _ hx)
    unfold find_multi_loop
    rw [hh]
    simp only
    split
    · next d hd =>
      rw [ih _ _ ht]
      have e1 : resolved_devices sub (h :: t) = d :: resolved_devices sub t := by
        simp [resolved_devices, hd]
      have e2 : unresolved_message L sub (h :: t) = unresolved_message L sub t := by
        simp [unresolved_message, unresolved_hints, hd]
      rw [e1, e2]
      simp
    · next hd =>
      rw [ih _ _ ht]
      have hlen : (sub h).length ≠ 1 := by
        intro hl
        obtain ⟨d, hd'⟩ := List.length_eq_one.mp hl
        exact hd d hd'
      have e1 : resolved_devices sub (h :: t) = resolved_devices sub t := by
        unfold resolved_devices
        rw [List.filterMap_cons_none]
        split
        · next d hd' => exact absurd hd' (hd d)
        · rfl
      have e2 : unresolved_message L sub (h :: t) =
          unresolved_text L h ++ unresolved_message L sub t := by
        unfold unresolved_message unresolved_hints
        rw [List.filter_cons_of_pos (by simpa using hlen), List.foldl_cons,
          foldl_unresolved_append]
        simp
      rw [e1, e2]
      simp [String.append_assoc]

/-- C11, amended: for a hint that separates into two or more sub-hints, each
of which `x300_find` resolves to a list of devices: when no sub-hint resolves
to exactly one device the result is the empty list, without an error; when
some sub-hint resolves to exactly one device and some other does not, the call
raises a value error whose text has one sentence for each unresolved sub-hint;
when every sub-hint resolves to exactly one device, the result is exactly one
address, the combination of these devices. -/
theorem x300_find_multi (K : x300_defs) (L : device_addr_lib) (env : find_env) (depth : Nat)
    (hint_ : device_addr_t) (sub : device_addr_t → List device_addr_t)
    (h2 : 1 < (L.separate_device_addr hint_).length)
    (hsub : ∀ h ∈ L.separate_device_addr hint_,
      x300_find K L env depth h = .returned (sub h)) :
    x300_find K L env (depth + 1) hint_ =
      if resolved_devices sub (L.separate_device_addr hint_) = [] then .returned []
      else if unresolved_hints sub (L.separate_device_addr hint_) = [] then
        .returned [L.combine_device_addrs
          (resolved_devices sub (L.separate_device_addr hint_))]
      else .raised (.value_error
        (unresolved_message L sub (L.separate_device_addr hint_))) := by
  have hloop := find_multi_loop_eq L (fun h => x300_find K L env depth h) sub
    (L.separate_device_addr hint_) [] "" hsub
  have hmsg := unresolved_message_eq_empty L sub (L.separate_device_addr hint_)
  simp only [x300_find, h2, if_true, hloop, List.nil_append, String.empty_append,
    List.isEmpty_iff]
  by_cases hr : resolved_devices sub (L.separate_device_addr hint_) = []
  · simp [hr]
  · by_cases hu : unresolved_hints sub (L.separate_device_addr hint_) = []
    · have := hmsg.mpr hu
      simp [hr, hu, this]
    · have : unresolved_message L sub (L.separate_device_addr hint_) ≠ "" :=
        fun h => hu (hmsg.mp h)
      simp [hr, hu, this]

/-- Witness of `x300_find_multi`: the hint `addr0=192.168.10.2,addr1=192.168.10.3`
on the network of `two_x310_env`; both sub-hints resolve to one X310. -/
theorem x300_find_multi_witness :
    x300_find sample_defs sample_lib two_x310_env (1 + 1)
        ⟨[("addr0", "192.168.10.2"), ("addr1", "192.168.10.3")]⟩ =
      if resolved_devices two_x310_sub (sample_lib.separate_device_addr
          ⟨[("addr0", "192.168.10.2"), ("addr1", "192.168.10.3")]⟩) = [] then .returned []
      else if unresolved_hints two_x310_sub (sample_lib.separate_device_addr
          ⟨[("addr0", "192.168.10.2"), ("addr1", "192.168.10.3")]⟩) = [] then
        .returned [sample_lib.combine_device_addrs
          (resolved_devices two_x310_sub (sample_lib.separate_device_addr
            ⟨[("addr0", "192.168.10.2"), ("addr1", "192.168.10.3")]⟩))]
      else .raised (.value_error
        (unresolved_message sample_lib two_x310_sub (sample_lib.separate_device_addr
          ⟨[("addr0", "192.168.10.2"), ("addr1", "192.168.10.3")]⟩))) :=
  x300_find_multi sample_defs sample_lib two_x310_env 1
    ⟨[("addr0", "192.168.10.2"), ("addr1", "192.168.10.3")]⟩ two_x310_sub
    (by decide) (by decide)

/-- C11 as stated fails: the hint `addr0=192.168.10.2,addr1=192.168.10.3`
separates into two sub-hints; on a network where no probe is answered each
of them resolves to zero devices, and `x300_find` returns the empty list
instead of raising a value error. -/
theorem x300_find_multi_none_resolves :
    sample_lib.separate_device_addr ⟨[("addr0", "192.168.10.2"), ("addr1", "192.168.10.3")]⟩ =
        [⟨[("addr", "192.168.10.2")]⟩, ⟨[("addr", "192.168.10.3")]⟩] ∧
      x300_find sample_defs sample_lib silent_env 2 ⟨[("addr", "192.168.10.2")]⟩ =
        .returned [] ∧
      x300_find sample_defs sample_lib silent_env 2 ⟨[("addr", "192.168.10.3")]⟩ =
        .returned [] ∧
      x300_find sample_defs sample_lib silent_env 3
        ⟨[("addr0", "192.168.10.2"), ("addr1", "192.168.10.3")]⟩ = .returned [] := by
  decide

/-- The multi-device branch on the network of `two_x310_env`: two devices
combined into one address, and a value error when a third sub-hint is not
answered. -/
theorem x300_find_multi_examples :
    x300_find sample_defs sample_lib two_x310_env 2
        ⟨[("addr0", "192.168.10.2"), ("addr1", "192.168.10.3")]⟩ =
        .returned [⟨[("type0", "x300"), ("addr0", "192.168.10.2"), ("fpga0", "1G"),
          ("name0", "a"), ("serial0", "F00D"), ("product0", "X310"),
          ("type1", "x300"), ("addr1", "192.168.10.3"), ("fpga1", "1G"),
          ("name1", "b"), ("serial1", "F00E"), ("product1", "X310")]⟩] ∧
      x300_find sample_defs sample_lib two_x310_env 2
        ⟨[("addr0", "192.168.10.2"), ("addr1", "192.168.10.9")]⟩ =
        .raised (.value_error
          "Could not resolve device hint \"addr=192.168.10.9\" to a single device.") := by
  decide

/-! ## Frame size detection -/

/-- A state of the receive loop in which the tested size is the floor itself
and is echoed: the loop keeps this state for ever. -/
theorem recv_frame_search_stuck (link : mtu_link) (lo hi : Nat) (hlt : lo < hi)
    (ht : test_frame_size lo hi = lo) (he : link.recv_echo (u32 lo) ≥ lo) :
    ∀ (n : Nat) (probes : List Nat), recv_frame_search link n lo hi probes = .unfinished := by
  intro n
  induction n with
  | zero => intro probes; simp [recv_frame_search, hlt]
  | succ n ih =>
    intro probes
    unfold recv_frame_search
    simp only [hlt, if_true, ht, he]
    exact ih _

/-- The same for the send loop. -/
theorem send_frame_search_stuck (K : x300_defs) (link : mtu_link) (buffer_size lo hi : Nat)
    (hlt : lo < hi) (ht : test_frame_size lo hi = lo)
    (he : (if (link.send_echo (min lo buffer_size)).1 ≥ K.sizeof_x300_mtu_t then
        u32 (link.send_echo (min lo buffer_size)).2
      else (link.send_echo (min lo buffer_size)).1) ≥ lo) :
    ∀ (n : Nat) (probes : List Nat),
      send_frame_search K link buffer_size n lo hi probes = .unfinished := by
  intro n
  induction n with
  | zero => intro probes; simp [send_frame_search, hlt]
  | succ n ih =>
    intro probes
    unfold send_frame_search
    simp only [hlt, if_true, ht, he]
    exact ih _

/-- C13, at the failing input: with the requested ceiling 9 and a link that
carries frames of up to 8 bytes, the first tested size is
`(9/2 + 8/2 + 3) & ~3 = 8`, the floor itself; it is echoed, floor and ceiling
stay 8 and 9, the gap does not shrink, and neither loop ends, whatever number
of iterations is allowed. -/
theorem frame_search_does_not_terminate :
    test_frame_size 8 9 = 8 ∧
      (∀ n, recv_frame_search (limited_link sample_defs 8) n 8 9 [] = .unfinished) ∧
      (∀ n, send_frame_search sample_defs (limited_link sample_defs 8) 9 n 8 9 [] =
        .unfinished) ∧
      (∀ n, determine_max_frame_size sample_defs (limited_link sample_defs 8) n ⟨9, 9⟩ =
        .unfinished) := by
  have h1 : ∀ n, recv_frame_search (limited_link sample_defs 8) n 8 9 [] = .unfinished :=
    fun n => recv_frame_search_stuck _ 8 9 (by decide) (by decide) (by decide) n []
  refine ⟨by decide, h1, ?_, ?_⟩
  · exact fun n => send_frame_search_stuck sample_defs _ 9 8 9 (by decide) (by decide)
      (by decide) n []
  · intro n
    have e : sample_defs.sizeof_x300_mtu_t = 8 := rfl
    simp only [determine_max_frame_size, e, h1 n]
    decide

/-- If the receive loop never ends from the state that follows a state, it
never ends from that state either. -/
theorem recv_frame_search_unfinished_of_next (link : mtu_link) (lo hi lo' hi' : Nat)
    (hlt : lo < hi)
    (hnext : (if link.recv_echo (u32 (test_frame_size lo hi)) ≥ test_frame_size lo hi then
        (test_frame_size lo hi, hi)
      else (lo, usize (test_frame_size lo hi + 2 ^ 64 - 4))) = (lo', hi'))
    (h : ∀ (n : Nat) (probes : List Nat),
      recv_frame_search link n lo' hi' probes = .unfinished) :
    ∀ (n : Nat) (probes : List Nat), recv_frame_search link n lo hi probes = .unfinished := by
  intro n probes
  cases n with
  | zero => simp [recv_frame_search, hlt]
  | succ n =>
    unfold recv_frame_search
    simp only [hlt, if_true]
    by_cases hc : link.recv_echo (u32 (test_frame_size lo hi)) ≥ test_frame_size lo hi
    · rw [if_pos hc] at hnext
      obtain ⟨e1, e2⟩ := Prod.mk.inj hnext
      rw [if_pos hc, e1, e2]
      exact h _ _
    · rw [if_neg hc] at hnext
      obtain ⟨e1, e2⟩ := Prod.mk.inj hnext
      rw [if_neg hc, e2]
      rw [← e1] at h
      exact h _ _

/-- The same for the send loop. -/
theorem send_frame_search_unfinished_of_next (K : x300_defs) (link : mtu_link)
    (buffer_size lo hi lo' hi' : Nat) (hlt : lo < hi)
    (hnext : (if (if (link.send_echo (min (test_frame_size lo hi) buffer_size)).1 ≥
          K.sizeof_x300_mtu_t then
          u32 (link.send_echo (min (test_frame_size lo hi) buffer_size)).2
        else (link.send_echo (min (test_frame_size lo hi) buffer_size)).1) ≥
          test_frame_size lo hi then
        (test_frame_size lo hi, hi)
      else (lo, usize (test_frame_size lo hi + 2 ^ 64 - 4))) = (lo', hi'))
    (h : ∀ (n : Nat) (probes : List Nat),
      send_frame_search K link buffer_size n lo' hi' probes = .unfinished) :
    ∀ (n : Nat) (probes : List Nat),
      send_frame_search K link buffer_size n lo hi probes = .unfinished := by
  intro n probes
  cases n with
  | zero => simp [send_frame_search, hlt]
  | succ n =>
    unfold send_frame_search
    simp only [hlt, if_true]
    by_cases hc : (if (link.send_echo (min (test_frame_size lo hi) buffer_size)).1 ≥
          K.sizeof_x300_mtu_t then
          u32 (link.send_echo (min (test_frame_size lo hi) buffer_size)).2
        else (link.send_echo (min (test_frame_size lo hi) buffer_size)).1) ≥
          test_frame_size lo hi
    · rw [if_pos hc] at hnext
      obtain ⟨e1, e2⟩ := Prod.mk.inj hnext
      rw [if_pos hc, e1, e2]
      exact h _ _
    · rw [if_neg hc] at hnext
      obtain ⟨e1, e2⟩ := Prod.mk.inj hnext
      rw [if_neg hc, e2]
      rw [← e1] at h
      exact h _ _

/-- C12, at the failing input: the requested ceiling is 1473 in both
directions and the link carries every frame of at most K = 1472 bytes.  Both
searches raise the floor from 8 to 1472 in eight probes and then test 1472
again and again with the ceiling left at 1473: neither search ends with a
floor value, whatever number of iterations is allowed. -/
theorem frame_search_hangs_below_unaligned_ceiling :
    (∀ n, recv_frame_search (limited_link sample_defs 1472) n 8 1473 [] = .unfinished) ∧
      (∀ n, send_frame_search sample_defs (limited_link sample_defs 1472) 1473 n 8 1473 [] =
        .unfinished) ∧
      (∀ n, determine_max_frame_size sample_defs (limited_link sample_defs 1472) n
        ⟨1473, 1473⟩ = .unfinished) := by
  have hr : ∀ (n : Nat) (probes : List Nat),
      recv_frame_search (limited_link sample_defs 1472) n 8 1473 probes = .unfinished := by
    apply recv_frame_search_unfinished_of_next _ 8 1473 740 1473 (by decide) (by decide)
    apply recv_frame_search_unfinished_of_next _ 740 1473 1108 1473 (by decide) (by decide)
    apply recv_frame_search_unfinished_of_next _ 1108 1473 1292 1473 (by decide) (by decide)
    apply recv_frame_search_unfinished_of_next _ 1292 1473 1384 1473 (by decide) (by decide)
    apply recv_frame_search_unfinished_of_next _ 1384 1473 1428 1473 (by decide) (by decide)
    apply recv_frame_search_unfinished_of_next _ 1428 1473 1452 1473 (by decide) (by decide)
    apply recv_frame_search_unfinished_of_next _ 1452 1473 1464 1473 (by decide) (by decide)
    apply recv_frame_search_unfinished_of_next _ 1464 1473 1468 1473 (by decide) (by decide)
    apply recv_frame_search_unfinished_of_next _ 1468 1473 1472 1473 (by decide) (by decide)
    exact recv_frame_search_stuck _ 1472 1473 (by decide) (by decide) (by decide)
  have hs : ∀ (n : Nat) (probes : List Nat),
      send_frame_search sample_defs (limited_link sample_defs 1472) 1473 n 8 1473 probes =
        .unfinished := by
    apply send_frame_search_unfinished_of_next _ _ _ 8 1473 740 1473 (by decide) (by decide)
    apply send_frame_search_unfinished_of_next _ _ _ 740 1473 1108 1473 (by decide) (by decide)
    apply send_frame_search_unfinished_of_next _ _ _ 1108 1473 1292 1473 (by decide)
      (by decide)
    apply send_frame_search_unfinished_of_next _ _ _ 1292 1473 1384 1473 (by decide)
      (by decide)
    apply send_frame_search_unfinished_of_next _ _ _ 1384 1473 1428 1473 (by decide)
      (by decide)
    apply send_frame_search_unfinished_of_next _ _ _ 1428 1473 1452 1473 (by decide)
      (by decide)
    apply send_frame_search_unfinished_of_next _ _ _ 1452 1473 1464 1473 (by decide)
      (by decide)
    apply send_frame_search_unfinished_of_next _ _ _ 1464 1473 1468 1473 (by decide)
      (by decide)
    apply send_frame_search_unfinished_of_next _ _ _ 1468 1473 1472 1473 (by decide)
      (by decide)
    exact send_frame_search_stuck _ _ _ 1472 1473 (by decide) (by decide) (by decide)
  refine ⟨fun n => hr n [], fun n => hs n [], fun n => ?_⟩
  have e : sample_defs.sizeof_x300_mtu_t = 8 := rfl
  simp only [determine_max_frame_size, e, hr n []]
  decide

/-- C14, at the failing input: requested receive ceiling 1002, send ceiling
8000, link carrying frames of up to 1472 bytes.  The last size tested in the
receive direction is 1004, above the requested ceiling 1002; it is echoed,
and the call returns `recv_frame_size = 1004`, above the requested receive
ceiling. -/
theorem frame_search_exceeds_unaligned_ceiling :
    determine_max_frame_size sample_defs (limited_link sample_defs 1472) 20 ⟨1002, 8000⟩ =
      .returned (⟨1004, 1004⟩, [508, 756, 880, 944, 976, 992, 1000, 1004],
        [4004, 2004, 1004, 1504, 1252, 1376, 1440, 1472, 1488, 1480, 1476]) := by
  decide

/-- C16, at the failing input: requested receive ceiling 546, below the
minimum `576 - 28 = 548`, send ceiling 8000, link carrying frames of up to
1472 bytes.  The receive search ends at 548 and the call returns instead of
raising. -/
theorem frame_size_below_minimum_not_raised :
    min_frame_size_required sample_defs = 548 ∧
      determine_max_frame_size sample_defs (limited_link sample_defs 1472) 20 ⟨546, 8000⟩ =
        .returned (⟨548, 548⟩, [280, 416, 484, 516, 532, 540, 544, 548],
          [4004, 2004, 1004, 1504, 1252, 1376, 1440, 1472, 1488, 1480, 1476]) := by
  decide

/-- C15: whenever `determine_max_frame_size` returns, both searches have
ended, and both fields of the result equal the minimum of the receive size
and the send size they found. -/
theorem frame_size_is_minimum (K : x300_defs) (link : mtu_link) (n : Nat)
    (user_frame_size : frame_size_t) (r : frame_size_t × List Nat × List Nat)
    (h : determine_max_frame_size K link n user_frame_size = .returned r) :
    ∃ (min_recv min_send : Nat) (recv_probes send_probes : List Nat),
      recv_frame_search link n K.sizeof_x300_mtu_t user_frame_size.recv_frame_size [] =
        .returned (min_recv, recv_probes) ∧
      send_frame_search K link
        (max user_frame_size.recv_frame_size user_frame_size.send_frame_size) n
        K.sizeof_x300_mtu_t user_frame_size.send_frame_size [] =
        .returned (min_send, send_probes) ∧
      r.1.recv_frame_size = min min_recv min_send ∧
      r.1.send_frame_size = min min_recv min_send := by
  unfold determine_max_frame_size at h
  simp only at h
  split at h
  · exact absurd h (by simp)
  · split at h
    · exact absurd h (by simp)
    · exact absurd h (by simp)
    · next min_recv recv_probes hrecv =>
      split at h
      · exact absurd h (by simp)
      · split at h
        · exact absurd h (by simp)
        · exact absurd h (by simp)
        · next min_send send_probes hsend =>
          split at h
          · exact absurd h (by simp)
          · simp only [outcome.returned.injEq] at h
            subst h
            exact ⟨min_recv, min_send, recv_probes, send_probes, hrecv, hsend, rfl, rfl⟩

/-- Witness of `frame_size_is_minimum`: ceilings 8000 and 4000 on a link that
carries frames of up to 1472 bytes; the call returns 1472 for both fields. -/
theorem frame_size_is_minimum_witness :
    determine_max_frame_size sample_defs (limited_link sample_defs 1472) 20 ⟨8000, 4000⟩ =
        .returned (⟨1472, 1472⟩, [4004, 2004, 1004, 1504, 1252, 1376, 1440, 1472, 1488, 1480,
          1476], [2004, 1004, 1504, 1252, 1376, 1440, 1472, 1488, 1480, 1476]) ∧
      ∃ (min_recv min_send : Nat) (recv_probes send_probes : List Nat),
        recv_frame_search (limited_link sample_defs 1472) 20 sample_defs.sizeof_x300_mtu_t
          8000 [] = .returned (min_recv, recv_probes) ∧
        send_frame_search sample_defs (limited_link sample_defs 1472) (max 8000 4000) 20
          sample_defs.sizeof_x300_mtu_t 4000 [] = .returned (min_send, send_probes) ∧
        1472 = min min_recv min_send ∧ 1472 = min min_recv min_send :=
  ⟨by decide,
    frame_size_is_minimum sample_defs (limited_link sample_defs 1472) 20 ⟨8000, 4000⟩
      (⟨1472, 1472⟩, [4004, 2004, 1004, 1504, 1252, 1376, 1440, 1472, 1488, 1480, 1476],
        [2004, 1004, 1504, 1252, 1376, 1440, 1472, 1488, 1480, 1476]) (by decide)⟩

/-! ## Bring-up: frame sizes -/

/-- C18, at the failing inputs.  The user asks for 8000 bytes in both
directions on a link that carries frames of up to 1472 bytes: the detected
sizes are 1472, below the requested ones, and bring-up goes on with no warning
written for either direction.  With the request 546 for the receive direction
the detected size is 548; the guard of the receive warning holds, although
the request is smaller than the detected size, and its statement raises
`boost::io::too_few_args`: no warning is written and bring-up stops before
the register interface is opened. -/
theorem frame_size_warnings_misfire :
    setup_mb_eth sample_defs (limited_link sample_defs 1472) 20
        ⟨[("addr", "192.168.10.2"), ("recv_frame_size", "8000"),
          ("send_frame_size", "8000")]⟩ ⟨0, 0⟩ =
        (.returned (), ⟨1472, 1472⟩,
          [.make_ctrl_iface_enet "192.168.10.2", .claimer_task_started]) ∧
      setup_mb_eth sample_defs (limited_link sample_defs 1472) 20
        ⟨[("addr", "192.168.10.2"), ("recv_frame_size", "546")]⟩ ⟨0, 0⟩ =
        (.raised .too_few_args, ⟨548, 548⟩, []) := by
  decide

/-! ## Clock control -/

theorem last_poke_poke32 (iface : wb_iface) (addr value : Nat) :
    last_poke (iface.poke32 addr value) addr = some (u32 value) := by
  simp [last_poke, wb_iface.poke32, List.filter_append, List.getLast?_append]

/-- After `update_clock_control` the register holds the word packed from the
members. -/
theorem update_clock_control_in_sync (K : x300_defs) (mb : clock_mboard_t) :
    clock_control_in_sync K (update_clock_control K mb) := by
  unfold clock_control_in_sync update_clock_control
  exact last_poke_poke32 _ _ _

/-- The method `set_time_source_out` leaves members and register in
agreement. -/
theorem set_time_source_out_in_sync (K : x300_defs) (mb : clock_mboard_t) (enb : Bool) :
    clock_control_in_sync K (set_time_source_out K mb enb) :=
  update_clock_control_in_sync K _

/-- The method `update_time_source` keeps members and register in agreement,
whether it returns or raises. -/
theorem update_time_source_in_sync (K : x300_defs) (mb : clock_mboard_t) (source : String)
    (h : clock_control_in_sync K mb) :
    clock_control_in_sync K (update_time_source K mb source).2 := by
  unfold update_time_source
  split
  · exact update_clock_control_in_sync K _
  · split
    · exact update_clock_control_in_sync K _
    · split
      · exact update_clock_control_in_sync K _
      · exact h

/-- The method `update_clock_source` leaves members and register in agreement
when it returns. -/
theorem update_clock_source_in_sync_of_returned (K : x300_defs) (mb : clock_mboard_t)
    (source : String) (h : (update_clock_source K mb source).1 = .returned ()) :
    clock_control_in_sync K (update_clock_source K mb source).2 := by
  unfold update_clock_source at h ⊢
  simp only at h ⊢
  split
  · exact update_clock_control_in_sync K _
  · split
    · exact update_clock_control_in_sync K _
    · split
      · exact update_clock_control_in_sync K _
      · next h1 h2 h3 =>
        rw [if_neg h1, if_neg h2, if_neg h3] at h
        exact absurd h (by simp)

/-- C19, at the failing input: a motherboard set to the internal clock source
has its members and the clock-control register in agreement (the register
holds `0x22`).  The call `update_clock_source(mb, "bogus")` raises a key
error after it has cleared `clock_source` and `tcxo_enb` and before any write:
the register still holds `0x22` while the members now pack to 0. -/
theorem update_clock_source_diverges_on_raise :
    clock_control_in_sync sample_defs internal_clock_mboard ∧
      clock_control_word internal_clock_mboard = 0x22 ∧
      (update_clock_source sample_defs internal_clock_mboard "bogus").1 =
        .raised (.key_error "update_clock_source: unknown source: bogus") ∧
      last_poke (update_clock_source sample_defs internal_clock_mboard "bogus").2.zpu_ctrl
        (sample_defs.SR_ADDR sample_defs.SET0_BASE sample_defs.ZPU_SR_CLOCK_CTRL) =
        some 0x22 ∧
      clock_control_word (update_clock_source sample_defs internal_clock_mboard "bogus").2 =
        0 ∧
      ¬ clock_control_in_sync sample_defs
        (update_clock_source sample_defs internal_clock_mboard "bogus").2 := by
  decide

/-- C20: `update_clock_source` and `update_time_source` raise a key error
exactly when the source string is none of `"internal"`, `"external"`,
`"gpsdo"`; when they raise, the log of register writes is as before the call;
when they return, the log has grown by exactly one write, to the
clock-control register, of the word packed from the members. -/
theorem clock_source_key_error (K : x300_defs) (mb : clock_mboard_t) (source : String) :
    ((∃ what, (update_clock_source K mb source).1 = .raised (.key_error what)) ↔
        source ∉ ["internal", "external", "gpsdo"]) ∧
      ((update_clock_source K mb source).1 ≠ .returned () →
        (update_clock_source K mb source).2.zpu_ctrl.pokes = mb.zpu_ctrl.pokes) ∧
      ((update_clock_source K mb source).1 = .returned () →
        (update_clock_source K mb source).2.zpu_ctrl.pokes = mb.zpu_ctrl.pokes ++
          [(K.SR_ADDR K.SET0_BASE K.ZPU_SR_CLOCK_CTRL,
            u32 (clock_control_word (update_clock_source K mb source).2))]) ∧
      ((∃ what, (update_time_source K mb source).1 = .raised (.key_error what)) ↔
        source ∉ ["internal", "external", "gpsdo"]) ∧
      ((update_time_source K mb source).1 ≠ .returned () →
        (update_time_source K mb source).2.zpu_ctrl.pokes = mb.zpu_ctrl.pokes) ∧
      ((update_time_source K mb source).1 = .returned () →
        (update_time_source K mb source).2.zpu_ctrl.pokes = mb.zpu_ctrl.pokes ++
          [(K.SR_ADDR K.SET0_BASE K.ZPU_SR_CLOCK_CTRL,
            u32 (clock_control_word (update_time_source K mb source).2))]) := by
  by_cases h1 : source = "internal"
  · subst h1
    simp [update_clock_source, update_time_source, update_clock_control, wb_iface.poke32,
      clock_control_word]
  · by_cases h2 : source = "external"
    · subst h2
      simp [update_clock_source, update_time_source, update_clock_control, wb_iface.poke32,
        clock_control_word]
    · by_cases h3 : source = "gpsdo"
      · subst h3
        simp [update_clock_source, update_time_source, update_clock_control, wb_iface.poke32,
          clock_control_word]
      · simp [update_clock_source, update_time_source, h1, h2, h3]

/-! ## Frame size detection with ceilings that are multiples of 4 -/

theorem recv_frame_search_eq (link : mtu_link) :
    ∀ (n lo hi : Nat) (probes : List Nat),
      recv_frame_search link n lo hi probes =
        frame_search (recv_accept link) n lo hi probes := by
  intro n
  induction n with
  | zero => intro lo hi probes; rfl
  | succ n ih =>
    intro lo hi probes
    unfold recv_frame_search frame_search
    simp only [recv_accept, decide_eq_true_eq, ih]

theorem send_frame_search_eq (K : x300_defs) (link : mtu_link) (buffer_size : Nat) :
    ∀ (n lo hi : Nat) (probes : List Nat),
      send_frame_search K link buffer_size n lo hi probes =
        frame_search (send_accept K link buffer_size) n lo hi probes := by
  intro n
  induction n with
  | zero => intro lo hi probes; rfl
  | succ n ih =>
    intro lo hi probes
    unfold send_frame_search frame_search
    simp only [send_accept, decide_eq_true_eq, ih]

/-- Clearing the two low bits of a `size_t`. -/
theorem and_not_three (x : Nat) (hx : x < 2 ^ 64) : x &&& (2 ^ 64 - 4) = x / 4 * 4 := by
  have e1 : (2 : Nat) ^ 64 - 4 = (2 ^ 62 - 1) <<< 2 := by norm_num [Nat.shiftLeft_eq]
  have e2 : x / 4 * 4 = (x >>> 2) <<< 2 := by
    rw [Nat.shiftLeft_eq, Nat.shiftRight_eq_div_pow]
  rw [e1, e2]
  apply Nat.eq_of_testBit_eq
  intro i
  simp only [Nat.testBit_and, Nat.testBit_shiftLeft, Nat.testBit_shiftRight,
    Nat.testBit_two_pow_sub_one]
  by_cases hi : 2 ≤ i
  · have e3 : 2 + (i - 2) = i := by omega
    by_cases h64 : i < 64
    · have : i - 2 < 62 := by omega
      simp [hi, e3, this]
    · have hb : x.testBit i = false := by
        apply Nat.testBit_lt_two_pow
        calc x < 2 ^ 64 := hx
          _ ≤ 2 ^ i := Nat.pow_le_pow_right (by norm_num) (by omega)
      have : ¬ (i - 2 < 62) := by omega
      simp [hi, e3, this, hb]
  · simp [hi]

/-- Between a floor and a larger ceiling that are both multiples of 4, the
tested size is a multiple of 4 above the floor and not above the ceiling. -/
theorem test_frame_size_aligned (lo hi : Nat) (hlo : lo % 4 = 0) (hhi : hi % 4 = 0)
    (hlt : lo < hi) (h64 : hi < 2 ^ 64) :
    lo + 4 ≤ test_frame_size lo hi ∧ test_frame_size lo hi ≤ hi ∧
      test_frame_size lo hi % 4 = 0 := by
  have hsum : hi / 2 + lo / 2 + 3 < 2 ^ 64 := by omega
  have e : test_frame_size lo hi = (hi / 2 + lo / 2 + 3) / 4 * 4 := by
    unfold test_frame_size usize
    rw [Nat.mod_eq_of_lt hsum]
    exact and_not_three _ hsum
  rw [e]
  omega

/-- With floor and ceiling multiples of 4, the search ends within
`(hi - lo) / 4` probes, whatever the probes answer; every tested size lies
above the floor and not above the ceiling, and so does the result unless it
is the floor itself. -/
theorem frame_search_aligned (accept : Nat → Bool) :
    ∀ (n lo hi : Nat) (probes : List Nat),
      lo % 4 = 0 → hi % 4 = 0 → lo ≤ hi → hi < 2 ^ 64 → hi - lo ≤ 4 * n →
      ∃ (F : Nat) (ps : List Nat),
        frame_search accept n lo hi probes = .returned (F, probes ++ ps) ∧
        lo ≤ F ∧ F ≤ hi ∧ F % 4 = 0 ∧ ∀ p ∈ ps, lo < p ∧ p ≤ hi := by
  intro n
  induction n with
  | zero =>
    intro lo hi probes _ _ hle _ hn
    have : ¬ lo < hi := by omega
    exact ⟨lo, [], by simp [frame_search, this], Nat.le_refl _, hle, by assumption,
      fun p hp => absurd hp (List.not_mem_nil p)⟩
  | succ n ih =>
    intro lo hi probes hlo hhi hle h64 hn
    by_cases hlt : lo < hi
    · obtain ⟨t1, t2, t3⟩ := test_frame_size_aligned lo hi hlo hhi hlt h64
      unfold frame_search
      simp only [hlt, if_true]
      by_cases ha : accept (test_frame_size lo hi) = true
      · obtain ⟨F, ps, hF, h1, h2, h3, h4⟩ :=
          ih (test_frame_size lo hi) hi (probes ++ [test_frame_size lo hi]) t3 hhi t2 h64
            (by omega)
        refine ⟨F, test_frame_size lo hi :: ps, ?_, by omega, h2, h3, ?_⟩
        · rw [if_pos ha, hF]; simp
        · intro p hp
          rcases List.mem_cons.mp hp with rfl | hp
          · omega
          · have := h4 p hp; omega
      · have hsub : usize (test_frame_size lo hi + 2 ^ 64 - 4) = test_frame_size lo hi - 4 := by
          unfold usize; omega
        obtain ⟨F, ps, hF, h1, h2, h3, h4⟩ :=
          ih lo (test_frame_size lo hi - 4) (probes ++ [test_frame_size lo hi]) hlo
            (by omega) (by omega) (by omega) (by omega)
        refine ⟨F, test_frame_size lo hi :: ps, ?_, h1, by omega, h3, ?_⟩
        · rw [if_neg ha, hsub, hF]; simp
        · intro p hp
          rcases List.mem_cons.mp hp with rfl | hp
          · omega
          · have := h4 p hp; omega
    · have : lo = hi := by omega
      refine ⟨lo, [], ?_, Nat.le_refl _, hle, hlo, fun p hp => absurd hp (List.not_mem_nil p)⟩
      unfold frame_search
      simp [hlt]

/-- With floor and ceiling multiples of 4 and probes that succeed exactly up
to `limit`, the search ends with a floor `F` such that
`limit - 4 < F ≤ limit`. -/
theorem frame_search_converges (accept : Nat → Bool) (limit : Nat) :
    ∀ (n lo hi : Nat) (probes : List Nat),
      lo % 4 = 0 → hi % 4 = 0 → lo ≤ hi → hi < 2 ^ 64 → hi - lo ≤ 4 * n →
      (∀ t, lo < t → t ≤ hi → (accept t = true ↔ t ≤ limit)) →
      lo ≤ limit → limit < hi + 4 →
      ∃ (F : Nat) (ps : List Nat),
        frame_search accept n lo hi probes = .returned (F, probes ++ ps) ∧
        F ≤ limit ∧ limit < F + 4 := by
  intro n
  induction n with
  | zero =>
    intro lo hi probes _ _ hle _ hn _ h1 h2
    have : ¬ lo < hi := by omega
    exact ⟨lo, [], by simp [frame_search, this], h1, by omega⟩
  | succ n ih =>
    intro lo hi probes hlo hhi hle h64 hn hacc h1 h2
    by_cases hlt : lo < hi
    · obtain ⟨t1, t2, t3⟩ := test_frame_size_aligned lo hi hlo hhi hlt h64
      unfold frame_search
      simp only [hlt, if_true]
      by_cases ha : accept (test_frame_size lo hi) = true
      · have hk := (hacc _ (by omega) t2).mp ha
        obtain ⟨F, ps, hF, h3, h4⟩ :=
          ih (test_frame_size lo hi) hi (probes ++ [test_frame_size lo hi]) t3 hhi t2 h64
            (by omega) (fun t ht1 ht2 => hacc t (by omega) ht2) hk h2
        exact ⟨F, test_frame_size lo hi :: ps, by rw [if_pos ha, hF]; simp, h3, h4⟩
      · have hk : ¬ test_frame_size lo hi ≤ limit := fun h => ha ((hacc _ (by omega) t2).mpr h)
        have hsub : usize (test_frame_size lo hi + 2 ^ 64 - 4) = test_frame_size lo hi - 4 := by
          unfold usize; omega
        obtain ⟨F, ps, hF, h3, h4⟩ :=
          ih lo (test_frame_size lo hi - 4) (probes ++ [test_frame_size lo hi]) hlo
            (by omega) (by omega) (by omega) (by omega)
            (fun t ht1 ht2 => hacc t ht1 (by omega)) h1 (by omega)
        exact ⟨F, test_frame_size lo hi :: ps, by rw [if_neg ha, hsub, hF]; simp, h3, h4⟩
    · have : lo = hi := by omega
      refine ⟨lo, [], ?_, h1, by omega⟩
      unfold frame_search
      simp [hlt]

theorem recv_accept_limited (K : x300_defs) (limit t : Nat) (h0 : 0 < t) (h32 : t < 2 ^ 32) :
    recv_accept (limited_link K limit) t = true ↔ t ≤ limit := by
  have e : u32 t = t := Nat.mod_eq_of_lt h32
  unfold recv_accept limited_link
  simp only [e, decide_eq_true_eq]
  by_cases h : t ≤ limit
  · simp [h]
  · simp only [h, if_false]
    constructor
    · intro h'; omega
    · intro h'; exact h'.elim

theorem send_accept_limited (K : x300_defs) (limit buffer_size t : Nat) (h0 : 0 < t)
    (h32 : t < 2 ^ 32) (hb : t ≤ buffer_size) :
    send_accept K (limited_link K limit) buffer_size t = true ↔ t ≤ limit := by
  have e : u32 t = t := Nat.mod_eq_of_lt h32
  have e0 : u32 0 = 0 := rfl
  have em : min t buffer_size = t := Nat.min_eq_left hb
  unfold send_accept limited_link
  simp only [em, decide_eq_true_eq]
  by_cases h : t ≤ limit
  · simp [h, e]
  · simp only [h, if_false]
    constructor
    · intro h'
      split at h'
      · rw [e0] at h'; omega
      · omega
    · intro h'; exact h'.elim

/-- For requested ceilings that are multiples of 4 (and below `2^32`) and a
link that carries exactly the frames of at most `limit` bytes, with `limit`
between the floor and both ceilings, each search ends, within a number of
probes bounded by a quarter of its ceiling, with a floor `F` such that
`limit - 4 < F ≤ limit`. -/
theorem limited_link_searches_converge (K : x300_defs) (limit n : Nat)
    (user_frame_size : frame_size_t)
    (hsz : K.sizeof_x300_mtu_t % 4 = 0)
    (hr4 : user_frame_size.recv_frame_size % 4 = 0)
    (hs4 : user_frame_size.send_frame_size % 4 = 0)
    (hfloor : K.sizeof_x300_mtu_t ≤ limit)
    (hlr : limit ≤ user_frame_size.recv_frame_size)
    (hls : limit ≤ user_frame_size.send_frame_size)
    (hr32 : user_frame_size.recv_frame_size < 2 ^ 32)
    (hs32 : user_frame_size.send_frame_size < 2 ^ 32)
    (hnr : user_frame_size.recv_frame_size ≤ 4 * n)
    (hns : user_frame_size.send_frame_size ≤ 4 * n) :
    ∃ (min_recv min_send : Nat) (recv_probes send_probes : List Nat),
      recv_frame_search (limited_link K limit) n K.sizeof_x300_mtu_t
        user_frame_size.recv_frame_size [] = .returned (min_recv, recv_probes) ∧
      min_recv ≤ limit ∧ limit < min_recv + 4 ∧
      send_frame_search K (limited_link K limit)
        (max user_frame_size.recv_frame_size user_frame_size.send_frame_size) n
        K.sizeof_x300_mtu_t user_frame_size.send_frame_size [] =
        .returned (min_send, send_probes) ∧
      min_send ≤ limit ∧ limit < min_send + 4 := by
  obtain ⟨Fr, pr, hFr, r1, r2⟩ :=
    frame_search_converges (recv_accept (limited_link K limit)) limit n
      K.sizeof_x300_mtu_t user_frame_size.recv_frame_size [] hsz hr4 (by omega) (by omega)
      (by omega)
      (fun t ht1 ht2 => recv_accept_limited K limit t (by omega) (by omega)) hfloor (by omega)
  obtain ⟨Fs, ps, hFs, s1, s2⟩ :=
    frame_search_converges
      (send_accept K (limited_link K limit)
        (max user_frame_size.recv_frame_size user_frame_size.send_frame_size)) limit n
      K.sizeof_x300_mtu_t user_frame_size.send_frame_size [] hsz hs4 (by omega) (by omega)
      (by omega)
      (fun t ht1 ht2 => send_accept_limited K limit _ t (by omega) (by omega)
        (le_trans ht2 (Nat.le_max_right _ _))) hfloor (by omega)
  refine ⟨Fr, Fs, pr, ps, ?_, r1, r2, ?_, s1, s2⟩
  · rw [recv_frame_search_eq, hFr]; simp
  · rw [send_frame_search_eq, hFs]; simp

/-- For requested ceilings that are multiples of 4, whatever the link
answers: each search ends, every size it tests lies above the floor and not
above the requested ceiling of its direction, and the floor it ends with is
not above that ceiling. -/
theorem aligned_searches_terminate (K : x300_defs) (link : mtu_link) (n : Nat)
    (user_frame_size : frame_size_t)
    (hsz : K.sizeof_x300_mtu_t % 4 = 0)
    (hr4 : user_frame_size.recv_frame_size % 4 = 0)
    (hs4 : user_frame_size.send_frame_size % 4 = 0)
    (hfr : K.sizeof_x300_mtu_t ≤ user_frame_size.recv_frame_size)
    (hfs : K.sizeof_x300_mtu_t ≤ user_frame_size.send_frame_size)
    (hr64 : user_frame_size.recv_frame_size < 2 ^ 64)
    (hs64 : user_frame_size.send_frame_size < 2 ^ 64)
    (hnr : user_frame_size.recv_frame_size ≤ 4 * n)
    (hns : user_frame_size.send_frame_size ≤ 4 * n) :
    ∃ (min_recv min_send : Nat) (recv_probes send_probes : List Nat),
      recv_frame_search link n K.sizeof_x300_mtu_t
        user_frame_size.recv_frame_size [] = .returned (min_recv, recv_probes) ∧
      min_recv ≤ user_frame_size.recv_frame_size ∧
      (∀ p ∈ recv_probes, K.sizeof_x300_mtu_t < p ∧ p ≤ user_frame_size.recv_frame_size) ∧
      send_frame_search K link
        (max user_frame_size.recv_frame_size user_frame_size.send_frame_size) n
        K.sizeof_x300_mtu_t user_frame_size.send_frame_size [] =
        .returned (min_send, send_probes) ∧
      min_send ≤ user_frame_size.send_frame_size ∧
      (∀ p ∈ send_probes, K.sizeof_x300_mtu_t < p ∧ p ≤ user_frame_size.send_frame_size) := by
  obtain ⟨Fr, pr, hFr, _, r2, _, r4⟩ :=
    frame_search_aligned (recv_accept link) n K.sizeof_x300_mtu_t
      user_frame_size.recv_frame_size [] hsz hr4 hfr hr64 (by omega)
  obtain ⟨Fs, ps, hFs, _, s2, _, s4⟩ :=
    frame_search_aligned
      (send_accept K link
        (max user_frame_size.recv_frame_size user_frame_size.send_frame_size)) n
      K.sizeof_x300_mtu_t user_frame_size.send_frame_size [] hsz hs4 hfs hs64 (by omega)
  refine ⟨Fr, Fs, pr, ps, ?_, r2, r4, ?_, s2, s4⟩
  · rw [recv_frame_search_eq, hFr]; simp
  · rw [send_frame_search_eq, hFs]; simp

/-- The receive loop raises no exception of its own. -/
theorem frame_search_not_raised (accept : Nat → Bool) :
    ∀ (n lo hi : Nat) (probes : List Nat) (e : uhd_error),
      frame_search accept n lo hi probes ≠ .raised e := by
  intro n
  induction n with
  | zero =>
    intro lo hi probes e
    unfold frame_search
    split <;> simp
  | succ n ih =>
    intro lo hi probes e
    unfold frame_search
    split
    · split
      · exact ih _ _ _ _
      · exact ih _ _ _ _
    · simp

/-- For a device that supports the echo protocol, `determine_max_frame_size`
raises a runtime error exactly when the receive search ends below the
required minimum, or ends at or above it and the send search ends below it;
and every value it returns is at least the required minimum. -/
theorem frame_size_error_iff (K : x300_defs) (link : mtu_link) (n : Nat)
    (user_frame_size : frame_size_t)
    (hecho : link.holler_flags &&& K.X300_MTU_DETECT_ECHO_REPLY ≠ 0) :
    ((∃ what, determine_max_frame_size K link n user_frame_size =
        .raised (.runtime_error what)) ↔
      ∃ (min_recv : Nat) (recv_probes : List Nat),
        recv_frame_search link n K.sizeof_x300_mtu_t user_frame_size.recv_frame_size [] =
          .returned (min_recv, recv_probes) ∧
        (min_recv < min_frame_size_required K ∨
          ∃ (min_send : Nat) (send_probes : List Nat),
            send_frame_search K link
              (max user_frame_size.recv_frame_size user_frame_size.send_frame_size) n
              K.sizeof_x300_mtu_t user_frame_size.send_frame_size [] =
              .returned (min_send, send_probes) ∧
            min_send < min_frame_size_required K)) ∧
    (∀ r, determine_max_frame_size K link n user_frame_size = .returned r →
      min_frame_size_required K ≤ r.1.recv_frame_size ∧
      min_frame_size_required K ≤ r.1.send_frame_size) := by
  unfold determine_max_frame_size
  simp only [hecho, if_false]
  cases hr : recv_frame_search link n K.sizeof_x300_mtu_t user_frame_size.recv_frame_size []
    with
  | unfinished => simp
  | raised e =>
    rw [recv_frame_search_eq] at hr
    exact absurd hr (frame_search_not_raised _ _ _ _ _ _)
  | returned fr =>
    obtain ⟨min_recv, recv_probes⟩ := fr
    simp only
    by_cases h1 : min_recv < min_frame_size_required K
    · simp [h1]
    · simp only [h1, if_false]
      cases hs : send_frame_search K link
          (max user_frame_size.recv_frame_size user_frame_size.send_frame_size) n
          K.sizeof_x300_mtu_t user_frame_size.send_frame_size [] with
      | unfinished => simp [h1]
      | raised e =>
        rw [send_frame_search_eq] at hs
        exact absurd hs (frame_search_not_raised _ _ _ _ _ _)
      | returned fs =>
        obtain ⟨min_send, send_probes⟩ := fs
        simp only
        by_cases h2 : min_send < min_frame_size_required K
        · simp [h1, h2]
        · simp only [h2, if_false]
          constructor
          · simp [h1, h2]
          · intro r hret
            simp only [outcome.returned.injEq] at hret
            subst hret
            simp only [Nat.le_min]
            omega

/-! ## Compatibility checks -/

theorem packed_shiftRight (major minor : Nat) (h : minor < 2 ^ 16) :
    ((major <<< 16) ||| minor) >>> 16 = major := by
  apply Nat.eq_of_testBit_eq
  intro i
  rw [Nat.testBit_shiftRight, Nat.testBit_or, Nat.testBit_shiftLeft]
  have hm : minor.testBit (16 + i) = false :=
    Nat.testBit_lt_two_pow (lt_of_lt_of_le h (Nat.pow_le_pow_right (by norm_num) (by omega)))
  simp [hm]

theorem check_fw_compat_raised_iff (K : x300_defs) (iface : wb_iface) :
    (check_fw_compat K iface).1 = .raised (.runtime_error
        "The firmware build is not compatible with the host code build.") ↔
      iface.peek32 (K.SR_ADDR K.X300_FW_SHMEM_BASE K.X300_FW_SHMEM_COMPAT_NUM) >>> 16 ≠
        K.X300_FW_COMPAT_MAJOR := by
  unfold check_fw_compat
  by_cases h : iface.peek32 (K.SR_ADDR K.X300_FW_SHMEM_BASE K.X300_FW_SHMEM_COMPAT_NUM) >>> 16 =
      K.X300_FW_COMPAT_MAJOR <;> simp [h]

theorem check_fw_compat_returned_iff (K : x300_defs) (iface : wb_iface) :
    (check_fw_compat K iface).1 = .returned () ↔
      iface.peek32 (K.SR_ADDR K.X300_FW_SHMEM_BASE K.X300_FW_SHMEM_COMPAT_NUM) >>> 16 =
        K.X300_FW_COMPAT_MAJOR := by
  unfold check_fw_compat
  by_cases h : iface.peek32 (K.SR_ADDR K.X300_FW_SHMEM_BASE K.X300_FW_SHMEM_COMPAT_NUM) >>> 16 =
      K.X300_FW_COMPAT_MAJOR <;> simp [h]

theorem check_fpga_compat_raised_iff (K : x300_defs) (iface : wb_iface) :
    (check_fpga_compat K iface).1 = .raised (.runtime_error
        "The FPGA build is not compatible with the host code build.") ↔
      iface.peek32 (K.SR_ADDR K.SET0_BASE K.ZPU_RB_COMPAT_NUM) >>> 16 ≠
        K.X300_FPGA_COMPAT_MAJOR := by
  unfold check_fpga_compat
  by_cases h : iface.peek32 (K.SR_ADDR K.SET0_BASE K.ZPU_RB_COMPAT_NUM) >>> 16 =
      K.X300_FPGA_COMPAT_MAJOR <;> simp [h]

theorem check_fpga_compat_returned_iff (K : x300_defs) (iface : wb_iface) :
    (check_fpga_compat K iface).1 = .returned () ↔
      iface.peek32 (K.SR_ADDR K.SET0_BASE K.ZPU_RB_COMPAT_NUM) >>> 16 =
        K.X300_FPGA_COMPAT_MAJOR := by
  unfold check_fpga_compat
  by_cases h : iface.peek32 (K.SR_ADDR K.SET0_BASE K.ZPU_RB_COMPAT_NUM) >>> 16 =
      K.X300_FPGA_COMPAT_MAJOR <;> simp [h]

/-- A firmware mismatch ends `setup_mb` with the error of the check, and the
read of the check is the only register access. -/
theorem setup_mb_fw_mismatch (K : x300_defs) (rest : String → outcome Unit × List reg_access)
    (iface : wb_iface)
    (h : iface.peek32 (K.SR_ADDR K.X300_FW_SHMEM_BASE K.X300_FW_SHMEM_COMPAT_NUM) >>> 16 ≠
      K.X300_FW_COMPAT_MAJOR) :
    setup_mb_from_compat K rest iface =
      (.raised (.runtime_error "The firmware build is not compatible with the host code build."),
        [.peek32 (K.SR_ADDR K.X300_FW_SHMEM_BASE K.X300_FW_SHMEM_COMPAT_NUM)]) := by
  simp [setup_mb_from_compat, check_fw_compat, h]

/-- An FPGA mismatch ends `setup_mb` with the error of the check, and the read
of the check is the last register access. -/
theorem setup_mb_fpga_mismatch (K : x300_defs) (rest : String → outcome Unit × List reg_access)
    (iface : wb_iface)
    (hfw : iface.peek32 (K.SR_ADDR K.X300_FW_SHMEM_BASE K.X300_FW_SHMEM_COMPAT_NUM) >>> 16 =
      K.X300_FW_COMPAT_MAJOR)
    (h : iface.peek32 (K.SR_ADDR K.SET0_BASE K.ZPU_RB_COMPAT_NUM) >>> 16 ≠
      K.X300_FPGA_COMPAT_MAJOR) :
    setup_mb_from_compat K rest iface =
      (.raised (.runtime_error "The FPGA build is not compatible with the host code build."),
        [.peek32 (K.SR_ADDR K.X300_FW_SHMEM_BASE K.X300_FW_SHMEM_COMPAT_NUM),
          .peek32 (K.SR_ADDR K.SET0_BASE K.ZPU_RB_COMPAT_NUM)]) := by
  simp [setup_mb_from_compat, check_fw_compat, check_fpga_compat, hfw, h]

/-- C21: when the firmware compatibility register holds `fw_major << 16 |
fw_minor` and the FPGA compatibility register holds `fpga_major << 16 |
fpga_minor` (minors below 2^16), `check_fw_compat` raises its compatibility
error if and only if `fw_major` differs from `X300_FW_COMPAT_MAJOR`, and
returns otherwise; `check_fpga_compat` likewise with
`X300_FPGA_COMPAT_MAJOR`; neither depends on the minor.  When the firmware
check raises, `setup_mb` ends with that error and its register accesses from
the check on are the one read of the check; when the FPGA check raises, the
accesses are the two reads of the two checks; whatever the statements after
the checks would do, none of their accesses happens. -/
theorem compat_mismatch_is_fatal (K : x300_defs)
    (rest : String → outcome Unit × List reg_access) (iface : wb_iface)
    (fw_major fw_minor fpga_major fpga_minor : Nat)
    (hfw_minor : fw_minor < 2 ^ 16) (hfpga_minor : fpga_minor < 2 ^ 16)
    (hfw : iface.peek32 (K.SR_ADDR K.X300_FW_SHMEM_BASE K.X300_FW_SHMEM_COMPAT_NUM) =
      (fw_major <<< 16) ||| fw_minor)
    (hfpga : iface.peek32 (K.SR_ADDR K.SET0_BASE K.ZPU_RB_COMPAT_NUM) =
      (fpga_major <<< 16) ||| fpga_minor) :
    ((check_fw_compat K iface).1 = .raised (.runtime_error
        "The firmware build is not compatible with the host code build.") ↔
      fw_major ≠ K.X300_FW_COMPAT_MAJOR) ∧
    ((check_fw_compat K iface).1 = .returned () ↔ fw_major = K.X300_FW_COMPAT_MAJOR) ∧
    ((check_fpga_compat K iface).1 = .raised (.runtime_error
        "The FPGA build is not compatible with the host code build.") ↔
      fpga_major ≠ K.X300_FPGA_COMPAT_MAJOR) ∧
    ((check_fpga_compat K iface).1 = .returned () ↔
      fpga_major = K.X300_FPGA_COMPAT_MAJOR) ∧
    (fw_major ≠ K.X300_FW_COMPAT_MAJOR →
      setup_mb_from_compat K rest iface =
        (.raised (.runtime_error
          "The firmware build is not compatible with the host code build."),
          [.peek32 (K.SR_ADDR K.X300_FW_SHMEM_BASE K.X300_FW_SHMEM_COMPAT_NUM)])) ∧
    (fw_major = K.X300_FW_COMPAT_MAJOR → fpga_major ≠ K.X300_FPGA_COMPAT_MAJOR →
      setup_mb_from_compat K rest iface =
        (.raised (.runtime_error "The FPGA build is not compatible with the host code build."),
          [.peek32 (K.SR_ADDR K.X300_FW_SHMEM_BASE K.X300_FW_SHMEM_COMPAT_NUM),
            .peek32 (K.SR_ADDR K.SET0_BASE K.ZPU_RB_COMPAT_NUM)])) := by
  have e1 : iface.peek32 (K.SR_ADDR K.X300_FW_SHMEM_BASE K.X300_FW_SHMEM_COMPAT_NUM) >>> 16 =
      fw_major := by rw [hfw]; exact packed_shiftRight _ _ hfw_minor
  have e2 : iface.peek32 (K.SR_ADDR K.SET0_BASE K.ZPU_RB_COMPAT_NUM) >>> 16 = fpga_major := by
    rw [hfpga]; exact packed_shiftRight _ _ hfpga_minor
  refine ⟨?_, ?_, ?_, ?_, ?_, ?_⟩
  · rw [check_fw_compat_raised_iff, e1]
  · rw [check_fw_compat_returned_iff, e1]
  · rw [check_fpga_compat_raised_iff, e2]
  · rw [check_fpga_compat_returned_iff, e2]
  · intro h
    exact setup_mb_fw_mismatch K rest iface (by rw [e1]; exact h)
  · intro h h'
    exact setup_mb_fpga_mismatch K rest iface (by rw [e1]; exact h) (by rw [e2]; exact h')

/-- Witness of `compat_mismatch_is_fatal`: firmware word `0x00020005` against
the expected major 3, FPGA word `0x00040001`; the statements after the checks
would return after one write. -/
theorem compat_mismatch_is_fatal_witness :
    (2 ≠ sample_defs.X300_FW_COMPAT_MAJOR) ∧
    setup_mb_from_compat sample_defs (fun _ => (.returned (), [.poke32 0 0]))
      stale_firmware_iface =
        (.raised (.runtime_error
          "The firmware build is not compatible with the host code build."),
          [.peek32 (sample_defs.SR_ADDR sample_defs.X300_FW_SHMEM_BASE
            sample_defs.X300_FW_SHMEM_COMPAT_NUM)]) :=
  ⟨by decide,
    (compat_mismatch_is_fatal sample_defs (fun _ => (.returned (), [.poke32 0 0]))
      stale_firmware_iface 2 5 4 1 (by decide) (by decide) (by decide) (by decide)).2.2.2.2.1
      (by decide)⟩

/-! ## DAC control -/

theorem ad9146_last_written_append (l ws : List Nat) (addr : Nat) :
    ad9146_last_written ⟨l ++ ws⟩ addr =
      (ad9146_last_written ⟨ws⟩ addr).or (ad9146_last_written ⟨l⟩ addr) := by
  unfold ad9146_last_written
  simp only [List.filter_append, List.getLast?_append]
  cases (List.filter (fun w => decide (w >>> 8 = addr)) ws).getLast? <;> simp

theorem arm_dac_sync_writes (dac : ad9146) :
    (arm_dac_sync dac).spi_writes = dac.spi_writes ++
      [ad9146_word 0x10 0x48, ad9146_word 0x06 0x30, ad9146_word 0x10 0xCF] := by
  simp [arm_dac_sync, write_ad9146_reg]

theorem arm_words_last_written (addr : Nat) :
    ad9146_last_written
        ⟨[ad9146_word 0x10 0x48, ad9146_word 0x06 0x30, ad9146_word 0x10 0xCF]⟩ addr =
      if addr = 0x10 then some 0xCF else if addr = 0x06 then some 0x30 else none := by
  have w1 : ad9146_word 0x10 0x48 = 0x1048 := by decide
  have w2 : ad9146_word 0x06 0x30 = 0x0630 := by decide
  have w3 : ad9146_word 0x10 0xCF = 0x10CF := by decide
  have s1 : (0x1048 : Nat) >>> 8 = 0x10 := by decide
  have s2 : (0x0630 : Nat) >>> 8 = 0x06 := by decide
  have s3 : (0x10CF : Nat) >>> 8 = 0x10 := by decide
  have m2 : (0x0630 : Nat) &&& 0xff = 0x30 := by decide
  have m3 : (0x10CF : Nat) &&& 0xff = 0xCF := by decide
  rw [w1, w2, w3]
  unfold ad9146_last_written
  by_cases h16 : addr = 0x10
  · subst h16
    simp [List.filter, s1, s2, s3, m3]
  · by_cases h6 : addr = 0x06
    · subst h6
      simp [List.filter, s1, s2, s3, m2]
    · have n16 : ¬ (16 = addr) := fun e => h16 e.symm
      have n6 : ¬ (6 = addr) := fun e => h6 e.symm
      simp [List.filter, s1, s2, s3, h16, h6, n16, n6]

theorem arm_dac_sync_last_written (dac : ad9146) (addr : Nat) :
    ad9146_last_written (arm_dac_sync dac) addr =
      if addr = 0x10 then some 0xCF else if addr = 0x06 then some 0x30
      else ad9146_last_written dac addr := by
  have e : arm_dac_sync dac = ⟨dac.spi_writes ++
      [ad9146_word 0x10 0x48, ad9146_word 0x06 0x30, ad9146_word 0x10 0xCF]⟩ := by
    simp [arm_dac_sync, write_ad9146_reg]
  rw [e, ad9146_last_written_append, arm_words_last_written]
  by_cases h16 : addr = 0x10
  · simp [h16]
  · by_cases h6 : addr = 0x06
    · simp [h6]
    · simp [h16, h6]

/-- C22: for every state of the DAC, one run of `arm_dac_sync` appends
exactly three SPI writes, in order 0x48 to register 0x10, 0x30 to register
0x06, 0xCF to register 0x10 (the function is total: there is no path on which
it raises); after it register 0x10 was last written 0xCF and register 0x06
was last written 0x30, every other register keeps its last-written value;
and for every register the last-written value after two runs in a row is the
one after one run. -/
theorem arm_dac_sync_twice (dac : ad9146) :
    (arm_dac_sync dac).spi_writes = dac.spi_writes ++
        [ad9146_word 0x10 0x48, ad9146_word 0x06 0x30, ad9146_word 0x10 0xCF] ∧
      ad9146_last_written (arm_dac_sync dac) 0x10 = some 0xCF ∧
      ad9146_last_written (arm_dac_sync dac) 0x06 = some 0x30 ∧
      (∀ addr, addr ≠ 0x10 → addr ≠ 0x06 →
        ad9146_last_written (arm_dac_sync dac) addr = ad9146_last_written dac addr) ∧
      (∀ addr, ad9146_last_written (arm_dac_sync (arm_dac_sync dac)) addr =
        ad9146_last_written (arm_dac_sync dac) addr) := by
  refine ⟨arm_dac_sync_writes dac, ?_, ?_, ?_, ?_⟩
  · rw [arm_dac_sync_last_written]; simp
  · rw [arm_dac_sync_last_written]; simp
  · intro addr h16 h6
    rw [arm_dac_sync_last_written]; simp [h16, h6]
  · intro addr
    rw [arm_dac_sync_last_written (arm_dac_sync dac), arm_dac_sync_last_written dac]
    by_cases h16 : addr = 0x10
    · simp [h16]
    · by_cases h6 : addr = 0x06
      · simp [h6]
      · simp [h16, h6]

/-- Witness of `arm_dac_sync_twice`: a DAC whose register 0x03 was written
0x40 keeps that value through the run. -/
theorem arm_dac_sync_twice_witness :
    ad9146_last_written (arm_dac_sync ⟨[ad9146_word 0x03 0x40]⟩) 0x03 =
      ad9146_last_written ⟨[ad9146_word 0x03 0x40]⟩ 0x03 :=
  (arm_dac_sync_twice ⟨[ad9146_word 0x03 0x40]⟩).2.2.2.1 0x03 (by decide) (by decide)

theorem shift_and_three_eq_one (r k : Nat) :
    (r >>> k) &&& 0x3 = 0x1 ↔ r.testBit k = true ∧ r.testBit (k + 1) = false := by
  have e3 : (r >>> k) &&& 0x3 = (r >>> k) % 4 := Nat.and_pow_two_sub_one_eq_mod _ 2
  have b0 : r.testBit k = (r >>> k).testBit 0 := by rw [Nat.testBit_shiftRight]; simp
  have b1 : r.testBit (k + 1) = (r >>> k).testBit 1 := by rw [Nat.testBit_shiftRight]
  rw [e3, b0, b1, Nat.testBit_zero, show (1 : Nat) = Nat.succ 0 from rfl, Nat.testBit_succ,
    Nat.testBit_zero]
  simp only [decide_eq_true_eq, decide_eq_false_iff_not]
  omega

theorem shift_and_one_eq_one (r k : Nat) :
    (r >>> k) &&& 0x1 = 0x1 ↔ r.testBit k = true := by
  have b0 : r.testBit k = (r >>> k).testBit 0 := by rw [Nat.testBit_shiftRight]; simp
  rw [Nat.and_one_is_mod, b0, Nat.testBit_zero]
  simp only [decide_eq_true_eq]

theorem and_bit_ne_zero (r k : Nat) : r &&& (1 <<< k) ≠ 0 ↔ r.testBit k = true := by
  rw [Nat.one_shiftLeft, Nat.and_two_pow]
  cases r.testBit k <;> simp

theorem dac_sync_pattern_iff (p : dac_poll) :
    (((read_ad9146_reg p.first >>> 6) &&& 0x3) = 0x1 ∧
      ((read_ad9146_reg p.second >>> 4) &&& 0x3) = 0x1) ↔ dac_sync_pattern p := by
  unfold dac_sync_pattern
  rw [shift_and_three_eq_one, shift_and_three_eq_one]
  tauto

theorem pll_lock_pattern_iff (p : dac_poll) :
    (((read_ad9146_reg p.first >>> 7) &&& 0x1) = 0x1 ∧
      ((read_ad9146_reg p.second >>> 6) &&& 0x3) = 0x1) ↔ pll_lock_pattern p := by
  unfold pll_lock_pattern
  rw [shift_and_one_eq_one, shift_and_three_eq_one]
  tauto

theorem check_dac_sync_match (p : dac_poll) (rest : List dac_poll) (dac : ad9146)
    (h : dac_sync_pattern p) : check_dac_sync (p :: rest) dac = (.returned (), dac) := by
  have h' := (dac_sync_pattern_iff p).mpr h
  simp only [check_dac_sync]
  rw [if_pos h']

theorem check_dac_sync_expired (p : dac_poll) (rest : List dac_poll) (dac : ad9146)
    (h : ¬ dac_sync_pattern p) (he : p.expired = true) :
    check_dac_sync (p :: rest) dac =
      (.raised (.runtime_error "x300_dac_ctrl: timeout waiting for backend synchronization"),
        dac) := by
  have h' := fun c => h ((dac_sync_pattern_iff p).mp c)
  simp only [check_dac_sync]
  rw [if_neg h', if_pos he]

theorem check_dac_sync_continue (p : dac_poll) (rest : List dac_poll) (dac : ad9146)
    (h : ¬ dac_sync_pattern p) (he : p.expired = false) :
    check_dac_sync (p :: rest) dac =
      check_dac_sync rest ⟨dac.spi_writes ++ dac_sync_poll_writes p⟩ := by
  have h' := fun c => h ((dac_sync_pattern_iff p).mp c)
  simp only [check_dac_sync]
  rw [if_neg h', if_neg (by simp [he])]
  unfold dac_sync_poll_writes
  by_cases h7 : (read_ad9146_reg p.first).testBit 7 = true
  · rw [if_pos ((and_bit_ne_zero _ 7).mpr h7), if_pos h7]
    simp [arm_dac_sync, write_ad9146_reg]
  · rw [if_neg (fun c => h7 ((and_bit_ne_zero _ 7).mp c)), if_neg h7]
    by_cases h5 : (read_ad9146_reg p.second).testBit 5 = true
    · rw [if_pos ((and_bit_ne_zero _ 5).mpr h5), if_pos h5]
      simp [write_ad9146_reg]
    · rw [if_neg (fun c => h5 ((and_bit_ne_zero _ 5).mp c)), if_neg h5]
      simp

theorem check_pll_match (p : dac_poll) (rest : List dac_poll) (dac : ad9146)
    (h : pll_lock_pattern p) : check_pll (p :: rest) dac = (.returned (), dac) := by
  have h' := (pll_lock_pattern_iff p).mpr h
  simp only [check_pll]
  rw [if_pos h']

theorem check_pll_expired (p : dac_poll) (rest : List dac_poll) (dac : ad9146)
    (h : ¬ pll_lock_pattern p) (he : p.expired = true) :
    check_pll (p :: rest) dac =
      (.raised (.runtime_error "x300_dac_ctrl: timeout waiting for DAC PLL to lock"), dac) := by
  have h' := fun c => h ((pll_lock_pattern_iff p).mp c)
  simp only [check_pll]
  rw [if_neg h', if_pos he]

theorem check_pll_continue (p : dac_poll) (rest : List dac_poll) (dac : ad9146)
    (h : ¬ pll_lock_pattern p) (he : p.expired = false) :
    check_pll (p :: rest) dac = check_pll rest ⟨dac.spi_writes ++ pll_poll_writes p⟩ := by
  have h' := fun c => h ((pll_lock_pattern_iff p).mp c)
  simp only [check_pll]
  rw [if_neg h', if_neg (by simp [he])]
  unfold pll_poll_writes
  by_cases h7 : (read_ad9146_reg p.second).testBit 7 = true
  · rw [if_pos ((and_bit_ne_zero _ 7).mpr h7), if_pos h7]
    simp [write_ad9146_reg]
  · rw [if_neg (fun c => h7 ((and_bit_ne_zero _ 7).mp c)), if_neg h7]
    simp

theorem check_dac_sync_run (before : List dac_poll)
    (hbefore : ∀ q ∈ before, ¬ dac_sync_pattern q ∧ q.expired = false) :
    ∀ (tail : List dac_poll) (dac : ad9146), check_dac_sync (before ++ tail) dac =
      check_dac_sync tail ⟨dac.spi_writes ++ (before.map dac_sync_poll_writes).flatten⟩ := by
  induction before with
  | nil => intro tail dac; simp
  | cons q qs ih =>
    intro tail dac
    have hq := hbefore q (List.mem_cons_self _ _)
    have hqs : ∀ x ∈ qs, ¬ dac_sync_pattern x ∧ x.expired = false :=
      fun x hx => hbefore x (List.mem_cons_of_mem _ hx)
    rw [List.cons_append, check_dac_sync_continue q _ dac hq.1 hq.2, ih hqs]
    simp [List.append_assoc]

theorem check_dac_sync_raised (polls : List dac_poll) :
    ∀ (dac : ad9146) (e : uhd_error) (dac' : ad9146),
      check_dac_sync polls dac = (.raised e, dac') →
      e = .runtime_error "x300_dac_ctrl: timeout waiting for backend synchronization" ∧
      ∃ before p after, polls = before ++ p :: after ∧
        (∀ q ∈ before, ¬ dac_sync_pattern q ∧ q.expired = false) ∧
        ¬ dac_sync_pattern p ∧ p.expired = true := by
  induction polls with
  | nil =>
    intro dac e dac' h
    simp [check_dac_sync] at h
  | cons q qs ih =>
    intro dac e dac' h
    by_cases hm : dac_sync_pattern q
    · rw [check_dac_sync_match q qs dac hm] at h
      simp at h
    · by_cases he : q.expired = true
      · rw [check_dac_sync_expired q qs dac hm he] at h
        simp only [Prod.mk.injEq, outcome.raised.injEq] at h
        exact ⟨h.1.symm, [], q, qs, rfl, by simp, hm, he⟩
      · have he' : q.expired = false := by simpa using he
        rw [check_dac_sync_continue q qs dac hm he'] at h
        obtain ⟨h1, before, p, after, e1, e2, e3, e4⟩ := ih _ e dac' h
        refine ⟨h1, q :: before, p, after, by rw [e1]; rfl, ?_, e3, e4⟩
        intro x hx
        rcases List.mem_cons.mp hx with rfl | hx
        · exact ⟨hm, he'⟩
        · exact e2 x hx

theorem check_dac_sync_returns (trace : List dac_poll) :
    ∀ (dac : ad9146), (∀ q ∈ trace, q.expired = false) → (∃ q ∈ trace, dac_sync_pattern q) →
      (check_dac_sync trace dac).1 = .returned () := by
  induction trace with
  | nil =>
    intro dac _ h
    obtain ⟨q, hq, _⟩ := h
    simp at hq
  | cons p ps ih =>
    intro dac hexp hex
    by_cases hm : dac_sync_pattern p
    · rw [check_dac_sync_match p ps dac hm]
    · rw [check_dac_sync_continue p ps dac hm (hexp p (List.mem_cons_self _ _))]
      apply ih _ (fun q hq => hexp q (List.mem_cons_of_mem _ hq))
      obtain ⟨q, hq, hq'⟩ := hex
      rcases List.mem_cons.mp hq with rfl | hq
      · exact absurd hq' hm
      · exact ⟨q, hq, hq'⟩

/-- C23: let the polls in `before` be taken before the deadline and not show
the pattern (bits 7..6 of register 0x12 equal 01 and bits 5..4 of register
0x06 equal 01), and let `p` be the next poll.  If `p` shows the pattern,
`check_dac_sync` returns at `p`.  If `p` does not show it and is taken after
the deadline, `check_dac_sync` raises the backend-synchronization timeout at
`p`.  If `p` does not show it and is taken before the deadline, polling
continues with the next poll, after the three writes of `arm_dac_sync` when
bit 7 of register 0x12 is set, and after at most one write, of 0x30 to
register 0x06, when it is not.  Whenever `check_dac_sync` raises, the error
is that timeout and it is raised at a poll without the pattern taken after
the deadline, all earlier polls being without the pattern and before the
deadline.  After two `arm_dac_sync` calls, on every trace whose polls are all
before the deadline and one of which shows the pattern, `check_dac_sync`
returns. -/
theorem check_dac_sync_polling (before : List dac_poll) (p : dac_poll)
    (after : List dac_poll) (dac : ad9146)
    (hbefore : ∀ q ∈ before, ¬ dac_sync_pattern q ∧ q.expired = false) :
    (dac_sync_pattern p → check_dac_sync (before ++ p :: after) dac =
      (.returned (), ⟨dac.spi_writes ++ (before.map dac_sync_poll_writes).flatten⟩)) ∧
    (¬ dac_sync_pattern p → p.expired = true → check_dac_sync (before ++ p :: after) dac =
      (.raised (.runtime_error "x300_dac_ctrl: timeout waiting for backend synchronization"),
        ⟨dac.spi_writes ++ (before.map dac_sync_poll_writes).flatten⟩)) ∧
    (¬ dac_sync_pattern p → p.expired = false →
      (read_ad9146_reg p.first).testBit 7 = true →
      check_dac_sync (before ++ p :: after) dac = check_dac_sync after
        (arm_dac_sync ⟨dac.spi_writes ++ (before.map dac_sync_poll_writes).flatten⟩)) ∧
    (¬ dac_sync_pattern p → p.expired = false →
      (read_ad9146_reg p.first).testBit 7 = false →
      ∃ ws, check_dac_sync (before ++ p :: after) dac = check_dac_sync after
          ⟨dac.spi_writes ++ (before.map dac_sync_poll_writes).flatten ++ ws⟩ ∧
        ws.length ≤ 1 ∧ ∀ w ∈ ws, w = ad9146_word 0x06 0x30) ∧
    (∀ polls e dac', check_dac_sync polls dac = (.raised e, dac') →
      e = .runtime_error "x300_dac_ctrl: timeout waiting for backend synchronization" ∧
      ∃ before' p' after', polls = before' ++ p' :: after' ∧
        (∀ q ∈ before', ¬ dac_sync_pattern q ∧ q.expired = false) ∧
        ¬ dac_sync_pattern p' ∧ p'.expired = true) ∧
    (∀ trace, (∀ q ∈ trace, q.expired = false) → (∃ q ∈ trace, dac_sync_pattern q) →
      (check_dac_sync trace (arm_dac_sync (arm_dac_sync dac))).1 = .returned ()) := by
  refine ⟨?_, ?_, ?_, ?_, ?_, ?_⟩
  · intro hm
    rw [check_dac_sync_run before hbefore, check_dac_sync_match p after _ hm]
  · intro hm he
    rw [check_dac_sync_run before hbefore, check_dac_sync_expired p after _ hm he]
  · intro hm he h7
    rw [check_dac_sync_run before hbefore, check_dac_sync_continue p after _ hm he]
    congr 1
    simp [dac_sync_poll_writes, h7, arm_dac_sync, write_ad9146_reg]
  · intro hm he h7
    refine ⟨dac_sync_poll_writes p, ?_, ?_, ?_⟩
    · rw [check_dac_sync_run before hbefore, check_dac_sync_continue p after _ hm he]
    · unfold dac_sync_poll_writes
      rw [if_neg (by simp [h7])]
      split <;> simp
    · unfold dac_sync_poll_writes
      rw [if_neg (by simp [h7])]
      split <;> simp
  · intro polls e dac' h
    exact check_dac_sync_raised polls dac e dac' h
  · intro trace h1 h2
    exact check_dac_sync_returns trace _ h1 h2

/-- Witness of `check_dac_sync_polling`: a poll with bit 7 of register 0x12
set, a poll with bit 5 of register 0x06 set, then a poll with the pattern; the
call returns after the three writes of the re-arm and the write of 0x30 to
register 0x06. -/
theorem check_dac_sync_polling_witness :
    (∀ q ∈ unsynced_polls, ¬ dac_sync_pattern q ∧ q.expired = false) ∧
    dac_sync_pattern synced_poll ∧
    check_dac_sync (unsynced_polls ++ synced_poll :: []) ⟨[]⟩ =
      (.returned (), ⟨[] ++ (unsynced_polls.map dac_sync_poll_writes).flatten⟩) ∧
    (unsynced_polls.map dac_sync_poll_writes).flatten =
      [ad9146_word 0x10 0x48, ad9146_word 0x06 0x30, ad9146_word 0x10 0xCF,
        ad9146_word 0x06 0x30] :=
  ⟨by decide, by decide,
    (check_dac_sync_polling unsynced_polls synced_poll [] ⟨[]⟩ (by decide)).1 (by decide),
    by decide⟩

theorem check_pll_run (before : List dac_poll)
    (hbefore : ∀ q ∈ before, ¬ pll_lock_pattern q ∧ q.expired = false) :
    ∀ (tail : List dac_poll) (dac : ad9146), check_pll (before ++ tail) dac =
      check_pll tail ⟨dac.spi_writes ++ (before.map pll_poll_writes).flatten⟩ := by
  induction before with
  | nil => intro tail dac; simp
  | cons q qs ih =>
    intro tail dac
    have hq := hbefore q (List.mem_cons_self _ _)
    have hqs : ∀ x ∈ qs, ¬ pll_lock_pattern x ∧ x.expired = false :=
      fun x hx => hbefore x (List.mem_cons_of_mem _ hx)
    rw [List.cons_append, check_pll_continue q _ dac hq.1 hq.2, ih hqs]
    simp [List.append_assoc]

theorem check_pll_raised (polls : List dac_poll) :
    ∀ (dac : ad9146) (e : uhd_error) (dac' : ad9146),
      check_pll polls dac = (.raised e, dac') →
      e = .runtime_error "x300_dac_ctrl: timeout waiting for DAC PLL to lock" ∧
      ∃ before p after, polls = before ++ p :: after ∧
        (∀ q ∈ before, ¬ pll_lock_pattern q ∧ q.expired = false) ∧
        ¬ pll_lock_pattern p ∧ p.expired = true := by
  induction polls with
  | nil =>
    intro dac e dac' h
    simp [check_pll] at h
  | cons q qs ih =>
    intro dac e dac' h
    by_cases hm : pll_lock_pattern q
    · rw [check_pll_match q qs dac hm] at h
      simp at h
    · by_cases he : q.expired = true
      · rw [check_pll_expired q qs dac hm he] at h
        simp only [Prod.mk.injEq, outcome.raised.injEq] at h
        exact ⟨h.1.symm, [], q, qs, rfl, by simp, hm, he⟩
      · have he' : q.expired = false := by simpa using he
        rw [check_pll_continue q qs dac hm he'] at h
        obtain ⟨h1, before, p, after, e1, e2, e3, e4⟩ := ih _ e dac' h
        refine ⟨h1, q :: before, p, after, by rw [e1]; rfl, ?_, e3, e4⟩
        intro x hx
        rcases List.mem_cons.mp hx with rfl | hx
        · exact ⟨hm, he'⟩
        · exact e2 x hx

/-- C24: let the polls in `before` be taken before the deadline and not show
the pattern (bit 7 of register 0x0E is 1 and bits 7..6 of register 0x06 equal
01), and let `p` be the next poll.  If `p` shows the pattern, `check_pll`
returns at `p`, and the SPI writes made are those of the earlier polls: no
register is written at `p`.  If `p` does not show it, is taken before the
deadline and has bit 7 of register 0x06 set, `check_pll` writes 0xC0 to
register 0x06 and continues with the next poll; with bit 7 clear it continues
without a write.  If `p` does not show the pattern and is taken after the
deadline, `check_pll` raises the PLL-lock timeout.  Whenever `check_pll`
raises, the error is that timeout and it is raised at a poll without the
pattern taken after the deadline, all earlier polls being without the pattern
and before the deadline. -/
theorem check_pll_polling (before : List dac_poll) (p : dac_poll)
    (after : List dac_poll) (dac : ad9146)
    (hbefore : ∀ q ∈ before, ¬ pll_lock_pattern q ∧ q.expired = false) :
    (pll_lock_pattern p → check_pll (before ++ p :: after) dac =
      (.returned (), ⟨dac.spi_writes ++ (before.map pll_poll_writes).flatten⟩)) ∧
    (pll_lock_pattern p → check_pll (p :: after) dac = (.returned (), dac)) ∧
    (¬ pll_lock_pattern p → p.expired = false →
      (read_ad9146_reg p.second).testBit 7 = true →
      check_pll (before ++ p :: after) dac = check_pll after
        (write_ad9146_reg ⟨dac.spi_writes ++ (before.map pll_poll_writes).flatten⟩ 0x06 0xC0)) ∧
    (¬ pll_lock_pattern p → p.expired = false →
      (read_ad9146_reg p.second).testBit 7 = false →
      check_pll (before ++ p :: after) dac = check_pll after
        ⟨dac.spi_writes ++ (before.map pll_poll_writes).flatten⟩) ∧
    (¬ pll_lock_pattern p → p.expired = true → check_pll (before ++ p :: after) dac =
      (.raised (.runtime_error "x300_dac_ctrl: timeout waiting for DAC PLL to lock"),
        ⟨dac.spi_writes ++ (before.map pll_poll_writes).flatten⟩)) ∧
    (∀ polls e dac', check_pll polls dac = (.raised e, dac') →
      e = .runtime_error "x300_dac_ctrl: timeout waiting for DAC PLL to lock" ∧
      ∃ before' p' after', polls = before' ++ p' :: after' ∧
        (∀ q ∈ before', ¬ pll_lock_pattern q ∧ q.expired = false) ∧
        ¬ pll_lock_pattern p' ∧ p'.expired = true) := by
  refine ⟨?_, ?_, ?_, ?_, ?_, ?_⟩
  · intro hm
    rw [check_pll_run before hbefore, check_pll_match p after _ hm]
  · intro hm
    exact check_pll_match p after dac hm
  · intro hm he h7
    rw [check_pll_run before hbefore, check_pll_continue p after _ hm he]
    congr 1
    simp [pll_poll_writes, h7, write_ad9146_reg]
  · intro hm he h7
    rw [check_pll_run before hbefore, check_pll_continue p after _ hm he]
    congr 1
    simp [pll_poll_writes, h7]
  · intro hm he
    rw [check_pll_run before hbefore, check_pll_expired p after _ hm he]
  · intro polls e dac' h
    exact check_pll_raised polls dac e dac' h

/-- Witness of `check_pll_polling`: a poll with bit 7 of register 0x06 set, a
poll with no bit set, then a poll with the pattern; the call returns after
the one write of 0xC0 to register 0x06 caused by the first poll. -/
theorem check_pll_polling_witness :
    (∀ q ∈ unlocked_polls, ¬ pll_lock_pattern q ∧ q.expired = false) ∧
    pll_lock_pattern locked_poll ∧
    check_pll (unlocked_polls ++ locked_poll :: []) ⟨[]⟩ =
      (.returned (), ⟨[] ++ (unlocked_polls.map pll_poll_writes).flatten⟩) ∧
    (unlocked_polls.map pll_poll_writes).flatten = [ad9146_word 0x06 0xC0] :=
  ⟨by decide, by decide,
    (check_pll_polling unlocked_polls locked_poll [] ⟨[]⟩ (by decide)).1 (by decide),
    by decide⟩

/-! ## PPS detection -/

theorem is_pps_present_loop_true (K : x300_defs) (clk_status : Nat → Nat) (pps_detect : Nat) :
    ∀ (remaining i : Nat),
      (is_pps_present_loop K clk_status pps_detect remaining i).1 = true ↔
        ∃ j, i < j ∧ j ≤ i + remaining ∧
          u32 (clk_status j) &&& K.ZPU_RB_CLK_STATUS_PPS_DETECT ≠ pps_detect := by
  intro remaining
  induction remaining with
  | zero =>
    intro i
    simp only [is_pps_present_loop]
    constructor
    · intro h; simp at h
    · rintro ⟨j, h1, h2, _⟩; omega
  | succ r ih =>
    intro i
    simp only [is_pps_present_loop]
    by_cases hd : pps_detect ≠ u32 (clk_status (i + 1)) &&& K.ZPU_RB_CLK_STATUS_PPS_DETECT
    · rw [if_pos hd]
      simp only [true_iff]
      exact ⟨i + 1, by omega, by omega, fun e => hd e.symm⟩
    · rw [if_neg hd, ih (i + 1)]
      have hd' : u32 (clk_status (i + 1)) &&& K.ZPU_RB_CLK_STATUS_PPS_DETECT = pps_detect := by
        by_contra c
        exact hd (fun e => c e.symm)
      constructor
      · rintro ⟨j, h1, h2, h3⟩
        exact ⟨j, by omega, by omega, h3⟩
      · rintro ⟨j, h1, h2, h3⟩
        have hj : j ≠ i + 1 := by
          rintro rfl
          exact h3 hd'
        exact ⟨j, by omega, by omega, h3⟩

theorem is_pps_present_loop_reads_first (K : x300_defs) (clk_status : Nat → Nat)
    (pps_detect : Nat) :
    ∀ (remaining i j : Nat), i < j → j ≤ i + remaining →
      u32 (clk_status j) &&& K.ZPU_RB_CLK_STATUS_PPS_DETECT ≠ pps_detect →
      (∀ k, i < k → k < j →
        u32 (clk_status k) &&& K.ZPU_RB_CLK_STATUS_PPS_DETECT = pps_detect) →
      is_pps_present_loop K clk_status pps_detect remaining i = (true, j + 1) := by
  intro remaining
  induction remaining with
  | zero =>
    intro i j h1 h2
    omega
  | succ r ih =>
    intro i j h1 h2 h3 h4
    simp only [is_pps_present_loop]
    by_cases hj : j = i + 1
    · subst hj
      rw [if_pos (fun e => h3 e.symm)]
    · have hk := h4 (i + 1) (by omega) (by omega)
      rw [if_neg (by simp [hk])]
      exact ih (i + 1) j (by omega) (by omega) h3 (fun k a b => h4 k (by omega) b)

theorem is_pps_present_loop_reads_none (K : x300_defs) (clk_status : Nat → Nat)
    (pps_detect : Nat) :
    ∀ (remaining i : Nat),
      (∀ k, i < k → k ≤ i + remaining →
        u32 (clk_status k) &&& K.ZPU_RB_CLK_STATUS_PPS_DETECT = pps_detect) →
      is_pps_present_loop K clk_status pps_detect remaining i = (false, i + remaining + 1) := by
  intro remaining
  induction remaining with
  | zero =>
    intro i _
    simp [is_pps_present_loop]
  | succ r ih =>
    intro i h
    simp only [is_pps_present_loop]
    have hk := h (i + 1) (by omega) (by omega)
    rw [if_neg (by simp [hk]), ih (i + 1) (fun k a b => h k (by omega) (by omega))]
    simp only [Prod.mk.injEq, true_and]
    omega

/-- C25: `is_pps_present` reads the clock-status register once and then at
most 15 more times (16 reads at most).  It returns true if and only if one of
the reads 1..15 has a PPS-detect bit different from that of read 0, and then
it has made exactly the reads up to the first such read; it returns false if
and only if the reads 1..15 all have the PPS-detect bit of read 0, and then
it has made all 16 reads.  The register interface is left as it was: no
register is written. -/
theorem is_pps_present_spec (K : x300_defs) (clk_status : Nat → Nat) (ctrl : wb_iface) :
    ((is_pps_present K clk_status ctrl).1 = true ↔
      ∃ j, 1 ≤ j ∧ j ≤ 15 ∧ u32 (clk_status j) &&& K.ZPU_RB_CLK_STATUS_PPS_DETECT ≠
        u32 (clk_status 0) &&& K.ZPU_RB_CLK_STATUS_PPS_DETECT) ∧
    ((is_pps_present K clk_status ctrl).1 = false ↔
      ∀ j, 1 ≤ j → j ≤ 15 → u32 (clk_status j) &&& K.ZPU_RB_CLK_STATUS_PPS_DETECT =
        u32 (clk_status 0) &&& K.ZPU_RB_CLK_STATUS_PPS_DETECT) ∧
    (∀ j, 1 ≤ j → j ≤ 15 →
      u32 (clk_status j) &&& K.ZPU_RB_CLK_STATUS_PPS_DETECT ≠
        u32 (clk_status 0) &&& K.ZPU_RB_CLK_STATUS_PPS_DETECT →
      (∀ k, 1 ≤ k → k < j → u32 (clk_status k) &&& K.ZPU_RB_CLK_STATUS_PPS_DETECT =
        u32 (clk_status 0) &&& K.ZPU_RB_CLK_STATUS_PPS_DETECT) →
      (is_pps_present K clk_status ctrl).1 = true ∧
        (is_pps_present K clk_status ctrl).2.1 = j + 1) ∧
    ((is_pps_present K clk_status ctrl).1 = false →
      (is_pps_present K clk_status ctrl).2.1 = 16) ∧
    (is_pps_present K clk_status ctrl).2.1 ≤ 16 ∧
    (is_pps_present K clk_status ctrl).2.2 = ctrl := by
  have htrue := is_pps_present_loop_true K clk_status
    (u32 (clk_status 0) &&& K.ZPU_RB_CLK_STATUS_PPS_DETECT) 15 0
  have hiff : (is_pps_present K clk_status ctrl).1 = true ↔
      ∃ j, 1 ≤ j ∧ j ≤ 15 ∧ u32 (clk_status j) &&& K.ZPU_RB_CLK_STATUS_PPS_DETECT ≠
        u32 (clk_status 0) &&& K.ZPU_RB_CLK_STATUS_PPS_DETECT := by
    show (is_pps_present_loop K clk_status _ 15 0).1 = true ↔ _
    rw [htrue]
    constructor
    · rintro ⟨j, h1, h2, h3⟩
      exact ⟨j, by omega, by omega, h3⟩
    · rintro ⟨j, h1, h2, h3⟩
      exact ⟨j, by omega, by omega, h3⟩
  have hfalse : (is_pps_present K clk_status ctrl).1 = false ↔
      ∀ j, 1 ≤ j → j ≤ 15 → u32 (clk_status j) &&& K.ZPU_RB_CLK_STATUS_PPS_DETECT =
        u32 (clk_status 0) &&& K.ZPU_RB_CLK_STATUS_PPS_DETECT := by
    rw [← Bool.not_eq_true, hiff]
    constructor
    · intro h j h1 h2
      by_contra c
      exact h ⟨j, h1, h2, c⟩
    · rintro h ⟨j, h1, h2, h3⟩
      exact h3 (h j h1 h2)
  have hnone : (is_pps_present K clk_status ctrl).1 = false →
      (is_pps_present K clk_status ctrl).2.1 = 16 := by
    intro h
    have hall := hfalse.mp h
    show (is_pps_present_loop K clk_status _ 15 0).2 = 16
    rw [is_pps_present_loop_reads_none K clk_status _ 15 0
      (fun k a b => hall k (by omega) (by omega))]
  have hfirst : ∀ j, 1 ≤ j → j ≤ 15 →
      u32 (clk_status j) &&& K.ZPU_RB_CLK_STATUS_PPS_DETECT ≠
        u32 (clk_status 0) &&& K.ZPU_RB_CLK_STATUS_PPS_DETECT →
      (∀ k, 1 ≤ k → k < j → u32 (clk_status k) &&& K.ZPU_RB_CLK_STATUS_PPS_DETECT =
        u32 (clk_status 0) &&& K.ZPU_RB_CLK_STATUS_PPS_DETECT) →
      (is_pps_present K clk_status ctrl).1 = true ∧
        (is_pps_present K clk_status ctrl).2.1 = j + 1 := by
    intro j h1 h2 h3 h4
    have e := is_pps_present_loop_reads_first K clk_status _ 15 0 j (by omega) (by omega) h3
      (fun k a b => h4 k (by omega) b)
    constructor
    · show (is_pps_present_loop K clk_status _ 15 0).1 = true
      rw [e]
    · show (is_pps_present_loop K clk_status _ 15 0).2 = j + 1
      rw [e]
  refine ⟨hiff, hfalse, hfirst, hnone, ?_, rfl⟩
  cases hb : (is_pps_present K clk_status ctrl).1
  · rw [hnone hb]
  · obtain ⟨j, h1, h2, h3⟩ := hiff.mp hb
    have hex : ∃ j, (1 ≤ j ∧ j ≤ 15 ∧
        u32 (clk_status j) &&& K.ZPU_RB_CLK_STATUS_PPS_DETECT ≠
          u32 (clk_status 0) &&& K.ZPU_RB_CLK_STATUS_PPS_DETECT) := ⟨j, h1, h2, h3⟩
    classical
    have hmin := Nat.find_spec hex
    have hlt := fun k (hk : k < Nat.find hex) => Nat.find_min hex hk
    have r := hfirst (Nat.find hex) hmin.1 hmin.2.1 hmin.2.2 (by
      intro k k1 k2
      by_contra c
      exact hlt k k2 ⟨k1, by omega, c⟩)
    rw [r.2]
    omega

/-- Witness of `is_pps_present_spec`: the PPS-detect bit first differs at read
3, so the call returns true after four reads. -/
theorem is_pps_present_spec_witness :
    (is_pps_present sample_defs pps_after_three zero_iface).1 = true ∧
      (is_pps_present sample_defs pps_after_three zero_iface).2.1 = 3 + 1 :=
  (is_pps_present_spec sample_defs pps_after_three zero_iface).2.2.1 3 (by decide) (by decide)
    (by decide) (by decide)

/-! ## Transports -/

theorem allocate_sid_xport_path (K : x300_defs) (s : sid_state) (config : sid_config_t) :
    (allocate_sid K s config).2.xport_path = s.xport_path := rfl

theorem eth_data_rec_frame_size_events (K : x300_defs) (image : String) (here : Nat) :
    ∀ e ∈ (eth_data_rec_frame_size K image here).2,
      e = .link_max_rate_1gige ∨ e = .link_max_rate_10gige := by
  intro e he
  unfold eth_data_rec_frame_size at he
  split_ifs at he <;> simp at he <;> simp [he]

/-- C26: when `make_transport` returns on the network path, the Stream-ID it
stores is the one `allocate_sid` returned, and its events end with, in this
order: the creation of the UDP channel to the motherboard address on
`X300_VITA_UDP_PORT`; the commit of one packet of 8 bytes whose first 32-bit
word is 0 and whose second is `htonx(sid)`; the write of `X300_VITA_UDP_PORT`
to register `ZPU_SR_ETHINT0+8+3`; the same write to register
`ZPU_SR_ETHINT1+8+3`; one read of register 0.  The events before the creation
of the channel are the call of `allocate_sid`, the update of `link_max_rate`
and the warnings: no packet and no register access of `make_transport` itself
comes before the channel is open.  The write log of the register interface
is the one `allocate_sid` left followed by the two port writes, so no write
follows the read. -/
theorem make_transport_handshake (K : x300_defs) (mb : transport_mboard)
    (destination prefix_ sid : Nat) (hpath : mb.sid.xport_path = "eth")
    (hret : (make_transport K mb destination prefix_).1 = .returned sid) :
    sid = (allocate_sid K mb.sid
      ⟨K.X300_DEVICE_THERE, prefix_, destination, mb.router_dst_here⟩).1 ∧
    (∃ pre params, (make_transport K mb destination prefix_).2.2 = pre ++
        [.udp_zero_copy_make mb.addr K.X300_VITA_UDP_PORT params,
          .commit 0 (K.htonx sid) 8,
          .poke32 (K.SR_ADDR K.SET0_BASE (K.ZPU_SR_ETHINT0 + 8 + 3)) (u32 K.X300_VITA_UDP_PORT),
          .poke32 (K.SR_ADDR K.SET0_BASE (K.ZPU_SR_ETHINT1 + 8 + 3)) (u32 K.X300_VITA_UDP_PORT),
          .peek32 0] ∧
      ∀ e ∈ pre, e = .allocate_sid sid ∨ e = .link_max_rate_1gige ∨
        e = .link_max_rate_10gige ∨ (∃ r a, e = .send_frame_size_warning r a) ∨
        (∃ r a, e = .recv_frame_size_warning r a)) ∧
    (make_transport K mb destination prefix_).2.1.sid.zpu_ctrl.pokes =
      (allocate_sid K mb.sid
        ⟨K.X300_DEVICE_THERE, prefix_, destination, mb.router_dst_here⟩).2.zpu_ctrl.pokes ++
        [(K.SR_ADDR K.SET0_BASE (K.ZPU_SR_ETHINT0 + 8 + 3), u32 K.X300_VITA_UDP_PORT),
          (K.SR_ADDR K.SET0_BASE (K.ZPU_SR_ETHINT1 + 8 + 3), u32 K.X300_VITA_UDP_PORT)] := by
  have hn : ¬ (mb.sid.xport_path = "nirio") := by rw [hpath]; decide
  by_cases h0 : (eth_data_rec_frame_size K mb.loaded_fpga_image mb.router_dst_here).1 = 0
  · simp [make_transport, allocate_sid_xport_path, hn, hpath, h0] at hret
  · simp only [make_transport, allocate_sid_xport_path, if_neg hn, if_pos hpath, if_neg h0,
      outcome.returned.injEq] at hret ⊢
    subst hret
    refine ⟨rfl, ⟨_, _, rfl, ?_⟩, ?_⟩
    · intro e he
      have hrec := eth_data_rec_frame_size_events K mb.loaded_fpga_image mb.router_dst_here
      have hrec' := hrec e
      have hs : e = .send_frame_size_warning
          (eth_data_rec_frame_size K mb.loaded_fpga_image mb.router_dst_here).1
          mb._max_frame_sizes.send_frame_size → ∃ r a, e = .send_frame_size_warning r a :=
        fun h => ⟨_, _, h⟩
      have hr : e = .recv_frame_size_warning
          (eth_data_rec_frame_size K mb.loaded_fpga_image mb.router_dst_here).1
          mb._max_frame_sizes.recv_frame_size → ∃ r a, e = .recv_frame_size_warning r a :=
        fun h => ⟨_, _, h⟩
      generalize (∃ r a, e = xport_event.send_frame_size_warning r a) = S at hs ⊢
      generalize (∃ r a, e = xport_event.recv_frame_size_warning r a) = R at hr ⊢
      split_ifs at he <;>
        simp only [List.mem_append, List.mem_singleton, List.mem_cons, List.not_mem_nil,
          or_false] at he <;>
        tauto
    · simp [wb_iface.poke32]

/-- Witness of `make_transport_handshake`: the control transport of radio 0
on a fresh session of an "XGS" motherboard; the Stream-ID is `0x209`. -/
theorem make_transport_handshake_witness :
    (make_transport sample_defs xgs_mboard 2 1).1 = .returned 0x209 ∧
    (make_transport sample_defs xgs_mboard 2 1).2.1.sid.zpu_ctrl.pokes =
      (allocate_sid sample_defs xgs_mboard.sid
        ⟨sample_defs.X300_DEVICE_THERE, 1, 2, xgs_mboard.router_dst_here⟩).2.zpu_ctrl.pokes ++
        [(sample_defs.SR_ADDR sample_defs.SET0_BASE (sample_defs.ZPU_SR_ETHINT0 + 8 + 3),
            u32 sample_defs.X300_VITA_UDP_PORT),
          (sample_defs.SR_ADDR sample_defs.SET0_BASE (sample_defs.ZPU_SR_ETHINT1 + 8 + 3),
            u32 sample_defs.X300_VITA_UDP_PORT)] :=
  ⟨by decide,
    (make_transport_handshake sample_defs xgs_mboard 2 1 0x209 (by decide) (by decide)).2.2⟩

theorem eth_data_rec_frame_size_eq_zero (K : x300_defs) (image : String) (here : Nat)
    (h1 : K.X300_1GE_DATA_FRAME_MAX_SIZE ≠ 0) (h10 : K.X300_10GE_DATA_FRAME_MAX_SIZE ≠ 0) :
    (eth_data_rec_frame_size K image here).1 = 0 ↔
      ¬ (image = "XGS" ∨
        (image = "HGS" ∧ (here = K.X300_XB_DST_E0 ∨ here = K.X300_XB_DST_E1))) := by
  unfold eth_data_rec_frame_size
  by_cases hH : image = "HGS"
  · subst hH
    have hx : ¬ ("HGS" = "XGS") := by decide
    by_cases e0 : here = K.X300_XB_DST_E0
    · simp [e0, h1]
    · by_cases e1 : here = K.X300_XB_DST_E1
      · rw [if_pos rfl, if_neg e0, if_pos e1]
        simp [e1, h10]
      · simp [e0, e1, hx]
  · by_cases hX : image = "XGS"
    · simp [hH, hX, h10]
    · simp [hH, hX]

theorem make_transport_eth_raised (K : x300_defs) (mb : transport_mboard)
    (destination prefix_ : Nat) (hpath : mb.sid.xport_path = "eth")
    (h0 : (eth_data_rec_frame_size K mb.loaded_fpga_image mb.router_dst_here).1 = 0) :
    make_transport K mb destination prefix_ =
      (.raised (.runtime_error "Unable to determine ETH link type."),
        { mb with sid := (allocate_sid K mb.sid
          ⟨K.X300_DEVICE_THERE, prefix_, destination, mb.router_dst_here⟩).2 },
        [.allocate_sid (allocate_sid K mb.sid
          ⟨K.X300_DEVICE_THERE, prefix_, destination, mb.router_dst_here⟩).1] ++
          (eth_data_rec_frame_size K mb.loaded_fpga_image mb.router_dst_here).2) := by
  have hn : ¬ (mb.sid.xport_path = "nirio") := by rw [hpath]; decide
  simp only [make_transport, allocate_sid_xport_path, if_neg hn, if_pos hpath, if_pos h0]

theorem make_transport_eth_not_raised (K : x300_defs) (mb : transport_mboard)
    (destination prefix_ : Nat) (hpath : mb.sid.xport_path = "eth")
    (h0 : (eth_data_rec_frame_size K mb.loaded_fpga_image mb.router_dst_here).1 ≠ 0) :
    (make_transport K mb destination prefix_).1 = .returned (allocate_sid K mb.sid
      ⟨K.X300_DEVICE_THERE, prefix_, destination, mb.router_dst_here⟩).1 := by
  have hn : ¬ (mb.sid.xport_path = "nirio") := by rw [hpath]; decide
  simp only [make_transport, allocate_sid_xport_path, if_neg hn, if_pos hpath, if_neg h0]

theorem get_fpga_option_one_gig (K : x300_defs) (zpu_ctrl : wb_iface) :
    get_fpga_option K zpu_ctrl = "1G" ↔
      zpu_ctrl.peek32 (K.SR_ADDR K.SET0_BASE K.ZPU_RB_ETH_TYPE1) ≠ 0x1 := by
  unfold get_fpga_option
  have hx : ¬ ("XGS" = "1G") := by decide
  have hh : ¬ ("HGS" = "1G") := by decide
  by_cases e1 : zpu_ctrl.peek32 (K.SR_ADDR K.SET0_BASE K.ZPU_RB_ETH_TYPE1) = 0x1
  · by_cases e0 : zpu_ctrl.peek32 (K.SR_ADDR K.SET0_BASE K.ZPU_RB_ETH_TYPE0) = 0x1
    · simp [e0, e1, hx]
    · simp [e0, e1, hh]
  · simp [e1]

/-- C29: on the network path, with `X300_1GE_DATA_FRAME_MAX_SIZE` and
`X300_10GE_DATA_FRAME_MAX_SIZE` different from 0, `make_transport` raises
"Unable to determine ETH link type." if and only if the image tag is not
"XGS" and is not "HGS" together with `router_dst_here` equal to
`X300_XB_DST_E0` or `X300_XB_DST_E1`; otherwise it returns.
`get_fpga_option` returns "1G" exactly when the type register of Ethernet
port 1 does not read 1, and with the tag "1G" every call raises.  When the
call raises, `allocate_sid` has already run: the session is left with the
counter incremented and the three routing writes appended to the write
log. -/
theorem make_transport_link_type (K : x300_defs) (mb : transport_mboard)
    (destination prefix_ : Nat) (hpath : mb.sid.xport_path = "eth")
    (h1 : K.X300_1GE_DATA_FRAME_MAX_SIZE ≠ 0) (h10 : K.X300_10GE_DATA_FRAME_MAX_SIZE ≠ 0) :
    ((make_transport K mb destination prefix_).1 =
        .raised (.runtime_error "Unable to determine ETH link type.") ↔
      ¬ (mb.loaded_fpga_image = "XGS" ∨ (mb.loaded_fpga_image = "HGS" ∧
        (mb.router_dst_here = K.X300_XB_DST_E0 ∨ mb.router_dst_here = K.X300_XB_DST_E1)))) ∧
    ((mb.loaded_fpga_image = "XGS" ∨ (mb.loaded_fpga_image = "HGS" ∧
        (mb.router_dst_here = K.X300_XB_DST_E0 ∨ mb.router_dst_here = K.X300_XB_DST_E1))) →
      ∃ sid, (make_transport K mb destination prefix_).1 = .returned sid) ∧
    (∀ zpu_ctrl, get_fpga_option K zpu_ctrl = "1G" ↔
      zpu_ctrl.peek32 (K.SR_ADDR K.SET0_BASE K.ZPU_RB_ETH_TYPE1) ≠ 0x1) ∧
    (mb.loaded_fpga_image = "1G" → (make_transport K mb destination prefix_).1 =
      .raised (.runtime_error "Unable to determine ETH link type.")) ∧
    ((make_transport K mb destination prefix_).1 =
        .raised (.runtime_error "Unable to determine ETH link type.") →
      (make_transport K mb destination prefix_).2.1.sid._sid_framer =
        (mb.sid._sid_framer + 1) % 2 ^ K.sid_framer_bits ∧
      (make_transport K mb destination prefix_).2.1.sid.zpu_ctrl.pokes =
        mb.sid.zpu_ctrl.pokes ++
          [(K.SR_ADDR K.SET0_BASE K.ZPU_SR_XB_LOCAL, u32 K.X300_DEVICE_THERE),
            (K.SR_ADDR K.SETXB_BASE (256 + sid_stream
              ⟨K.X300_DEVICE_THERE, prefix_, destination, mb.router_dst_here⟩), u32 destination),
            (K.SR_ADDR K.SETXB_BASE (0 + K.X300_DEVICE_HERE), u32 mb.router_dst_here)] ∧
      (make_transport K mb destination prefix_).2.2 = [.allocate_sid (allocate_sid K mb.sid
        ⟨K.X300_DEVICE_THERE, prefix_, destination, mb.router_dst_here⟩).1]) := by
  have hz := eth_data_rec_frame_size_eq_zero K mb.loaded_fpga_image mb.router_dst_here h1 h10
  have hiff : (make_transport K mb destination prefix_).1 =
        .raised (.runtime_error "Unable to determine ETH link type.") ↔
      (eth_data_rec_frame_size K mb.loaded_fpga_image mb.router_dst_here).1 = 0 := by
    constructor
    · intro h
      by_contra c
      rw [make_transport_eth_not_raised K mb destination prefix_ hpath c] at h
      simp at h
    · intro h
      rw [make_transport_eth_raised K mb destination prefix_ hpath h]
  refine ⟨hiff.trans hz, ?_, get_fpga_option_one_gig K, ?_, ?_⟩
  · intro h
    have c : (eth_data_rec_frame_size K mb.loaded_fpga_image mb.router_dst_here).1 ≠ 0 :=
      fun c => hz.mp c h
    exact ⟨_, make_transport_eth_not_raised K mb destination prefix_ hpath c⟩
  · intro h
    apply hiff.mpr
    apply hz.mpr
    rw [h]
    have hx : ¬ ("1G" = "XGS") := by decide
    have hh : ¬ ("1G" = "HGS") := by decide
    simp [hx, hh]
  · intro h
    have c := hiff.mp h
    rw [make_transport_eth_raised K mb destination prefix_ hpath c]
    refine ⟨rfl, ?_, ?_⟩
    · simp [allocate_sid, wb_iface.poke32]
    · have e : (eth_data_rec_frame_size K mb.loaded_fpga_image mb.router_dst_here).2 = [] := by
        have hneg := hz.mp c
        unfold eth_data_rec_frame_size
        by_cases hH : mb.loaded_fpga_image = "HGS"
        · by_cases e0 : mb.router_dst_here = K.X300_XB_DST_E0
          · exact absurd (Or.inr ⟨hH, Or.inl e0⟩) hneg
          · by_cases e1 : mb.router_dst_here = K.X300_XB_DST_E1
            · exact absurd (Or.inr ⟨hH, Or.inr e1⟩) hneg
            · simp [hH, e0, e1]
        · by_cases hX : mb.loaded_fpga_image = "XGS"
          · exact absurd (Or.inl hX) hneg
          · simp [hH, hX]
      simp [e]

/-- Witness of `make_transport_link_type`: with the tag "1G" the call raises
and leaves the counter of the fresh session incremented. -/
theorem make_transport_link_type_witness :
    (make_transport sample_defs one_gig_mboard 2 1).1 =
      .raised (.runtime_error "Unable to determine ETH link type.") ∧
    (make_transport sample_defs one_gig_mboard 2 1).2.1.sid._sid_framer =
      (one_gig_mboard.sid._sid_framer + 1) % 2 ^ sample_defs.sid_framer_bits :=
  ⟨(make_transport_link_type sample_defs one_gig_mboard 2 1 (by decide) (by decide)
      (by decide)).2.2.2.1 (by decide),
    ((make_transport_link_type sample_defs one_gig_mboard 2 1 (by decide) (by decide)
      (by decide)).2.2.2.2 (by decide)).1⟩

/-! ## The PCIe router word and the outbound rows -/

theorem get_pcie_dma_channel_eq (K : x300_defs) (destination prefix_ : Nat)
    (hp : prefix_ < 256) :
    get_pcie_dma_channel K destination prefix_ =
      3 * (if destination = K.X300_XB_DST_R0 then 0 else 1) + prefix_ := by
  unfold get_pcie_dma_channel u32
  by_cases h : destination = K.X300_XB_DST_R0
  · simp only [if_pos h]
    omega
  · simp only [if_neg h]
    omega

theorem router_word_eq (framer c : Nat) (hc : c < 2 ^ 16) :
    u32 (((framer &&& 0xff) <<< 16) ||| c) = 65536 * (framer % 256) + c := by
  have e1 : framer &&& 0xff = framer % 256 := Nat.and_pow_two_sub_one_eq_mod _ 8
  have e2 : (framer % 256) <<< 16 = 2 ^ 16 * (framer % 256) := by
    rw [Nat.shiftLeft_eq, Nat.mul_comm]
  have e3 := Nat.mul_add_lt_is_or hc (framer % 256)
  rw [e1, e2, ← e3]
  unfold u32
  have := Nat.mod_lt framer (show 256 > 0 by norm_num)
  norm_num at hc ⊢
  omega

/-- C27: on the PCIe path, with 8-bit configuration fields, `allocate_sid`
appends exactly one write to the log of the kernel proxy: register
`PCIE_ROUTER_REG(0)` := `((counter & 0xff) << 16) | c`, where `c =
get_pcie_dma_channel(router_dst_there, dst_prefix)` equals `3*g + dst_prefix`
with `g = 0` when `router_dst_there` is `X300_XB_DST_R0` and `g = 1`
otherwise.  For every counter value, bits 23..16 of that word equal bits
23..16 (the localFramerID) of the Stream-ID the same call returns, and the low
16 bits of the word are `c`. -/
theorem allocate_sid_router_word (K : x300_defs) (s : sid_state) (config : sid_config_t)
    (hpath : s.xport_path = "nirio") (hc : config.is_uint8) :
    (allocate_sid K s config).2.kernel_proxy_pokes = s.kernel_proxy_pokes ++
      [(K.PCIE_ROUTER_REG 0, u32 (((s._sid_framer &&& 0xff) <<< 16) |||
        get_pcie_dma_channel K config.router_dst_there config.dst_prefix))] ∧
    get_pcie_dma_channel K config.router_dst_there config.dst_prefix =
      3 * (if config.router_dst_there = K.X300_XB_DST_R0 then 0 else 1) + config.dst_prefix ∧
    (u32 (((s._sid_framer &&& 0xff) <<< 16) |||
        get_pcie_dma_channel K config.router_dst_there config.dst_prefix) >>> 16) % 256 =
      sid_framer (allocate_sid K s config).1 ∧
    u32 (((s._sid_framer &&& 0xff) <<< 16) |||
        get_pcie_dma_channel K config.router_dst_there config.dst_prefix) % 2 ^ 16 =
      get_pcie_dma_channel K config.router_dst_there config.dst_prefix := by
  have hce := get_pcie_dma_channel_eq K config.router_dst_there config.dst_prefix hc.2.1
  have hlt : get_pcie_dma_channel K config.router_dst_there config.dst_prefix < 2 ^ 16 := by
    rw [hce]
    have := hc.2.1
    split_ifs <;> norm_num <;> omega
  have hw := router_word_eq s._sid_framer _ hlt
  have hf : sid_framer (allocate_sid K s config).1 = s._sid_framer % 256 :=
    sid_framer_sid_word K s._sid_framer config hc.1
  refine ⟨?_, hce, ?_, ?_⟩
  · simp [allocate_sid, hpath]
  · rw [hf, hw, Nat.shiftRight_eq_div_pow]
    norm_num at hlt ⊢
    omega
  · rw [hw]
    norm_num at hlt ⊢
    omega

/-- Witness of `allocate_sid_router_word`: counter 257, TX stream of radio 1;
the word is `0x00010003` and the Stream-ID has 1 in bits 23..16. -/
theorem allocate_sid_router_word_witness :
    (u32 (((257 &&& 0xff) <<< 16) ||| get_pcie_dma_channel sample_defs 3 0) >>> 16) % 256 =
      sid_framer (allocate_sid sample_defs ⟨"nirio", zero_iface, [], 257⟩ ⟨2, 0, 3, 4⟩).1 ∧
    u32 (((257 &&& 0xff) <<< 16) ||| get_pcie_dma_channel sample_defs 3 0) = 0x00010003 :=
  ⟨(allocate_sid_router_word sample_defs ⟨"nirio", zero_iface, [], 257⟩ ⟨2, 0, 3, 4⟩
      (by decide) (by decide)).2.2.1, by decide⟩

theorem sid_stream_eq_add (config : sid_config_t) (hp : config.dst_prefix < 4)
    (hd : config.router_dst_there < 64) :
    sid_stream config = 4 * config.router_dst_there + config.dst_prefix := by
  rw [sid_stream_eq_mod, Nat.or_comm, Nat.shiftLeft_eq, Nat.mul_comm]
  have e := Nat.mul_add_lt_is_or (show config.dst_prefix < 2 ^ 2 from hp) config.router_dst_there
  rw [← e]
  norm_num
  omega

theorem clear_router_pokes (K : x300_defs) (rows : List Nat) :
    ∀ (zpu_ctrl : wb_iface),
      (rows.foldl (fun ctrl i => ctrl.poke32 (K.SR_ADDR K.SETXB_BASE i) 0) zpu_ctrl).pokes =
        zpu_ctrl.pokes ++ rows.map (fun i => (K.SR_ADDR K.SETXB_BASE i, 0)) := by
  induction rows with
  | nil => intro zpu_ctrl; simp
  | cons r rs ih =>
    intro zpu_ctrl
    rw [List.foldl_cons, ih]
    simp [wb_iface.poke32, u32]

/-- C28: for destination prefixes below 4 and destination ports below 64,
two configurations with different (destination port, prefix) pairs have
different streamSelector values `(dst_prefix | (router_dst_there << 2)) &
0xff` and different outbound rows `256 + streamSelector`.  For every input, the second register write of `allocate_sid` goes to
row `256 + streamSelector`, which lies in 256..511; `setup_mb` clears exactly
the rows 0..511, this row among them; and the row differs from every row
0..255, in particular from the inbound row `X300_DEVICE_HERE` when that is
below 256. -/
theorem outbound_rows (K : x300_defs) (s : sid_state) (config config' : sid_config_t)
    (zpu_ctrl : wb_iface) :
    (config.dst_prefix < 4 → config.router_dst_there < 64 →
      config'.dst_prefix < 4 → config'.router_dst_there < 64 →
      (config.router_dst_there, config.dst_prefix) ≠
        (config'.router_dst_there, config'.dst_prefix) →
      sid_stream config ≠ sid_stream config' ∧
        256 + sid_stream config ≠ 256 + sid_stream config') ∧
    (allocate_sid K s config).2.zpu_ctrl.pokes.map Prod.fst =
      s.zpu_ctrl.pokes.map Prod.fst ++
        [K.SR_ADDR K.SET0_BASE K.ZPU_SR_XB_LOCAL,
          K.SR_ADDR K.SETXB_BASE (256 + sid_stream config),
          K.SR_ADDR K.SETXB_BASE (0 + K.X300_DEVICE_HERE)] ∧
    (256 ≤ 256 + sid_stream config ∧ 256 + sid_stream config ≤ 511) ∧
    (clear_router K zpu_ctrl).pokes = zpu_ctrl.pokes ++
      (List.range 512).map (fun i => (K.SR_ADDR K.SETXB_BASE i, 0)) ∧
    (K.SR_ADDR K.SETXB_BASE (256 + sid_stream config), 0) ∈ (clear_router K zpu_ctrl).pokes ∧
    (∀ row, row < 256 → 256 + sid_stream config ≠ row) ∧
    (K.X300_DEVICE_HERE < 256 → 256 + sid_stream config ≠ 0 + K.X300_DEVICE_HERE) := by
  have hlt := sid_stream_lt config
  have hclear := clear_router_pokes K (List.range 512) zpu_ctrl
  refine ⟨?_, ?_, ⟨by omega, by omega⟩, hclear, ?_, ?_, ?_⟩
  · intro h1 h2 h3 h4 hne
    have hs : sid_stream config ≠ sid_stream config' := by
      intro h
      rw [sid_stream_eq_add config h1 h2, sid_stream_eq_add config' h3 h4] at h
      apply hne
      rw [Prod.mk.injEq]
      omega
    exact ⟨hs, fun h => hs (by omega)⟩
  · simp [allocate_sid, wb_iface.poke32]
  · show _ ∈ ((List.range 512).foldl _ zpu_ctrl).pokes
    rw [hclear]
    apply List.mem_append_right
    apply List.mem_map.mpr
    exact ⟨256 + sid_stream config, List.mem_range.mpr (by omega), rfl⟩
  · intro row h
    omega
  · intro h
    omega

/-- Witness of `outbound_rows`: the control stream and the TX stream of radio
0 share the destination port and differ in the prefix, so their selectors
and their outbound rows differ. -/
theorem outbound_rows_witness :
    sid_stream ⟨2, 1, 2, 0⟩ ≠ sid_stream ⟨2, 0, 2, 0⟩ ∧
      256 + sid_stream ⟨2, 1, 2, 0⟩ ≠ 256 + sid_stream ⟨2, 0, 2, 0⟩ :=
  (outbound_rows sample_defs (new_session "eth" zero_iface) ⟨2, 1, 2, 0⟩ ⟨2, 0, 2, 0⟩
    zero_iface).1 (by decide) (by decide) (by decide) (by decide) (by decide)

/-! ## The PLL divider of the DAC -/

theorem n0_loop_first (refclk : ℚ) (h : refclk * 4 ≥ 1000000000) :
    n0_loop refclk 3 0 0 = (0, 1) := by
  have c : refclk * ((1 <<< 0 : Nat) : ℚ) * 4 ≥ 1000000000 := by norm_num; linarith
  rw [show (3 : Nat) = 2 + 1 from rfl, n0_loop]
  simp only [if_pos c]
  rfl

theorem n0_loop_second (refclk : ℚ) (h1 : ¬ refclk * 4 ≥ 1000000000)
    (h2 : refclk * 8 ≥ 1000000000) : n0_loop refclk 3 0 0 = (1, 2) := by
  have c1 : ¬ refclk * ((1 <<< 0 : Nat) : ℚ) * 4 ≥ 1000000000 := by norm_num; linarith
  have c2 : refclk * ((1 <<< (0 + 1) : Nat) : ℚ) * 4 ≥ 1000000000 := by
    rw [show (1 <<< (0 + 1) : Nat) = 2 from rfl]; norm_num; linarith
  rw [show (3 : Nat) = 2 + 1 from rfl, n0_loop]
  simp only [if_neg c1]
  rw [show (2 : Nat) = 1 + 1 from rfl, n0_loop]
  simp only [if_pos c2]
  rfl

theorem n0_loop_third (refclk : ℚ) (h2 : ¬ refclk * 8 ≥ 1000000000)
    (h3 : refclk * 16 ≥ 1000000000) : n0_loop refclk 3 0 0 = (2, 4) := by
  have c1 : ¬ refclk * ((1 <<< 0 : Nat) : ℚ) * 4 ≥ 1000000000 := by norm_num; linarith
  have c2 : ¬ refclk * ((1 <<< (0 + 1) : Nat) : ℚ) * 4 ≥ 1000000000 := by
    rw [show (1 <<< (0 + 1) : Nat) = 2 from rfl]; norm_num; linarith
  have c3 : refclk * ((1 <<< (0 + 1 + 1) : Nat) : ℚ) * 4 ≥ 1000000000 := by
    rw [show (1 <<< (0 + 1 + 1) : Nat) = 4 from rfl]; norm_num; linarith
  rw [show (3 : Nat) = 2 + 1 from rfl, n0_loop]
  simp only [if_neg c1]
  rw [show (2 : Nat) = 1 + 1 from rfl, n0_loop]
  simp only [if_neg c2]
  rw [show (1 : Nat) = 0 + 1 from rfl, n0_loop]
  simp only [if_pos c3]
  rfl

theorem n0_loop_none (refclk : ℚ) (h3 : ¬ refclk * 16 ≥ 1000000000) :
    n0_loop refclk 3 0 0 = (3, 4) := by
  have c1 : ¬ refclk * ((1 <<< 0 : Nat) : ℚ) * 4 ≥ 1000000000 := by norm_num; linarith
  have c2 : ¬ refclk * ((1 <<< (0 + 1) : Nat) : ℚ) * 4 ≥ 1000000000 := by
    rw [show (1 <<< (0 + 1) : Nat) = 2 from rfl]; norm_num; linarith
  have c3 : ¬ refclk * ((1 <<< (0 + 1 + 1) : Nat) : ℚ) * 4 ≥ 1000000000 := by
    rw [show (1 <<< (0 + 1 + 1) : Nat) = 4 from rfl]; norm_num; linarith
  rw [show (3 : Nat) = 2 + 1 from rfl, n0_loop]
  simp only [if_neg c1]
  rw [show (2 : Nat) = 1 + 1 from rfl, n0_loop]
  simp only [if_neg c2]
  rw [show (1 : Nat) = 0 + 1 from rfl, n0_loop]
  simp only [if_neg c3]
  rfl

theorem dac_init_returned (refclk : ℚ) (dac : ad9146) (N0_val N0 : Nat)
    (hl : n0_loop refclk 3 0 0 = (N0_val, N0)) (h1 : refclk * N0 * 4 ≥ 1000000000)
    (h2 : refclk * N0 * 4 ≤ 2000000000) :
    dac_init refclk dac =
      (.returned (), ⟨dac.spi_writes ++ dac_reset_words ++ dac_pll_words N0_val⟩) := by
  simp only [dac_init, hl]
  rw [if_neg (not_not.mpr h1), if_neg (not_not.mpr h2)]
  simp [write_ad9146_reg, dac_reset_words, dac_pll_words]

theorem dac_init_low (refclk : ℚ) (dac : ad9146) (N0_val N0 : Nat)
    (hl : n0_loop refclk 3 0 0 = (N0_val, N0)) (h1 : ¬ refclk * N0 * 4 ≥ 1000000000) :
    dac_init refclk dac = (.raised (.assertion_error "(_refclk * N0 * N1) >= 1e9"),
      ⟨dac.spi_writes ++ dac_reset_words⟩) := by
  simp only [dac_init, hl]
  rw [if_pos h1]
  simp [write_ad9146_reg, dac_reset_words]

theorem dac_init_high (refclk : ℚ) (dac : ad9146) (N0_val N0 : Nat)
    (hl : n0_loop refclk 3 0 0 = (N0_val, N0)) (h1 : refclk * N0 * 4 ≥ 1000000000)
    (h2 : ¬ refclk * N0 * 4 ≤ 2000000000) :
    dac_init refclk dac = (.raised (.assertion_error "(_refclk * N0 * N1) <= 2e9"),
      ⟨dac.spi_writes ++ dac_reset_words⟩) := by
  simp only [dac_init, hl]
  rw [if_neg (not_not.mpr h1), if_pos h2]
  simp [write_ad9146_reg, dac_reset_words]

theorem dac_init_in_range (refclk : ℚ) (dac : ad9146) (hlo : 62500000 ≤ refclk)
    (hhi : refclk ≤ 500000000) :
    ∃ N0_val N0 : Nat, n0_loop refclk 3 0 0 = (N0_val, N0) ∧ N0_val ≤ 2 ∧ N0 = 2 ^ N0_val ∧
      refclk * N0 * 4 ≥ 1000000000 ∧ refclk * N0 * 4 ≤ 2000000000 ∧
      (∀ n : Nat, n = 1 ∨ n = 2 ∨ n = 4 → refclk * n * 4 ≥ 1000000000 → N0 ≤ n) ∧
      dac_init refclk dac =
        (.returned (), ⟨dac.spi_writes ++ dac_reset_words ++ dac_pll_words N0_val⟩) := by
  by_cases h1 : refclk * 4 ≥ 1000000000
  · have hl := n0_loop_first refclk h1
    have v1 : refclk * ((1 : Nat) : ℚ) * 4 ≥ 1000000000 := by norm_num; linarith
    have v2 : refclk * ((1 : Nat) : ℚ) * 4 ≤ 2000000000 := by norm_num; linarith
    refine ⟨0, 1, hl, by omega, by norm_num, v1, v2, ?_, dac_init_returned refclk dac 0 1 hl v1 v2⟩
    intro n hn _
    omega
  · by_cases h2 : refclk * 8 ≥ 1000000000
    · have hl := n0_loop_second refclk h1 h2
      have v1 : refclk * ((2 : Nat) : ℚ) * 4 ≥ 1000000000 := by norm_num; linarith
      have v2 : refclk * ((2 : Nat) : ℚ) * 4 ≤ 2000000000 := by norm_num; linarith
      refine ⟨1, 2, hl, by omega, by norm_num, v1, v2, ?_,
        dac_init_returned refclk dac 1 2 hl v1 v2⟩
      intro n hn hv
      rcases hn with rfl | rfl | rfl
      · exact absurd (by norm_num at hv; linarith) h1
      · omega
      · omega
    · have h3 : refclk * 16 ≥ 1000000000 := by linarith
      have hl := n0_loop_third refclk h2 h3
      have v1 : refclk * ((4 : Nat) : ℚ) * 4 ≥ 1000000000 := by norm_num; linarith
      have v2 : refclk * ((4 : Nat) : ℚ) * 4 ≤ 2000000000 := by norm_num; linarith
      refine ⟨2, 4, hl, by omega, by norm_num, v1, v2, ?_,
        dac_init_returned refclk dac 2 4 hl v1 v2⟩
      intro n hn hv
      rcases hn with rfl | rfl | rfl
      · exact absurd (by norm_num at hv; linarith) h1
      · exact absurd (by norm_num at hv; linarith) h2
      · omega

theorem dac_init_out_of_range (refclk : ℚ) (dac : ad9146)
    (h : ¬ (62500000 ≤ refclk ∧ refclk ≤ 500000000)) :
    ∃ text, dac_init refclk dac =
      (.raised (.assertion_error text), ⟨dac.spi_writes ++ dac_reset_words⟩) := by
  by_cases hlo : 62500000 ≤ refclk
  · have hhi : ¬ refclk ≤ 500000000 := fun c => h ⟨hlo, c⟩
    have h1 : refclk * 4 ≥ 1000000000 := by linarith
    have hl := n0_loop_first refclk h1
    have v1 : refclk * ((1 : Nat) : ℚ) * 4 ≥ 1000000000 := by norm_num; linarith
    have v2 : ¬ refclk * ((1 : Nat) : ℚ) * 4 ≤ 2000000000 := by norm_num; linarith
    exact ⟨_, dac_init_high refclk dac 0 1 hl v1 v2⟩
  · have h3 : ¬ refclk * 16 ≥ 1000000000 := by
      intro c
      exact hlo (by linarith)
    have hl := n0_loop_none refclk h3
    have v1 : ¬ refclk * ((4 : Nat) : ℚ) * 4 ≥ 1000000000 := by norm_num; linarith
    exact ⟨_, dac_init_low refclk dac 3 4 hl v1⟩

theorem pll_divider_byte (N0_val : Nat) (h : N0_val ≤ 2) :
    ((0xD1 ||| (N0_val <<< 2)) >>> 2) &&& 0x3 = N0_val ∧
      (0xD1 ||| (N0_val <<< 2)) &&& 0xF3 = 0xD1 ∧ (0xD1 ||| (N0_val <<< 2)) < 256 := by
  interval_cases N0_val <;> decide

/-- C30: with the reference clock an exact rational, `init` returns if and
only if 62.5 MHz ≤ refclk ≤ 500 MHz.  In that range the loop leaves `N0 =
2^N0_val` with `N0_val` in {0, 1, 2}; `N0` is the smallest of 1, 2, 4 with
`refclk * N0 * 4 ≥ 1e9`; `refclk * N0 * 4` lies in [1e9, 2e9]; the SPI writes
are the three reset writes followed by `0xD1 | (N0_val << 2)` to register
0x0D and the thirteen further writes; that byte has `N0_val` in bits 3..2 and
the bits of 0xD1 elsewhere.  Outside the range `init` raises an assertion
error after the three reset writes only, so before register 0x0D is
written. -/
theorem dac_init_pll_divider (refclk : ℚ) (dac : ad9146) :
    ((dac_init refclk dac).1 = .returned () ↔ 62500000 ≤ refclk ∧ refclk ≤ 500000000) ∧
    (62500000 ≤ refclk ∧ refclk ≤ 500000000 →
      ∃ N0_val N0 : Nat, n0_loop refclk 3 0 0 = (N0_val, N0) ∧ N0_val ≤ 2 ∧
        N0 = 2 ^ N0_val ∧
        refclk * N0 * 4 ≥ 1000000000 ∧ refclk * N0 * 4 ≤ 2000000000 ∧
        (∀ n : Nat, n = 1 ∨ n = 2 ∨ n = 4 → refclk * n * 4 ≥ 1000000000 → N0 ≤ n) ∧
        dac_init refclk dac =
          (.returned (), ⟨dac.spi_writes ++ dac_reset_words ++ dac_pll_words N0_val⟩) ∧
        (dac_pll_words N0_val).head? = some (ad9146_word 0x0D (0xD1 ||| (N0_val <<< 2))) ∧
        ((0xD1 ||| (N0_val <<< 2)) >>> 2) &&& 0x3 = N0_val ∧
        (0xD1 ||| (N0_val <<< 2)) &&& 0xF3 = 0xD1 ∧ (0xD1 ||| (N0_val <<< 2)) < 256) ∧
    (¬ (62500000 ≤ refclk ∧ refclk ≤ 500000000) →
      (∃ text, dac_init refclk dac =
        (.raised (.assertion_error text), ⟨dac.spi_writes ++ dac_reset_words⟩)) ∧
      ∀ w ∈ dac_reset_words, w >>> 8 ≠ 0x0D) := by
  refine ⟨?_, ?_, ?_⟩
  · constructor
    · intro h
      by_contra c
      obtain ⟨text, e⟩ := dac_init_out_of_range refclk dac c
      rw [e] at h
      simp at h
    · intro h
      obtain ⟨N0_val, N0, _, _, _, _, _, _, e⟩ := dac_init_in_range refclk dac h.1 h.2
      rw [e]
  · intro h
    obtain ⟨N0_val, N0, a1, a2, a3, a4, a5, a6, a7⟩ := dac_init_in_range refclk dac h.1 h.2
    have b := pll_divider_byte N0_val a2
    exact ⟨N0_val, N0, a1, a2, a3, a4, a5, a6, a7, rfl, b.1, b.2.1, b.2.2⟩
  · intro h
    exact ⟨dac_init_out_of_range refclk dac h, by decide⟩

/-- Witness of `dac_init_pll_divider`: a reference clock of 200 MHz is in the
range, so `init` returns. -/
theorem dac_init_pll_divider_witness :
    (62500000 ≤ (200000000 : ℚ) ∧ (200000000 : ℚ) ≤ 500000000) ∧
      (dac_init 200000000 ⟨[]⟩).1 = .returned () :=
  ⟨by decide, (dac_init_pll_divider 200000000 ⟨[]⟩).1.mpr (by decide)⟩

end X300
